import Mathlib

/-!
Shallow embedding of the jnes NES emulator core (Go) in Lean 4.

Machine bytes and 16-bit words are modelled as `Nat` with explicit
truncation: Go `uint16` arithmetic wraps modulo 65536 and Go `byte`
arithmetic wraps modulo 256.  Byte stores (RAM, ROM, OAM, palette RAM)
are modelled as total functions `Nat → Nat`; the Go arrays behind them
have fixed sizes (2048 for work/video RAM, 256 for OAM, 32 for palette
RAM) and an out-of-range index is a runtime bounds fault in Go, so every
in-range theorem tracks the index actually used.  Fallible operations
return `Except String`, mirroring the Go `error` results; the error
strings are fixed stand-ins for the formatted Go messages.
-/

namespace Jnes

/-- Go `uint16` truncation. -/
def u16 (n : Nat) : Nat := n % 65536

/-- Go `byte` truncation. -/
def u8 (n : Nat) : Nat := n % 256

/-- Go `uint16` subtraction `a - b` with two's-complement wraparound. -/
def sub16 (a b : Nat) : Nat := (a + 65536 - b % 65536) % 65536

/-- Update a function-modelled byte store at one index. -/
def upd (f : Nat → Nat) (i x : Nat) : Nat → Nat := fun j => if j = i then x else f j

/-! ## Controller (controller.go)

The controller latches an 8-button snapshot `buttons` (index order
A, B, Select, Start, Up, Down, Left, Right), a read index (a Go `byte`,
so it wraps modulo 256) and a strobe latch byte. -/

structure Controller where
  buttons : Nat → Bool := fun _ => false
  index : Nat := 0
  strobe : Nat := 0

/-- Embedding of `(*Controller).read`: report the current button bit,
advance the index (byte wraparound), and pin the index to 0 while the
strobe bit is set. -/
def Controller.read (c : Controller) : Nat × Controller :=
  let ret := if c.index < 8 ∧ c.buttons c.index then 1 else 0
  let index := u8 (c.index + 1)
  let index := if c.strobe &&& 1 = 1 then 0 else index
  (ret, { c with index := index })

/-- Embedding of `(*Controller).write`: store the strobe byte and reset
the index when the strobe bit is set. -/
def Controller.write (c : Controller) (data : Nat) : Controller :=
  let c := { c with strobe := data }
  if c.strobe &&& 1 = 1 then { c with index := 0 } else c

/-- Value of the k-th read (0-indexed) in a run of consecutive
controller reads starting from state `c`. -/
def Controller.readSeq (c : Controller) : Nat → Nat
  | 0 => (c.read).1
  | k + 1 => Controller.readSeq (c.read).2 k

/-! ## Cartridge (cartridge.go, mapper0) -/

inductive TableMirrorMode where
  | horizontal
  | vertical
deriving DecidableEq

/-- Cartridge with mapper0 behaviour; `prgROM` is indexed modulo its
length `prgLen` and `chrROM` is read directly. -/
structure Cartridge where
  prgROM : Nat → Nat := fun _ => 0
  prgLen : Nat := 0x4000
  chrROM : Nat → Nat := fun _ => 0
  flags6 : Nat := 0

/-- Embedding of `(*Cartridge).mirror`: bit 0 of flags6 selects vertical. -/
def Cartridge.mirror (c : Cartridge) : TableMirrorMode :=
  if c.flags6 &&& 1 = 1 then .vertical else .horizontal

/-- Embedding of `(*Cartridge).readFromCPU` (mapper0). -/
def Cartridge.readFromCPU (c : Cartridge) (address : Nat) : Except String Nat :=
  if 0x8000 ≤ address then .ok (c.prgROM ((address - 0x8000) % c.prgLen))
  else .error "Reading PRGRAM not implemented."

/-- Embedding of `(*Cartridge).writeFromCPU` (mapper0): always an error. -/
def Cartridge.writeFromCPU (_ : Cartridge) (address _data : Nat) : Except String Unit :=
  if 0x8000 ≤ address then .error "Writing data to PrgROM not allowed"
  else .error "Writing data to PRGRAM not implemented."

/-- Embedding of `(*Cartridge).readFromPPU`. -/
def Cartridge.readFromPPU (c : Cartridge) (address : Nat) : Except String Nat :=
  .ok (c.chrROM address)

/-- Embedding of `(*Cartridge).writeFromPPU`: always an error. -/
def Cartridge.writeFromPPU (_ : Cartridge) (_address _data : Nat) : Except String Unit :=
  .error "Writing data to pattern tables not allowed"

/-! ## PPU bus (ppubus.go)

The PPU bus routes pattern-table accesses to the cartridge and
nametable accesses to the 2 KiB video RAM through the mirroring
function.  `vram` models the 2048-byte video RAM. -/

/-- Embedding of the `offsets` table: per mirror mode, the amounts
subtracted for the quadrants $2400-, $2800- and $2C00-. -/
def offsets : TableMirrorMode → List Nat
  | .horizontal => [0x0400, 0x0000, 0x0400]
  | .vertical => [0x0000, 0x0800, 0x0800]

/-- Embedding of `(*PPUBus).mirrorAddress`. -/
def PPUBus.mirrorAddress (cart : Cartridge) (address : Nat) : Nat :=
  let mode := cart.mirror
  if address < 0x2400 then address - 0x2000
  else if address < 0x2800 then address - 0x2000 - (offsets mode).getD 0 0
  else if address < 0x2C00 then address - 0x2000 - (offsets mode).getD 1 0
  else address - 0x2000 - (offsets mode).getD 2 0

/-- Embedding of `(*PPUBus).read`. -/
def PPUBus.read (cart : Cartridge) (vram : Nat → Nat) (address : Nat) :
    Except String Nat :=
  if address < 0x2000 then cart.readFromPPU address
  else if address < 0x3000 then .ok (vram (PPUBus.mirrorAddress cart address))
  else if address < 0x3F00 then .ok (vram (PPUBus.mirrorAddress cart (address - 0x1000)))
  else .error "Unknown PPU bus read"

/-- Embedding of `(*PPUBus).write`; returns the updated video RAM. -/
def PPUBus.write (cart : Cartridge) (vram : Nat → Nat) (address data : Nat) :
    Except String (Nat → Nat) :=
  if address < 0x2000 then
    match cart.writeFromPPU address data with
    | .ok _ => .ok vram
    | .error e => .error e
  else if address < 0x3000 then .ok (upd vram (PPUBus.mirrorAddress cart address) data)
  else if address < 0x3F00 then .ok (upd vram (PPUBus.mirrorAddress cart (address - 0x1000)) data)
  else .error "Unknown PPU bus write"

/-! ## Palette RAM (ppu.go `paletteRAM`) -/

/-- Embedding of `(*paletteRAM).read`: the 32-byte palette window with
its address-specific mirrors. -/
def PaletteRAM.read (ram : Nat → Nat) (address : Nat) : Nat :=
  let mirrored := (address - 0x3F00) % 0x20 + 0x3F00
  let mirrored :=
    if address = 0x3F10 ∨ address = 0x3F14 ∨ address = 0x3F18 ∨ address = 0x3F1C then
      address - 0x10
    else if address = 0x3F04 ∨ address = 0x3F08 ∨ address = 0x3F0C then 0x3F00
    else mirrored
  ram (mirrored - 0x3F00)

/-- Embedding of `(*paletteRAM).write`. -/
def PaletteRAM.write (ram : Nat → Nat) (address data : Nat) : Nat → Nat :=
  let mirrored := (address - 0x3F00) % 0x20 + 0x3F00
  let mirrored :=
    if address = 0x3F10 ∨ address = 0x3F14 ∨ address = 0x3F18 ∨ address = 0x3F1C then
      address - 0x10
    else mirrored
  upd ram (mirrored - 0x3F00) data

/-! ## PPU (ppu.go, the revision with the dot state machine)

The PPU state carries every field of the Go `PPU` struct except the bus
pointer (the cartridge and video RAM are passed to the functions that
use them).  The 256x240 output image is modelled as a function from
(x, y) to an RGBA colour. -/

structure RGBA where
  r : Nat := 0
  g : Nat := 0
  b : Nat := 0
  a : Nat := 0
deriving DecidableEq

/-- Embedding of the fixed 64-entry `colors` palette table ("RGB"
palette); Go indexes the array directly, here an out-of-range index
falls back to the zero colour. -/
def colors : List RGBA := [
  ⟨0x6D, 0x6D, 0x6D, 255⟩, ⟨0x00, 0x24, 0x92, 255⟩, ⟨0x00, 0x00, 0xDB, 255⟩, ⟨0x6D, 0x49, 0xDB, 255⟩,
  ⟨0x92, 0x00, 0x6D, 255⟩, ⟨0xB6, 0x00, 0x6D, 255⟩, ⟨0xB6, 0x24, 0x00, 255⟩, ⟨0x92, 0x49, 0x00, 255⟩,
  ⟨0x6D, 0x49, 0x00, 255⟩, ⟨0x24, 0x49, 0x00, 255⟩, ⟨0x00, 0x6D, 0x24, 255⟩, ⟨0x00, 0x92, 0x00, 255⟩,
  ⟨0x00, 0x49, 0x49, 255⟩, ⟨0x00, 0x00, 0x00, 255⟩, ⟨0x00, 0x00, 0x00, 255⟩, ⟨0x00, 0x00, 0x00, 255⟩,
  ⟨0xB6, 0xB6, 0xB6, 255⟩, ⟨0x00, 0x6D, 0xDB, 255⟩, ⟨0x00, 0x49, 0xFF, 255⟩, ⟨0x92, 0x00, 0xFF, 255⟩,
  ⟨0xB6, 0x00, 0xFF, 255⟩, ⟨0xFF, 0x00, 0x92, 255⟩, ⟨0xFF, 0x00, 0x00, 255⟩, ⟨0xDB, 0x6D, 0x00, 255⟩,
  ⟨0x92, 0x6D, 0x00, 255⟩, ⟨0x24, 0x92, 0x00, 255⟩, ⟨0x00, 0x92, 0x00, 255⟩, ⟨0x00, 0xB6, 0x6D, 255⟩,
  ⟨0x00, 0x92, 0x92, 255⟩, ⟨0x24, 0x24, 0x24, 255⟩, ⟨0x00, 0x00, 0x00, 255⟩, ⟨0x00, 0x00, 0x00, 255⟩,
  ⟨0xFF, 0xFF, 0xFF, 255⟩, ⟨0x6D, 0xB6, 0xFF, 255⟩, ⟨0x92, 0x92, 0xFF, 255⟩, ⟨0xDB, 0x6D, 0xFF, 255⟩,
  ⟨0xFF, 0x00, 0xFF, 255⟩, ⟨0xFF, 0x6D, 0xFF, 255⟩, ⟨0xFF, 0x92, 0x00, 255⟩, ⟨0xFF, 0xB6, 0x00, 255⟩,
  ⟨0xDB, 0xDB, 0x00, 255⟩, ⟨0x6D, 0xDB, 0x00, 255⟩, ⟨0x00, 0xFF, 0x00, 255⟩, ⟨0x49, 0xFF, 0xDB, 255⟩,
  ⟨0x00, 0xFF, 0xFF, 255⟩, ⟨0x49, 0x49, 0x49, 255⟩, ⟨0x00, 0x00, 0x00, 255⟩, ⟨0x00, 0x00, 0x00, 255⟩,
  ⟨0xFF, 0xFF, 0xFF, 255⟩, ⟨0xB6, 0xDB, 0xFF, 255⟩, ⟨0xDB, 0xB6, 0xFF, 255⟩, ⟨0xFF, 0xB6, 0xFF, 255⟩,
  ⟨0xFF, 0x92, 0xFF, 255⟩, ⟨0xFF, 0xB6, 0xB6, 255⟩, ⟨0xFF, 0xDB, 0x92, 255⟩, ⟨0xFF, 0xFF, 0x49, 255⟩,
  ⟨0xFF, 0xFF, 0x6D, 255⟩, ⟨0xB6, 0xFF, 0x49, 255⟩, ⟨0x92, 0xFF, 0x6D, 255⟩, ⟨0x49, 0xFF, 0xDB, 255⟩,
  ⟨0x92, 0xDB, 0xFF, 255⟩, ⟨0x92, 0x92, 0x92, 255⟩, ⟨0x00, 0x00, 0x00, 255⟩, ⟨0x00, 0x00, 0x00, 255⟩]

/-- Embedding of the `sprite` OAM entry struct. -/
structure Sprite where
  index : Nat := 0
  y : Nat := 0
  tile : Nat := 0
  attr : Nat := 0
  x : Nat := 0

/-- Embedding of `(*sprite).priority`. -/
def Sprite.priority (s : Sprite) : Nat := s.attr >>> 5 &&& 1

/-- Embedding of `(*sprite).horizontalFlip`. -/
def Sprite.horizontalFlip (s : Sprite) : Bool := s.attr >>> 6 &&& 1 = 1

/-- Embedding of `(*sprite).verticalFlip`. -/
def Sprite.verticalFlip (s : Sprite) : Bool := s.attr >>> 7 &&& 1 = 1

/-- Embedding of `(*sprite).paletteAddress`. -/
def Sprite.paletteAddress (s : Sprite) (value : Nat) : Nat :=
  (0x3F00 ||| ((s.attr &&& 3) + 4) * 4) + value

/-- PPU state: every field of the Go `PPU` struct (minus the bus
pointer).  Byte stores are functions; `picture` is the output image. -/
structure PPU where
  oamAddress : Nat := 0
  primaryOAM : Nat → Nat := fun _ => 0
  secondaryOAM : Nat → Sprite := fun _ => {}
  secondaryNum : Nat := 0
  spriteOverflow : Bool := false
  spriteZeroHit : Bool := false
  v : Nat := 0
  t : Nat := 0
  x : Nat := 0
  w : Bool := false
  buffer : Nat := 0
  nmiOccurred : Bool := false
  oldNMI : Bool := false
  nmiOutput : Bool := false
  nameTableFlag : Nat := 0
  vramIncrementFlag : Nat := 0
  spriteTableFlag : Nat := 0
  backgroundTableFlag : Nat := 0
  spriteSizeFlag : Nat := 0
  masterSlaveSelectFlag : Nat := 0
  grayScale : Bool := false
  showLeftBackground : Bool := false
  showLeftSprite : Bool := false
  showBackground : Bool := false
  showSprite : Bool := false
  emphasizeRed : Bool := false
  emphasizeGreen : Bool := false
  emphasizeBlue : Bool := false
  register : Nat := 0
  paletteRAM : Nat → Nat := fun _ => 0
  nameTableByte : Nat := 0
  attributeTableByte : Nat := 0
  lowTileByte : Nat := 0
  highTileByte : Nat := 0
  tileDataBuffer : Nat → Nat := fun _ => 0
  cycle : Nat := 0
  scanline : Nat := 0
  picture : Nat → Nat → RGBA := fun _ _ => {}

/-- Embedding of `(*PPU).Reset`. -/
def PPU.reset (p : PPU) : PPU := { p with cycle := 0, scanline := 240 }

/-- Embedding of `(*PPU).Frame`: the frame-complete flag and the image. -/
def PPU.frame (p : PPU) : Bool × (Nat → Nat → RGBA) :=
  (decide (p.cycle = 257 ∧ p.scanline = 239), p.picture)

/-- Embedding of `(*PPU).updateNMI`. -/
def PPU.updateNMI (p : PPU) (flag : Bool) : PPU :=
  { p with nmiOccurred := flag, oldNMI := flag }

/-- Embedding of `(*PPU).writePPUCTRL` ($2000). -/
def PPU.writePPUCTRL (p : PPU) (data : Nat) : PPU :=
  { p with
    nameTableFlag := data &&& 3
    vramIncrementFlag := (data >>> 2) &&& 1
    spriteTableFlag := (data >>> 3) &&& 1
    backgroundTableFlag := (data >>> 4) &&& 1
    spriteSizeFlag := (data >>> 5) &&& 1
    masterSlaveSelectFlag := (data >>> 6) &&& 1
    nmiOutput := (data >>> 7) &&& 1 = 1
    t := (p.t &&& 0xF3FF) ||| ((data &&& 0x03) <<< 10) }

/-- Embedding of `(*PPU).writePPUMASK` ($2001). -/
def PPU.writePPUMASK (p : PPU) (data : Nat) : PPU :=
  { p with
    grayScale := data &&& 1 = 1
    showLeftBackground := (data >>> 1) &&& 1 = 1
    showLeftSprite := (data >>> 2) &&& 1 = 1
    showBackground := (data >>> 3) &&& 1 = 1
    showSprite := (data >>> 4) &&& 1 = 1
    emphasizeRed := (data >>> 5) &&& 1 = 1
    emphasizeGreen := (data >>> 6) &&& 1 = 1
    emphasizeBlue := (data >>> 7) &&& 1 = 1 }

/-- Embedding of `(*PPU).readPPUSTATUS` ($2002). -/
def PPU.readPPUSTATUS (p : PPU) : Nat × PPU :=
  let res := p.register &&& 0x1F
  let res := if p.spriteOverflow then res ||| (1 <<< 5) else res
  let res := if p.spriteZeroHit then res ||| (1 <<< 6) else res
  let res := if p.oldNMI then res ||| (1 <<< 7) else res
  (res, { p.updateNMI false with w := false })

/-- Embedding of `(*PPU).writeOAMADDR` ($2003). -/
def PPU.writeOAMADDR (p : PPU) (data : Nat) : PPU :=
  { p with oamAddress := data }

/-- Embedding of `(*PPU).readOAMDATA` ($2004). -/
def PPU.readOAMDATA (p : PPU) : Nat :=
  p.primaryOAM p.oamAddress

/-- Embedding of `(*PPU).writeOAMDATA` ($2004): write and auto-increment
the OAM address (byte wraparound). -/
def PPU.writeOAMDATA (p : PPU) (data : Nat) : PPU :=
  { p with
    primaryOAM := upd p.primaryOAM p.oamAddress data
    oamAddress := u8 (p.oamAddress + 1) }

/-- Embedding of `(*PPU).writePPUSCROLL` ($2005). -/
def PPU.writePPUSCROLL (p : PPU) (data : Nat) : PPU :=
  if !p.w then
    { p with
      t := (p.t &&& 0xFFE0) ||| (data >>> 3)
      x := data &&& 7
      w := true }
  else
    let t := (p.t &&& 0x8FFF) ||| ((data &&& 0x07) <<< 12)
    let t := (t &&& 0xFC1F) ||| ((data &&& 0xF8) <<< 2)
    { p with t := t, w := false }

/-- Embedding of `(*PPU).writePPUADDR` ($2006): the first write masks t
with 0xC0FF and ORs in `data <<< 8`, the second write fills the low
byte and copies t to v. -/
def PPU.writePPUADDR (p : PPU) (data : Nat) : PPU :=
  if !p.w then
    { p with t := (p.t &&& 0xC0FF) ||| (data <<< 8), w := true }
  else
    let t := (p.t &&& 0xFF00) ||| data
    { p with t := t, v := t, w := false }

/-- Embedding of `(*PPU).writePPUDATA` ($2007): palette addresses go to
the internal palette RAM, all others to the PPU bus; then v is
post-incremented by 1 or 32 (uint16 wraparound). -/
def PPU.writePPUDATA (p : PPU) (cart : Cartridge) (vram : Nat → Nat) (data : Nat) :
    Except String (PPU × (Nat → Nat)) :=
  let post := fun (p : PPU) =>
    if p.vramIncrementFlag = 0 then { p with v := u16 (p.v + 1) }
    else { p with v := u16 (p.v + 32) }
  if 0x3F00 ≤ p.v then
    .ok (post { p with paletteRAM := PaletteRAM.write p.paletteRAM p.v data }, vram)
  else
    match PPUBus.write cart vram p.v data with
    | .error e => .error ("Failed to write PPUDATA: " ++ e)
    | .ok vram' => .ok (post p, vram')

/-- Embedding of `(*PPU).readPPUDATA` ($2007): the bus is read first at
v (for every v); below $3F00 the buffered byte is returned and the
buffer refilled from the bus, otherwise the buffer is refilled from the
palette RAM; then v is post-incremented. -/
def PPU.readPPUDATA (p : PPU) (cart : Cartridge) (vram : Nat → Nat) :
    Except String (Nat × PPU) :=
  match PPUBus.read cart vram p.v with
  | .error e => .error ("Failed to read PPUDATA: " ++ e)
  | .ok data =>
    let (data, p) :=
      if p.v < 0x3F00 then (p.buffer, { p with buffer := data })
      else (data, { p with buffer := PaletteRAM.read p.paletteRAM p.v })
    let p :=
      if p.vramIncrementFlag = 0 then { p with v := u16 (p.v + 1) }
      else { p with v := u16 (p.v + 32) }
    .ok (data, p)

/-- Embedding of `(*PPU).color`. -/
def PPU.color (p : PPU) (value attributeTableData : Nat) : RGBA :=
  let x := p.cycle - 1
  let y := p.scanline
  let num := ((y &&& 8) >>> 2) ||| ((x &&& 8) >>> 3)
  let palette := (attributeTableData >>> (num <<< 1)) &&& 3
  let paletteIndex := PaletteRAM.read p.paletteRAM (0x3F00 ||| ((palette <<< 2) + value))
  colors.getD paletteIndex {}

/-- Embedding of `(*PPU).incrementCoarseX`. -/
def PPU.incrementCoarseX (p : PPU) : PPU :=
  if p.v &&& 0x001F = 31 then { p with v := (p.v &&& 0xFFE0) ^^^ 0x0400 }
  else { p with v := u16 (p.v + 1) }

/-- Embedding of `(*PPU).copyX`. -/
def PPU.copyX (p : PPU) : PPU :=
  { p with v := (p.v &&& 0xFBE0) ||| (p.t &&& 0x041F) }

/-- Embedding of `(*PPU).copyY`. -/
def PPU.copyY (p : PPU) : PPU :=
  { p with v := (p.v &&& 0x841F) ||| (p.t &&& 0x7BE0) }

/-- Embedding of `(*PPU).incrementY`. -/
def PPU.incrementY (p : PPU) : PPU :=
  if p.v &&& 0x7000 ≠ 0x7000 then { p with v := u16 (p.v + 0x1000) }
  else
    let v := p.v &&& 0x8FFF
    let y := (v &&& 0x03E0) >>> 5
    if y = 29 then { p with v := ((v ^^^ 0x0800) &&& 0xFC1F) ||| (0 <<< 5) }
    else if y = 31 then { p with v := (v &&& 0xFC1F) ||| (0 <<< 5) }
    else { p with v := (v &&& 0xFC1F) ||| ((y + 1) <<< 5) }

/-- Embedding of `(*PPU).fetchLowTileByte`. -/
def PPU.fetchLowTileByte (p : PPU) (cart : Cartridge) (vram : Nat → Nat) :
    Except String PPU :=
  let fineY := (p.v >>> 12) &&& 7
  let address := 0x1000 * p.backgroundTableFlag + p.nameTableByte * 16 + fineY
  match PPUBus.read cart vram address with
  | .error e => .error e
  | .ok data => .ok { p with lowTileByte := data }

/-- Embedding of `(*PPU).fetchHighTileByte`. -/
def PPU.fetchHighTileByte (p : PPU) (cart : Cartridge) (vram : Nat → Nat) :
    Except String PPU :=
  let fineY := (p.v >>> 12) &&& 7
  let address := 0x1000 * p.backgroundTableFlag + p.nameTableByte * 16 + fineY + 8
  match PPUBus.read cart vram address with
  | .error e => .error e
  | .ok data => .ok { p with highTileByte := data }

/-- Embedding of `(*PPU).fetchAttributeTableByte`. -/
def PPU.fetchAttributeTableByte (p : PPU) (cart : Cartridge) (vram : Nat → Nat) :
    Except String PPU :=
  let address := 0x23C0 ||| (p.v &&& 0x0C00) ||| ((p.v >>> 4) &&& 0x38) ||| ((p.v >>> 2) &&& 0x07)
  match PPUBus.read cart vram address with
  | .error e => .error e
  | .ok data => .ok { p with attributeTableByte := data }

/-- Embedding of `(*PPU).fetchNameTableByte`. -/
def PPU.fetchNameTableByte (p : PPU) (cart : Cartridge) (vram : Nat → Nat) :
    Except String PPU :=
  match PPUBus.read cart vram (0x2000 ||| (p.v &&& 0x0FFF)) with
  | .error e => .error e
  | .ok data => .ok { p with nameTableByte := data }

/-- Update of one secondary-OAM slot. -/
def updSprite (f : Nat → Sprite) (i : Nat) (s : Sprite) : Nat → Sprite :=
  fun j => if j = i then s else f j

/-- Loop body of `(*PPU).evaluateSprite` over the 64 primary-OAM
entries, carrying the secondary OAM under construction and the match
count. -/
def PPU.evaluateSpriteLoop (p : PPU) (i : Nat) (soam : Nat → Sprite) (count : Nat) :
    (Nat → Sprite) × Nat :=
  if i < 64 then
    let y := p.primaryOAM (i * 4)
    let tile := p.primaryOAM (i * 4 + 1)
    let attrData := p.primaryOAM (i * 4 + 2)
    let x := p.primaryOAM (i * 4 + 3)
    if y ≤ p.scanline + 1 ∧ p.scanline + 1 < y + 8 then
      let soam := if count < 8 then updSprite soam count ⟨i, y, tile, attrData, x⟩ else soam
      p.evaluateSpriteLoop (i + 1) soam (count + 1)
    else p.evaluateSpriteLoop (i + 1) soam count
  else (soam, count)
termination_by 64 - i

/-- Embedding of `(*PPU).evaluateSprite`. -/
def PPU.evaluateSprite (p : PPU) : PPU :=
  let (soam, spriteCount) := p.evaluateSpriteLoop 0 p.secondaryOAM 0
  if 8 < spriteCount then
    { p with secondaryOAM := soam, secondaryNum := 8, spriteOverflow := true }
  else { p with secondaryOAM := soam, secondaryNum := spriteCount }

/-- Loop of `(*PPU).renderSpritePixel` over the secondary OAM in index
order; the first sprite whose x-range covers the pixel wins. -/
def PPU.renderSpritePixelLoop (p : PPU) (cart : Cartridge) (vram : Nat → Nat)
    (x y : Nat) (i : Nat) : Except String (Nat × Nat) :=
  if i < p.secondaryNum then
    let sprite := p.secondaryOAM i
    if sprite.x ≤ x ∧ x < sprite.x + 8 then
      let h : Int := (y : Int) - (sprite.y : Int)
      let h := if sprite.verticalFlip then 7 - h else h
      let address := u16 (0x1000 * p.spriteTableFlag + sprite.tile * 16 + (h.emod 65536).toNat)
      match PPUBus.read cart vram address with
      | .error e => .error e
      | .ok lowTileByte =>
        match PPUBus.read cart vram (address + 8) with
        | .error e => .error e
        | .ok highTileByte =>
          let shift := if sprite.horizontalFlip then x - sprite.x else 7 - (x - sprite.x)
          let lv := (lowTileByte >>> shift) &&& 1
          let hv := (highTileByte >>> shift) &&& 1
          .ok (i, lv + hv)
    else p.renderSpritePixelLoop cart vram x y (i + 1)
  else .ok (0, 0)
termination_by p.secondaryNum - i

/-- Embedding of `(*PPU).renderSpritePixel`. -/
def PPU.renderSpritePixel (p : PPU) (cart : Cartridge) (vram : Nat → Nat) :
    Except String (Nat × Nat) :=
  if !p.showSprite then .ok (0, 0)
  else p.renderSpritePixelLoop cart vram (p.cycle - 1) p.scanline 0

/-- Embedding of `(*PPU).renderBackgroundPixel`. -/
def PPU.renderBackgroundPixel (p : PPU) : Nat :=
  if !p.showBackground then 0
  else
    let x := p.cycle - 1
    let lowTileByte := p.tileDataBuffer 4
    let highTileByte := p.tileDataBuffer 5
    let lv := lowTileByte >>> (7 - x % 8) &&& 1
    let hv := highTileByte >>> (7 - x % 8) &&& 1
    lv + hv

/-- Image update, standing in for `image.RGBA.SetRGBA`. -/
def setPixel (pic : Nat → Nat → RGBA) (x y : Nat) (c : RGBA) : Nat → Nat → RGBA :=
  fun i j => if i = x ∧ j = y then c else pic i j

/-- Embedding of `(*PPU).renderPixel`: background/sprite mux, the
left-column masks, the sprite-zero hit, and the image write. -/
def PPU.renderPixel (p : PPU) (cart : Cartridge) (vram : Nat → Nat) :
    Except String PPU :=
  let x := p.cycle - 1
  let y := p.scanline
  let attributeTableByte := p.tileDataBuffer 3
  let bg := p.renderBackgroundPixel
  match p.renderSpritePixel cart vram with
  | .error e => .error ("Failed to render a sprite pixel: " ++ e)
  | .ok (i, sp) =>
    let bg := if x < 8 ∧ !p.showLeftBackground then 0 else bg
    let sp := if x < 8 ∧ !p.showLeftSprite then 0 else sp
    let bgOpaque := bg ≠ 0
    let spOpaque := sp ≠ 0
    let sprite := p.secondaryOAM i
    let colorOut :=
      if ¬spOpaque ∧ ¬bgOpaque then colors.getD (PaletteRAM.read p.paletteRAM 0x3F00) {}
      else if spOpaque ∧ ¬bgOpaque then
        colors.getD (PaletteRAM.read p.paletteRAM (sprite.paletteAddress sp)) {}
      else if ¬spOpaque ∧ bgOpaque then p.color bg attributeTableByte
      else if sprite.priority = 1 then p.color bg attributeTableByte
      else colors.getD (PaletteRAM.read p.paletteRAM (sprite.paletteAddress sp)) {}
    let p :=
      if spOpaque ∧ bgOpaque ∧ sprite.index = 0 ∧ x < 255 then
        { p with spriteZeroHit := true }
      else p
    .ok { p with picture := setPixel p.picture x y colorOut }

/-- Dot/scanline tick at the top of `(*PPU).Step`. -/
def PPU.tick (p : PPU) : PPU :=
  let cycle := p.cycle + 1
  if cycle = 341 then
    let scanline := p.scanline + 1
    if scanline = 262 then { p with cycle := 0, scanline := 0 }
    else { p with cycle := 0, scanline := scanline }
  else { p with cycle := cycle }

/-- Tile-data buffer rotation performed at `cycle % 8 = 0`. -/
def PPU.shiftTileData (p : PPU) : PPU :=
  let buf := upd p.tileDataBuffer 3 (p.tileDataBuffer 0)
  let buf := upd buf 4 (p.tileDataBuffer 1)
  let buf := upd buf 5 (p.tileDataBuffer 2)
  let buf := upd buf 0 p.attributeTableByte
  let buf := upd buf 1 p.lowTileByte
  let buf := upd buf 2 p.highTileByte
  { p with tileDataBuffer := buf }

/-- Fetch-pipeline dispatch on `cycle % 8` inside `(*PPU).Step`. -/
def PPU.bgFetch (p : PPU) (cart : Cartridge) (vram : Nat → Nat) : Except String PPU :=
  match p.cycle % 8 with
  | 0 => .ok p.shiftTileData
  | 1 => p.fetchNameTableByte cart vram
  | 3 => p.fetchAttributeTableByte cart vram
  | 5 => p.fetchLowTileByte cart vram
  | 7 => p.fetchHighTileByte cart vram
  | _ => .ok p

/-- The block of `(*PPU).Step` guarded by `p.showBackground`: pixel
rendering, the v/t scroll updates, and the background fetch pipeline. -/
def PPU.backgroundLogic (p : PPU) (cart : Cartridge) (vram : Nat → Nat) :
    Except String PPU :=
  if p.showBackground then
    match
      (if 1 ≤ p.cycle ∧ p.cycle ≤ 256 ∧ p.scanline ≤ 239 then p.renderPixel cart vram
       else .ok p) with
    | .error e => .error ("Failed to render a pixel: " ++ e)
    | .ok p =>
      let p := if p.scanline = 261 ∧ 280 ≤ p.cycle ∧ p.cycle ≤ 304 then p.copyY else p
      if p.scanline < 240 ∨ p.scanline = 261 then
        let p := if 1 ≤ p.cycle ∧ p.cycle ≤ 256 ∧ p.cycle % 8 = 0 then p.incrementCoarseX else p
        let p := if p.cycle = 328 ∨ p.cycle = 336 then p.incrementCoarseX else p
        let p := if p.cycle = 256 then p.incrementY else p
        let p := if p.cycle = 257 then p.copyX else p
        if (0 < p.cycle ∧ p.cycle ≤ 257) ∨ 320 < p.cycle then p.bgFetch cart vram
        else .ok p
      else .ok p
  else .ok p

/-- Embedding of `(*PPU).Step`: tick, background logic, vblank
bookkeeping, sprite evaluation at dot 257, and the NMI return flag. -/
def PPU.step (p : PPU) (cart : Cartridge) (vram : Nat → Nat) :
    Except String (Bool × PPU) :=
  let p := p.tick
  match p.backgroundLogic cart vram with
  | .error e => .error e
  | .ok p =>
    let p := if p.scanline = 241 ∧ p.cycle = 1 then p.updateNMI true else p
    let p :=
      if p.scanline = 261 ∧ p.cycle = 1 then
        PPU.updateNMI { p with spriteOverflow := false, spriteZeroHit := false } false
      else p
    let p :=
      if p.cycle = 257 then
        if p.scanline < 240 then p.evaluateSprite else { p with secondaryNum := 0 }
      else p
    .ok (p.nmiOutput && p.nmiOccurred && decide (p.scanline = 241) && decide (p.cycle = 1), p)

/-! ## CPU bus (cpubus.go)

The Go `CPUBus` aggregates the work RAM, the PPU, the controller and
the cartridge; the PPU's own bus (video RAM) is reachable through the
PPU pointer, so the combined state is carried here. -/

structure CPUBus where
  wram : Nat → Nat := fun _ => 0
  vram : Nat → Nat := fun _ => 0
  ppu : PPU := {}
  controller : Controller := {}
  cartridge : Cartridge := {}

/-- Embedding of `(*CPUBus).readPPURegister`: the register window
mirrors every 8 bytes onto $2000-$2007. -/
def CPUBus.readPPURegister (b : CPUBus) (address : Nat) : Except String (Nat × CPUBus) :=
  let addr := 0x2000 ||| address % 8
  if addr = 0x2002 then
    let (d, ppu) := b.ppu.readPPUSTATUS
    .ok (d, { b with ppu := ppu })
  else if addr = 0x2004 then .ok (b.ppu.readOAMDATA, b)
  else if addr = 0x2007 then
    match b.ppu.readPPUDATA b.cartridge b.vram with
    | .error e => .error e
    | .ok (d, ppu) => .ok (d, { b with ppu := ppu })
  else .error "PPU register is not readable."

/-- Embedding of `(*CPUBus).read`. -/
def CPUBus.read (b : CPUBus) (address : Nat) : Except String (Nat × CPUBus) :=
  if address < 0x2000 then .ok (b.wram (address % 0x0800), b)
  else if address < 0x4000 then b.readPPURegister address
  else if address = 0x4016 then
    let (d, controller) := b.controller.read
    .ok (d, { b with controller := controller })
  else if address < 0x4018 then .ok (0, b)
  else if address < 0x4020 then .error "Reading unused bus address"
  else
    match b.cartridge.readFromCPU address with
    | .error e => .error e
    | .ok d => .ok (d, b)

/-- Embedding of `(*CPUBus).read16`: low byte at `address`, high byte
at `address + 1`. -/
def CPUBus.read16 (b : CPUBus) (address : Nat) : Except String (Nat × CPUBus) :=
  match b.read address with
  | .error e => .error e
  | .ok (l, b) =>
    match b.read (u16 (address + 1)) with
    | .error e => .error e
    | .ok (h', b) => .ok ((h' <<< 8) ||| l, b)

/-- Embedding of `(*CPUBus).read16Wrap`: the second address keeps the
page of `address` and only increments the low byte. -/
def CPUBus.read16Wrap (b : CPUBus) (address : Nat) : Except String (Nat × CPUBus) :=
  let a1 := address
  let a2 := (address &&& 0xFF00) ||| ((address + 1) &&& 0xFF)
  match b.read a1 with
  | .error e => .error e
  | .ok (l, b) =>
    match b.read a2 with
    | .error e => .error e
    | .ok (h', b) => .ok ((h' <<< 8) ||| l, b)

/-- Embedding of `(*CPUBus).writeToPPURegisters`; as in the source,
$2003 is routed to `writePPUADDR` and $2002 is not writable. -/
def CPUBus.writeToPPURegisters (b : CPUBus) (address data : Nat) : Except String CPUBus :=
  let addr := 0x2000 ||| address % 8
  if addr = 0x2000 then .ok { b with ppu := b.ppu.writePPUCTRL data }
  else if addr = 0x2001 then .ok { b with ppu := b.ppu.writePPUMASK data }
  else if addr = 0x2003 then .ok { b with ppu := b.ppu.writePPUADDR data }
  else if addr = 0x2004 then .ok { b with ppu := b.ppu.writeOAMDATA data }
  else if addr = 0x2005 then .ok { b with ppu := b.ppu.writePPUSCROLL data }
  else if addr = 0x2006 then .ok { b with ppu := b.ppu.writePPUADDR data }
  else if addr = 0x2007 then
    match b.ppu.writePPUDATA b.cartridge b.vram data with
    | .error e => .error e
    | .ok (ppu, vram) => .ok { b with ppu := ppu, vram := vram }
  else .error "PPU register is not writable."

/-- Embedding of `(*CPUBus).write`; $4014 is handled on the CPU side. -/
def CPUBus.write (b : CPUBus) (address data : Nat) : Except String CPUBus :=
  if address < 0x2000 then .ok { b with wram := upd b.wram (address % 0x0800) data }
  else if address < 0x4000 then b.writeToPPURegisters address data
  else if address = 0x4014 then .error "CPU bus write was probably illegally called. (OAMDMA)"
  else if address = 0x4016 then .ok { b with controller := b.controller.write data }
  else if address < 0x4018 then .ok b
  else if address < 0x4020 then .error "Writing data to unused bus address"
  else
    match b.cartridge.writeFromCPU address data with
    | .error e => .error e
    | .ok _ => .ok b

/-- Embedding of `(*CPUBus).writeOAMDMA`: the 256-byte block replaces
the PPU's primary OAM. -/
def CPUBus.writeOAMDMA (b : CPUBus) (data : Nat → Nat) : CPUBus :=
  { b with ppu := { b.ppu with primaryOAM := data } }

/-! ## CPU (cpu.go) -/

/-- Embedding of the `status` bit-pack. -/
structure Status where
  c : Bool := false
  z : Bool := false
  i : Bool := false
  d : Bool := false
  b : Bool := false
  r : Bool := false
  v : Bool := false
  n : Bool := false
deriving DecidableEq

/-- Embedding of `(*status).encode`. -/
def Status.encode (s : Status) : Nat :=
  (if s.c then 1 <<< 0 else 0) ||| (if s.z then 1 <<< 1 else 0) |||
  (if s.i then 1 <<< 2 else 0) ||| (if s.d then 1 <<< 3 else 0) |||
  (if s.b then 1 <<< 4 else 0) ||| (if s.r then 1 <<< 5 else 0) |||
  (if s.v then 1 <<< 6 else 0) ||| (if s.n then 1 <<< 7 else 0)

/-- Embedding of `(*status).decodeFrom`. -/
def Status.decodeFrom (data : Nat) : Status :=
  { c := (data >>> 0) &&& 1 = 1, z := (data >>> 1) &&& 1 = 1
    i := (data >>> 2) &&& 1 = 1, d := (data >>> 3) &&& 1 = 1
    b := (data >>> 4) &&& 1 = 1, r := (data >>> 5) &&& 1 = 1
    v := (data >>> 6) &&& 1 = 1, n := (data >>> 7) &&& 1 = 1 }

/-- CPU registers; the defaults are the `NewCPU` zero state with the
B and R status bits set. -/
structure CPU where
  p : Status := { b := true, r := true }
  a : Nat := 0
  x : Nat := 0
  y : Nat := 0
  pc : Nat := 0
  s : Nat := 0
  stall : Nat := 0
  nmiTriggered : Bool := false

/-- Embedding of the `addressingMode` enumeration. -/
inductive AddressingMode where
  | implied
  | accumulator
  | immediate
  | zeropage
  | zeropageX
  | zeropageY
  | relative
  | absolute
  | absoluteX
  | absoluteY
  | indirect
  | indirectX
  | indirectY
deriving DecidableEq

/-- Go `byte` subtraction `a - b` with wraparound. -/
def sub8 (a b : Nat) : Nat := (a + 256 - b % 256) % 256

/-- Embedding of `(*CPU).setN`. -/
def CPU.setN (c : CPU) (x : Nat) : CPU := { c with p := { c.p with n := x &&& 0x80 ≠ 0 } }

/-- Embedding of `(*CPU).setZ`. -/
def CPU.setZ (c : CPU) (x : Nat) : CPU := { c with p := { c.p with z := x = 0 } }

/-- Embedding of `(*CPU).pageCrossed`: true when the high bytes differ. -/
def pageCrossed (a b : Nat) : Prop := a &&& 0xFF00 ≠ b &&& 0xFF00

instance (a b : Nat) : Decidable (pageCrossed a b) := by
  unfold pageCrossed; infer_instance

/-- Loop of the OAM-DMA side effect in `(*CPU).write`: 256 ascending
reads from `offset` filling the local block. -/
def CPU.dmaLoop (b : CPUBus) (offset : Nat) (i : Nat) (oamData : Nat → Nat) :
    Except String ((Nat → Nat) × CPUBus) :=
  if i < 256 then
    match b.read (offset + i) with
    | .error e => .error e
    | .ok (d, b) => CPU.dmaLoop b offset (i + 1) (upd oamData i d)
  else .ok (oamData, b)
termination_by 256 - i

/-- Embedding of `(*CPU).write`: a write to $4014 performs the 256-read
OAM DMA, delivers the block to the PPU and adds 514 stall cycles;
everything else goes to the bus. -/
def CPU.write (c : CPU) (b : CPUBus) (address data : Nat) :
    Except String (CPU × CPUBus) :=
  if address = 0x4014 then
    match CPU.dmaLoop b (data <<< 8) 0 (fun _ => 0) with
    | .error e => .error e
    | .ok (oamData, b) => .ok ({ c with stall := c.stall + 514 }, b.writeOAMDMA oamData)
  else
    match b.write address data with
    | .error e => .error e
    | .ok b => .ok (c, b)

/-- Embedding of `(*CPU).push`: write at $0100 | S then decrement S. -/
def CPU.push (c : CPU) (b : CPUBus) (x : Nat) : Except String (CPU × CPUBus) :=
  match c.write b (0x100 ||| (c.s &&& 0xFF)) x with
  | .error e => .error e
  | .ok (c, b) => .ok ({ c with s := sub8 c.s 1 }, b)

/-- Embedding of `(*CPU).pop`: increment S then read at $0100 | S. -/
def CPU.pop (c : CPU) (b : CPUBus) : Except String (Nat × CPU × CPUBus) :=
  let c := { c with s := u8 (c.s + 1) }
  match b.read (0x100 ||| (c.s &&& 0xFF)) with
  | .error e => .error e
  | .ok (d, b) => .ok (d, c, b)

/-- Embedding of `(*CPU).adc`. -/
def CPU.adc (c : CPU) (b : CPUBus) (_mode : AddressingMode) (operand : Nat) :
    Except String (Nat × CPU × CPUBus) :=
  let x := c.a
  match b.read operand with
  | .error e => .error e
  | .ok (data, b) =>
    let y := data
    let carry := if c.p.c then 1 else 0
    let res := x + y + carry
    let c :=
      if 0xFF < res then { c with p := { c.p with c := true }, a := res &&& 0xFF }
      else { c with p := { c.p with c := false }, a := u8 res }
    let c := (c.setN c.a).setZ c.a
    let c :=
      if (x ^^^ y) &&& 0x80 = 0 ∧ (x ^^^ res) &&& 0x80 ≠ 0 then
        { c with p := { c.p with v := true } }
      else { c with p := { c.p with v := false } }
    .ok (0, c, b)

/-- Embedding of `(*CPU).and`. -/
def CPU.and (c : CPU) (b : CPUBus) (_mode : AddressingMode) (operand : Nat) :
    Except String (Nat × CPU × CPUBus) :=
  match b.read operand with
  | .error e => .error e
  | .ok (data, b) =>
    let c := { c with a := c.a &&& data }
    let c := (c.setN c.a).setZ c.a
    .ok (0, c, b)

/-- Embedding of `(*CPU).asl`. -/
def CPU.asl (c : CPU) (b : CPUBus) (mode : AddressingMode) (operand : Nat) :
    Except String (Nat × CPU × CPUBus) :=
  if mode = .accumulator then
    let c := { c with p := { c.p with c := (c.a >>> 7) &&& 1 = 1 } }
    let c := { c with a := u8 (c.a <<< 1) }
    let c := (c.setN c.a).setZ c.a
    .ok (0, c, b)
  else
    match b.read operand with
    | .error e => .error e
    | .ok (x, b) =>
      let c := { c with p := { c.p with c := (x >>> 7) &&& 1 = 1 } }
      let x := u8 (x <<< 1)
      match c.write b operand x with
      | .error e => .error e
      | .ok (c, b) =>
        let c := (c.setN x).setZ x
        .ok (0, c, b)

/-- Embedding of `(*CPU).bcc`. -/
def CPU.bcc (c : CPU) (b : CPUBus) (_mode : AddressingMode) (operand : Nat) :
    Except String (Nat × CPU × CPUBus) :=
  if !c.p.c then
    let c := { c with pc := operand }
    let cycles := if pageCrossed (sub16 c.pc 1) operand then 2 else 1
    .ok (cycles, c, b)
  else .ok (0, c, b)

/-- Embedding of `(*CPU).bcs`. -/
def CPU.bcs (c : CPU) (b : CPUBus) (_mode : AddressingMode) (operand : Nat) :
    Except String (Nat × CPU × CPUBus) :=
  if c.p.c then
    let c := { c with pc := operand }
    let cycles := if pageCrossed (sub16 c.pc 1) operand then 2 else 1
    .ok (cycles, c, b)
  else .ok (0, c, b)

/-- Embedding of `(*CPU).beq`. -/
def CPU.beq (c : CPU) (b : CPUBus) (_mode : AddressingMode) (operand : Nat) :
    Except String (Nat × CPU × CPUBus) :=
  if c.p.z then
    let c := { c with pc := operand }
    let cycles := if pageCrossed (sub16 c.pc 1) operand then 2 else 1
    .ok (cycles, c, b)
  else .ok (0, c, b)

/-- Embedding of `(*CPU).bit`. -/
def CPU.bit (c : CPU) (b : CPUBus) (_mode : AddressingMode) (operand : Nat) :
    Except String (Nat × CPU × CPUBus) :=
  match b.read operand with
  | .error e => .error e
  | .ok (x, b) =>
    let c := c.setN x
    let c := c.setZ (c.a &&& x)
    let c := { c with p := { c.p with v := (x >>> 6) &&& 1 = 1 } }
    .ok (0, c, b)

/-- Embedding of `(*CPU).bmi`. -/
def CPU.bmi (c : CPU) (b : CPUBus) (_mode : AddressingMode) (operand : Nat) :
    Except String (Nat × CPU × CPUBus) :=
  if c.p.n then
    let c := { c with pc := operand }
    let cycles := if pageCrossed (sub16 c.pc 1) operand then 2 else 1
    .ok (cycles, c, b)
  else .ok (0, c, b)

/-- Embedding of `(*CPU).bne`: after the branch is taken the source
compares `c.pc - 1` (that is, `operand - 1`) with `operand` for the
page-cross extra cycle. -/
def CPU.bne (c : CPU) (b : CPUBus) (_mode : AddressingMode) (operand : Nat) :
    Except String (Nat × CPU × CPUBus) :=
  if !c.p.z then
    let c := { c with pc := operand }
    let cycles := if pageCrossed (sub16 c.pc 1) operand then 2 else 1
    .ok (cycles, c, b)
  else .ok (0, c, b)

/-- Embedding of `(*CPU).bpl`. -/
def CPU.bpl (c : CPU) (b : CPUBus) (_mode : AddressingMode) (operand : Nat) :
    Except String (Nat × CPU × CPUBus) :=
  if !c.p.n then
    let c := { c with pc := operand }
    let cycles := if pageCrossed (sub16 c.pc 1) operand then 2 else 1
    .ok (cycles, c, b)
  else .ok (0, c, b)

/-- Embedding of `(*CPU).brk`. -/
def CPU.brk (c : CPU) (b : CPUBus) (_mode : AddressingMode) (_operand : Nat) :
    Except String (Nat × CPU × CPUBus) :=
  match c.push b (u8 (c.pc >>> 8)) with
  | .error e => .error e
  | .ok (c, b) =>
    match c.push b (u8 c.pc) with
    | .error e => .error e
    | .ok (c, b) =>
      match c.push b c.p.encode with
      | .error e => .error e
      | .ok (c, b) =>
        let c := { c with p := { c.p with i := true } }
        match b.read16 0xFFFE with
        | .error e => .error e
        | .ok (data, b) => .ok (0, { c with pc := data }, b)

/-- Embedding of `(*CPU).bvc`; note the source compares `c.pc` (already
equal to `operand`) with `operand`, so the extra cycle never fires. -/
def CPU.bvc (c : CPU) (b : CPUBus) (_mode : AddressingMode) (operand : Nat) :
    Except String (Nat × CPU × CPUBus) :=
  if !c.p.v then
    let c := { c with pc := operand }
    let cycles := if pageCrossed c.pc operand then 2 else 1
    .ok (cycles, c, b)
  else .ok (0, c, b)

/-- Embedding of `(*CPU).bvs`. -/
def CPU.bvs (c : CPU) (b : CPUBus) (_mode : AddressingMode) (operand : Nat) :
    Except String (Nat × CPU × CPUBus) :=
  if c.p.v then
    let c := { c with pc := operand }
    let cycles := if pageCrossed (sub16 c.pc 1) operand then 2 else 1
    .ok (cycles, c, b)
  else .ok (0, c, b)

/-- Embedding of `(*CPU).clc`. -/
def CPU.clc (c : CPU) (b : CPUBus) (_mode : AddressingMode) (_operand : Nat) :
    Except String (Nat × CPU × CPUBus) :=
  .ok (0, { c with p := { c.p with c := false } }, b)

/-- Embedding of `(*CPU).cld`. -/
def CPU.cld (c : CPU) (b : CPUBus) (_mode : AddressingMode) (_operand : Nat) :
    Except String (Nat × CPU × CPUBus) :=
  .ok (0, { c with p := { c.p with d := false } }, b)

/-- Embedding of `(*CPU).cli`. -/
def CPU.cli (c : CPU) (b : CPUBus) (_mode : AddressingMode) (_operand : Nat) :
    Except String (Nat × CPU × CPUBus) :=
  .ok (0, { c with p := { c.p with i := false } }, b)

/-- Embedding of `(*CPU).clv`. -/
def CPU.clv (c : CPU) (b : CPUBus) (_mode : AddressingMode) (_operand : Nat) :
    Except String (Nat × CPU × CPUBus) :=
  .ok (0, { c with p := { c.p with v := false } }, b)

/-- Embedding of `(*CPU).cmp`. -/
def CPU.cmp (c : CPU) (b : CPUBus) (_mode : AddressingMode) (operand : Nat) :
    Except String (Nat × CPU × CPUBus) :=
  match b.read operand with
  | .error e => .error e
  | .ok (data, b) =>
    let x := sub8 c.a data
    let c := { c with p := { c.p with c := data ≤ c.a } }
    let c := (c.setN x).setZ x
    .ok (0, c, b)

/-- Embedding of `(*CPU).cpx`. -/
def CPU.cpx (c : CPU) (b : CPUBus) (_mode : AddressingMode) (operand : Nat) :
    Except String (Nat × CPU × CPUBus) :=
  match b.read operand with
  | .error e => .error e
  | .ok (data, b) =>
    let x := sub8 c.x data
    let c := { c with p := { c.p with c := data ≤ c.x } }
    let c := (c.setN x).setZ x
    .ok (0, c, b)

/-- Embedding of `(*CPU).cpy`. -/
def CPU.cpy (c : CPU) (b : CPUBus) (_mode : AddressingMode) (operand : Nat) :
    Except String (Nat × CPU × CPUBus) :=
  match b.read operand with
  | .error e => .error e
  | .ok (data, b) =>
    let x := sub8 c.y data
    let c := { c with p := { c.p with c := data ≤ c.y } }
    let c := (c.setN x).setZ x
    .ok (0, c, b)

/-- Embedding of `(*CPU).dec`. -/
def CPU.dec (c : CPU) (b : CPUBus) (_mode : AddressingMode) (operand : Nat) :
    Except String (Nat × CPU × CPUBus) :=
  match b.read operand with
  | .error e => .error e
  | .ok (data, b) =>
    let x := sub8 data 1
    match c.write b operand x with
    | .error e => .error e
    | .ok (c, b) =>
      let c := (c.setN x).setZ x
      .ok (0, c, b)

/-- Embedding of `(*CPU).dex`. -/
def CPU.dex (c : CPU) (b : CPUBus) (_mode : AddressingMode) (_operand : Nat) :
    Except String (Nat × CPU × CPUBus) :=
  let c := { c with x := sub8 c.x 1 }
  let c := (c.setN c.x).setZ c.x
  .ok (0, c, b)

/-- Embedding of `(*CPU).dey`. -/
def CPU.dey (c : CPU) (b : CPUBus) (_mode : AddressingMode) (_operand : Nat) :
    Except String (Nat × CPU × CPUBus) :=
  let c := { c with y := sub8 c.y 1 }
  let c := (c.setN c.y).setZ c.y
  .ok (0, c, b)

/-- Embedding of `(*CPU).eor`. -/
def CPU.eor (c : CPU) (b : CPUBus) (_mode : AddressingMode) (operand : Nat) :
    Except String (Nat × CPU × CPUBus) :=
  match b.read operand with
  | .error e => .error e
  | .ok (data, b) =>
    let c := { c with a := c.a ^^^ data }
    let c := (c.setN c.a).setZ c.a
    .ok (0, c, b)

/-- Embedding of `(*CPU).inc`. -/
def CPU.inc (c : CPU) (b : CPUBus) (_mode : AddressingMode) (operand : Nat) :
    Except String (Nat × CPU × CPUBus) :=
  match b.read operand with
  | .error e => .error e
  | .ok (x, b) =>
    let x := u8 (x + 1)
    match c.write b operand x with
    | .error e => .error e
    | .ok (c, b) =>
      let c := (c.setN x).setZ x
      .ok (0, c, b)

/-- Embedding of `(*CPU).inx`. -/
def CPU.inx (c : CPU) (b : CPUBus) (_mode : AddressingMode) (_operand : Nat) :
    Except String (Nat × CPU × CPUBus) :=
  let c := { c with x := u8 (c.x + 1) }
  let c := (c.setN c.x).setZ c.x
  .ok (0, c, b)

/-- Embedding of `(*CPU).iny`. -/
def CPU.iny (c : CPU) (b : CPUBus) (_mode : AddressingMode) (_operand : Nat) :
    Except String (Nat × CPU × CPUBus) :=
  let c := { c with y := u8 (c.y + 1) }
  let c := (c.setN c.y).setZ c.y
  .ok (0, c, b)

/-- Embedding of `(*CPU).jmp`. -/
def CPU.jmp (c : CPU) (b : CPUBus) (_mode : AddressingMode) (operand : Nat) :
    Except String (Nat × CPU × CPUBus) :=
  .ok (0, { c with pc := operand }, b)

/-- Embedding of `(*CPU).jsr`: push PC - 1, high byte first. -/
def CPU.jsr (c : CPU) (b : CPUBus) (_mode : AddressingMode) (operand : Nat) :
    Except String (Nat × CPU × CPUBus) :=
  let x := sub16 c.pc 1
  match c.push b (u8 (x >>> 8)) with
  | .error e => .error e
  | .ok (c, b) =>
    match c.push b (u8 x) with
    | .error e => .error e
    | .ok (c, b) => .ok (0, { c with pc := operand }, b)

/-- Embedding of `(*CPU).lda`. -/
def CPU.lda (c : CPU) (b : CPUBus) (_mode : AddressingMode) (operand : Nat) :
    Except String (Nat × CPU × CPUBus) :=
  match b.read operand with
  | .error e => .error e
  | .ok (data, b) =>
    let c := { c with a := data }
    let c := (c.setN c.a).setZ c.a
    .ok (0, c, b)

/-- Embedding of `(*CPU).ldx`. -/
def CPU.ldx (c : CPU) (b : CPUBus) (_mode : AddressingMode) (operand : Nat) :
    Except String (Nat × CPU × CPUBus) :=
  match b.read operand with
  | .error e => .error e
  | .ok (data, b) =>
    let c := { c with x := data }
    let c := (c.setN c.x).setZ c.x
    .ok (0, c, b)

/-- Embedding of `(*CPU).ldy`. -/
def CPU.ldy (c : CPU) (b : CPUBus) (_mode : AddressingMode) (operand : Nat) :
    Except String (Nat × CPU × CPUBus) :=
  match b.read operand with
  | .error e => .error e
  | .ok (data, b) =>
    let c := { c with y := data }
    let c := (c.setN c.y).setZ c.y
    .ok (0, c, b)

/-- Embedding of `(*CPU).lsr`. -/
def CPU.lsr (c : CPU) (b : CPUBus) (mode : AddressingMode) (operand : Nat) :
    Except String (Nat × CPU × CPUBus) :=
  if mode = .accumulator then
    let c := { c with p := { c.p with c := c.a &&& 1 = 1 } }
    let c := { c with a := c.a >>> 1 }
    let c := (c.setN c.a).setZ c.a
    .ok (0, c, b)
  else
    match b.read operand with
    | .error e => .error e
    | .ok (x, b) =>
      let c := { c with p := { c.p with c := x &&& 1 = 1 } }
      let x := x >>> 1
      match c.write b operand x with
      | .error e => .error e
      | .ok (c, b) =>
        let c := (c.setN x).setZ x
        .ok (0, c, b)

/-- Embedding of `(*CPU).nop`. -/
def CPU.nop (c : CPU) (b : CPUBus) (_mode : AddressingMode) (_operand : Nat) :
    Except String (Nat × CPU × CPUBus) :=
  .ok (0, c, b)

/-- Embedding of `(*CPU).ora`. -/
def CPU.ora (c : CPU) (b : CPUBus) (_mode : AddressingMode) (operand : Nat) :
    Except String (Nat × CPU × CPUBus) :=
  match b.read operand with
  | .error e => .error e
  | .ok (data, b) =>
    let c := { c with a := c.a ||| data }
    let c := (c.setN c.a).setZ c.a
    .ok (0, c, b)

/-- Embedding of `(*CPU).pha`. -/
def CPU.pha (c : CPU) (b : CPUBus) (_mode : AddressingMode) (_operand : Nat) :
    Except String (Nat × CPU × CPUBus) :=
  match c.push b c.a with
  | .error e => .error e
  | .ok (c, b) => .ok (0, c, b)

/-- Embedding of `(*CPU).php`: pushes the status with the B bit set. -/
def CPU.php (c : CPU) (b : CPUBus) (_mode : AddressingMode) (_operand : Nat) :
    Except String (Nat × CPU × CPUBus) :=
  match c.push b (c.p.encode ||| 0x10) with
  | .error e => .error e
  | .ok (c, b) => .ok (0, c, b)

/-- Embedding of `(*CPU).pla`. -/
def CPU.pla (c : CPU) (b : CPUBus) (_mode : AddressingMode) (_operand : Nat) :
    Except String (Nat × CPU × CPUBus) :=
  match c.pop b with
  | .error e => .error e
  | .ok (data, c, b) =>
    let c := { c with a := data }
    let c := (c.setN c.a).setZ c.a
    .ok (0, c, b)

/-- Embedding of `(*CPU).plp`: bit 4 is forced to 0 and bit 5 to 1. -/
def CPU.plp (c : CPU) (b : CPUBus) (_mode : AddressingMode) (_operand : Nat) :
    Except String (Nat × CPU × CPUBus) :=
  match c.pop b with
  | .error e => .error e
  | .ok (data, c, b) =>
    .ok (0, { c with p := Status.decodeFrom (data &&& 0xEF ||| 0x20) }, b)

/-- Embedding of `(*CPU).rol`. -/
def CPU.rol (c : CPU) (b : CPUBus) (mode : AddressingMode) (operand : Nat) :
    Except String (Nat × CPU × CPUBus) :=
  let carry := if c.p.c then 1 else 0
  if mode = .accumulator then
    let c := { c with p := { c.p with c := (c.a >>> 7) &&& 1 = 1 } }
    let c := { c with a := u8 ((c.a <<< 1) ||| carry) }
    let c := (c.setN c.a).setZ c.a
    .ok (0, c, b)
  else
    match b.read operand with
    | .error e => .error e
    | .ok (x, b) =>
      let c := { c with p := { c.p with c := (x >>> 7) &&& 1 = 1 } }
      let x := u8 ((x <<< 1) ||| carry)
      match c.write b operand x with
      | .error e => .error e
      | .ok (c, b) =>
        let c := (c.setN x).setZ x
        .ok (0, c, b)

/-- Embedding of `(*CPU).ror`. -/
def CPU.ror (c : CPU) (b : CPUBus) (mode : AddressingMode) (operand : Nat) :
    Except String (Nat × CPU × CPUBus) :=
  let carry := if c.p.c then 1 else 0
  if mode = .accumulator then
    let c := { c with p := { c.p with c := c.a &&& 1 = 1 } }
    let c := { c with a := (c.a >>> 1) ||| (carry <<< 7) }
    let c := (c.setN c.a).setZ c.a
    .ok (0, c, b)
  else
    match b.read operand with
    | .error e => .error e
    | .ok (x, b) =>
      let c := { c with p := { c.p with c := x &&& 1 = 1 } }
      let x := (x >>> 1) ||| (carry <<< 7)
      match c.write b operand x with
      | .error e => .error e
      | .ok (c, b) =>
        let c := (c.setN x).setZ x
        .ok (0, c, b)

/-- Embedding of `(*CPU).rts`: pop low then high, add 1. -/
def CPU.rts (c : CPU) (b : CPUBus) (_mode : AddressingMode) (_operand : Nat) :
    Except String (Nat × CPU × CPUBus) :=
  match c.pop b with
  | .error e => .error e
  | .ok (l, c, b) =>
    match c.pop b with
    | .error e => .error e
    | .ok (h', c, b) => .ok (0, { c with pc := u16 (((h' <<< 8) ||| l) + 1) }, b)

/-- Embedding of `(*CPU).rti`: pop status (B forced 0, R forced 1) then PC. -/
def CPU.rti (c : CPU) (b : CPUBus) (_mode : AddressingMode) (_operand : Nat) :
    Except String (Nat × CPU × CPUBus) :=
  match c.pop b with
  | .error e => .error e
  | .ok (pv, c, b) =>
    let c := { c with p := Status.decodeFrom (pv &&& 0xEF ||| 0x20) }
    match c.pop b with
    | .error e => .error e
    | .ok (l, c, b) =>
      match c.pop b with
      | .error e => .error e
      | .ok (h', c, b) => .ok (0, { c with pc := (h' <<< 8) ||| l }, b)

/-- Embedding of `(*CPU).sbc`: the Go source computes
`res = int16(A) - int16(m) - (1 - C)`, sets the carry to `0 <= res`,
stores `byte(res)` (the low 8 bits of the two's-complement pattern)
into A, and derives overflow from the sign bits of the int16 values;
for inputs below 256 the int16 bit patterns of A and m are themselves,
and the pattern of `res` is `res mod 2^16`. -/
def CPU.sbc (c : CPU) (b : CPUBus) (_mode : AddressingMode) (operand : Nat) :
    Except String (Nat × CPU × CPUBus) :=
  let x := c.a
  match b.read operand with
  | .error e => .error e
  | .ok (data, b) =>
    let y := data
    let carry : Int := if c.p.c then 1 else 0
    let res : Int := (x : Int) - (y : Int) - (1 - carry)
    let c :=
      if 0 ≤ res then { c with p := { c.p with c := true } }
      else { c with p := { c.p with c := false } }
    let resPat := (res.emod 65536).toNat
    let c := { c with a := resPat % 256 }
    let c := (c.setN c.a).setZ c.a
    let c :=
      if (x ^^^ y) &&& 0x80 ≠ 0 ∧ (x ^^^ resPat) &&& 0x80 ≠ 0 then
        { c with p := { c.p with v := true } }
      else { c with p := { c.p with v := false } }
    .ok (0, c, b)

/-- Embedding of `(*CPU).sec`. -/
def CPU.sec (c : CPU) (b : CPUBus) (_mode : AddressingMode) (_operand : Nat) :
    Except String (Nat × CPU × CPUBus) :=
  .ok (0, { c with p := { c.p with c := true } }, b)

/-- Embedding of `(*CPU).sed`. -/
def CPU.sed (c : CPU) (b : CPUBus) (_mode : AddressingMode) (_operand : Nat) :
    Except String (Nat × CPU × CPUBus) :=
  .ok (0, { c with p := { c.p with d := true } }, b)

/-- Embedding of `(*CPU).sei`. -/
def CPU.sei (c : CPU) (b : CPUBus) (_mode : AddressingMode) (_operand : Nat) :
    Except String (Nat × CPU × CPUBus) :=
  .ok (0, { c with p := { c.p with i := true } }, b)

/-- Embedding of `(*CPU).sta`. -/
def CPU.sta (c : CPU) (b : CPUBus) (_mode : AddressingMode) (operand : Nat) :
    Except String (Nat × CPU × CPUBus) :=
  match c.write b operand c.a with
  | .error e => .error e
  | .ok (c, b) => .ok (0, c, b)

/-- Embedding of `(*CPU).stx`. -/
def CPU.stx (c : CPU) (b : CPUBus) (_mode : AddressingMode) (operand : Nat) :
    Except String (Nat × CPU × CPUBus) :=
  match c.write b operand c.x with
  | .error e => .error e
  | .ok (c, b) => .ok (0, c, b)

/-- Embedding of `(*CPU).sty`. -/
def CPU.sty (c : CPU) (b : CPUBus) (_mode : AddressingMode) (operand : Nat) :
    Except String (Nat × CPU × CPUBus) :=
  match c.write b operand c.y with
  | .error e => .error e
  | .ok (c, b) => .ok (0, c, b)

/-- Embedding of `(*CPU).tax` (flags from A, as in the source). -/
def CPU.tax (c : CPU) (b : CPUBus) (_mode : AddressingMode) (_operand : Nat) :
    Except String (Nat × CPU × CPUBus) :=
  let c := { c with x := c.a }
  let c := (c.setN c.a).setZ c.a
  .ok (0, c, b)

/-- Embedding of `(*CPU).tay`. -/
def CPU.tay (c : CPU) (b : CPUBus) (_mode : AddressingMode) (_operand : Nat) :
    Except String (Nat × CPU × CPUBus) :=
  let c := { c with y := c.a }
  let c := (c.setN c.y).setZ c.y
  .ok (0, c, b)

/-- Embedding of `(*CPU).tsx`. -/
def CPU.tsx (c : CPU) (b : CPUBus) (_mode : AddressingMode) (_operand : Nat) :
    Except String (Nat × CPU × CPUBus) :=
  let c := { c with x := c.s }
  let c := (c.setN c.s).setZ c.s
  .ok (0, c, b)

/-- Embedding of `(*CPU).txa`. -/
def CPU.txa (c : CPU) (b : CPUBus) (_mode : AddressingMode) (_operand : Nat) :
    Except String (Nat × CPU × CPUBus) :=
  let c := { c with a := c.x }
  let c := (c.setN c.a).setZ c.a
  .ok (0, c, b)

/-- Embedding of `(*CPU).txs` (no flags). -/
def CPU.txs (c : CPU) (b : CPUBus) (_mode : AddressingMode) (_operand : Nat) :
    Except String (Nat × CPU × CPUBus) :=
  .ok (0, { c with s := c.x }, b)

/-- Embedding of `(*CPU).tya`. -/
def CPU.tya (c : CPU) (b : CPUBus) (_mode : AddressingMode) (_operand : Nat) :
    Except String (Nat × CPU × CPUBus) :=
  let c := { c with a := c.y }
  let c := (c.setN c.a).setZ c.a
  .ok (0, c, b)

/-- Embedding of `(*CPU).lax`. -/
def CPU.lax (c : CPU) (b : CPUBus) (_mode : AddressingMode) (operand : Nat) :
    Except String (Nat × CPU × CPUBus) :=
  match b.read operand with
  | .error e => .error e
  | .ok (data, b) =>
    let c := { c with a := data, x := data }
    let c := (c.setN c.a).setZ c.a
    .ok (0, c, b)

/-- Embedding of `(*CPU).sax`. -/
def CPU.sax (c : CPU) (b : CPUBus) (_mode : AddressingMode) (operand : Nat) :
    Except String (Nat × CPU × CPUBus) :=
  match c.write b operand (c.a &&& c.x) with
  | .error e => .error e
  | .ok (c, b) => .ok (0, c, b)

/-- Embedding of `(*CPU).dcp` (composite of dec and cmp; the Go source
discards the inner results). -/
def CPU.dcp (c : CPU) (b : CPUBus) (mode : AddressingMode) (operand : Nat) :
    Except String (Nat × CPU × CPUBus) :=
  match c.dec b mode operand with
  | .error e => .error e
  | .ok (_, c, b) =>
    match c.cmp b mode operand with
    | .error e => .error e
    | .ok (_, c, b) => .ok (0, c, b)

/-- Embedding of `(*CPU).isc` (composite of inc and sbc). -/
def CPU.isc (c : CPU) (b : CPUBus) (mode : AddressingMode) (operand : Nat) :
    Except String (Nat × CPU × CPUBus) :=
  match c.inc b mode operand with
  | .error e => .error e
  | .ok (_, c, b) =>
    match c.sbc b mode operand with
    | .error e => .error e
    | .ok (_, c, b) => .ok (0, c, b)

/-- Embedding of `(*CPU).slo` (composite of asl and ora). -/
def CPU.slo (c : CPU) (b : CPUBus) (mode : AddressingMode) (operand : Nat) :
    Except String (Nat × CPU × CPUBus) :=
  match c.asl b mode operand with
  | .error e => .error e
  | .ok (_, c, b) =>
    match c.ora b mode operand with
    | .error e => .error e
    | .ok (_, c, b) => .ok (0, c, b)

/-- Embedding of `(*CPU).rla` (composite of rol and and). -/
def CPU.rla (c : CPU) (b : CPUBus) (mode : AddressingMode) (operand : Nat) :
    Except String (Nat × CPU × CPUBus) :=
  match c.rol b mode operand with
  | .error e => .error e
  | .ok (_, c, b) =>
    match c.and b mode operand with
    | .error e => .error e
    | .ok (_, c, b) => .ok (0, c, b)

/-- Embedding of `(*CPU).sre` (composite of lsr and eor). -/
def CPU.sre (c : CPU) (b : CPUBus) (mode : AddressingMode) (operand : Nat) :
    Except String (Nat × CPU × CPUBus) :=
  match c.lsr b mode operand with
  | .error e => .error e
  | .ok (_, c, b) =>
    match c.eor b mode operand with
    | .error e => .error e
    | .ok (_, c, b) => .ok (0, c, b)

/-- Embedding of `(*CPU).rra` (composite of ror and adc). -/
def CPU.rra (c : CPU) (b : CPUBus) (mode : AddressingMode) (operand : Nat) :
    Except String (Nat × CPU × CPUBus) :=
  match c.ror b mode operand with
  | .error e => .error e
  | .ok (_, c, b) =>
    match c.adc b mode operand with
    | .error e => .error e
    | .ok (_, c, b) => .ok (0, c, b)

/-- Embedding of `(*CPU).nmi`: push PC (high, low) and status, load the
$FFFA vector, set I. -/
def CPU.nmi (c : CPU) (b : CPUBus) : Except String (CPU × CPUBus) :=
  match c.push b (u8 (c.pc >>> 8)) with
  | .error e => .error e
  | .ok (c, b) =>
    match c.push b (u8 c.pc) with
    | .error e => .error e
    | .ok (c, b) =>
      match c.push b c.p.encode with
      | .error e => .error e
      | .ok (c, b) =>
        match b.read16 0xFFFA with
        | .error e => .error e
        | .ok (data, b) => .ok ({ c with pc := data, p := { c.p with i := true } }, b)

/-- Embedding of one row of the `createInstructions` opcode table. -/
structure Instruction where
  mnemonic : String := ""
  mode : AddressingMode := .implied
  size : Nat := 0
  cycles : Nat := 0

set_option maxHeartbeats 1600000 in
/-- Embedding of `(*CPU).createInstructions`: the 256-entry opcode
table; opcodes without an implementation carry the empty mnemonic. -/
def instructions : Nat → Instruction
  | 0x00 => ⟨"BRK", .implied, 1, 7⟩
  | 0x01 => ⟨"ORA", .indirectX, 2, 6⟩
  | 0x03 => ⟨"SLO", .indirectX, 2, 8⟩
  | 0x04 => ⟨"NOP", .zeropage, 2, 3⟩
  | 0x05 => ⟨"ORA", .zeropage, 2, 3⟩
  | 0x06 => ⟨"ASL", .zeropage, 2, 5⟩
  | 0x07 => ⟨"SLO", .zeropage, 2, 5⟩
  | 0x08 => ⟨"PHP", .implied, 1, 3⟩
  | 0x09 => ⟨"ORA", .immediate, 2, 2⟩
  | 0x0A => ⟨"ASL", .accumulator, 1, 2⟩
  | 0x0C => ⟨"NOP", .absolute, 3, 4⟩
  | 0x0D => ⟨"ORA", .absolute, 3, 4⟩
  | 0x0E => ⟨"ASL", .absolute, 3, 6⟩
  | 0x0F => ⟨"SLO", .absolute, 3, 6⟩
  | 0x10 => ⟨"BPL", .relative, 2, 2⟩
  | 0x11 => ⟨"ORA", .indirectY, 2, 5⟩
  | 0x13 => ⟨"SLO", .indirectY, 2, 7⟩
  | 0x14 => ⟨"NOP", .zeropageX, 2, 4⟩
  | 0x15 => ⟨"ORA", .zeropageX, 2, 4⟩
  | 0x16 => ⟨"ASL", .zeropageX, 2, 6⟩
  | 0x17 => ⟨"SLO", .zeropageX, 2, 6⟩
  | 0x18 => ⟨"CLC", .implied, 1, 2⟩
  | 0x19 => ⟨"ORA", .absoluteY, 3, 4⟩
  | 0x1A => ⟨"NOP", .implied, 1, 2⟩
  | 0x1B => ⟨"SLO", .absoluteY, 3, 6⟩
  | 0x1C => ⟨"NOP", .absoluteX, 3, 4⟩
  | 0x1D => ⟨"ORA", .absoluteX, 3, 4⟩
  | 0x1E => ⟨"ASL", .absoluteX, 3, 7⟩
  | 0x1F => ⟨"SLO", .absoluteX, 3, 6⟩
  | 0x20 => ⟨"JSR", .absolute, 3, 6⟩
  | 0x21 => ⟨"AND", .indirectX, 2, 6⟩
  | 0x23 => ⟨"RLA", .indirectX, 2, 8⟩
  | 0x24 => ⟨"BIT", .zeropage, 2, 3⟩
  | 0x25 => ⟨"AND", .zeropage, 2, 3⟩
  | 0x26 => ⟨"ROL", .zeropage, 2, 5⟩
  | 0x27 => ⟨"RLA", .zeropage, 2, 5⟩
  | 0x28 => ⟨"PLP", .implied, 1, 4⟩
  | 0x29 => ⟨"AND", .immediate, 2, 2⟩
  | 0x2A => ⟨"ROL", .accumulator, 1, 2⟩
  | 0x2C => ⟨"BIT", .absolute, 3, 4⟩
  | 0x2D => ⟨"AND", .absolute, 3, 4⟩
  | 0x2E => ⟨"ROL", .absolute, 3, 6⟩
  | 0x2F => ⟨"RLA", .absolute, 3, 6⟩
  | 0x30 => ⟨"BMI", .relative, 2, 2⟩
  | 0x31 => ⟨"AND", .indirectY, 2, 5⟩
  | 0x33 => ⟨"RLA", .indirectY, 2, 7⟩
  | 0x34 => ⟨"NOP", .zeropage, 2, 4⟩
  | 0x35 => ⟨"AND", .zeropageX, 2, 4⟩
  | 0x36 => ⟨"ROL", .zeropageX, 2, 6⟩
  | 0x37 => ⟨"RLA", .zeropageX, 2, 6⟩
  | 0x38 => ⟨"SEC", .implied, 1, 2⟩
  | 0x39 => ⟨"AND", .absoluteY, 3, 4⟩
  | 0x3A => ⟨"NOP", .implied, 1, 2⟩
  | 0x3B => ⟨"RLA", .absoluteY, 3, 6⟩
  | 0x3C => ⟨"NOP", .absoluteX, 3, 4⟩
  | 0x3D => ⟨"AND", .absoluteX, 3, 4⟩
  | 0x3E => ⟨"ROL", .absoluteX, 3, 7⟩
  | 0x3F => ⟨"RLA", .absoluteX, 3, 6⟩
  | 0x40 => ⟨"RTI", .implied, 1, 6⟩
  | 0x41 => ⟨"EOR", .indirectX, 2, 6⟩
  | 0x43 => ⟨"SRE", .indirectX, 2, 8⟩
  | 0x44 => ⟨"NOP", .zeropage, 2, 3⟩
  | 0x45 => ⟨"EOR", .zeropage, 2, 3⟩
  | 0x46 => ⟨"LSR", .zeropage, 2, 5⟩
  | 0x47 => ⟨"SRE", .zeropage, 2, 5⟩
  | 0x48 => ⟨"PHA", .implied, 1, 3⟩
  | 0x49 => ⟨"EOR", .immediate, 2, 2⟩
  | 0x4A => ⟨"LSR", .accumulator, 1, 2⟩
  | 0x4C => ⟨"JMP", .absolute, 3, 3⟩
  | 0x4D => ⟨"EOR", .absolute, 3, 4⟩
  | 0x4E => ⟨"LSR", .absolute, 3, 6⟩
  | 0x4F => ⟨"SRE", .absolute, 3, 6⟩
  | 0x50 => ⟨"BVC", .relative, 2, 2⟩
  | 0x51 => ⟨"EOR", .indirectY, 2, 5⟩
  | 0x53 => ⟨"SRE", .indirectY, 2, 7⟩
  | 0x54 => ⟨"NOP", .zeropage, 2, 4⟩
  | 0x55 => ⟨"EOR", .zeropageX, 2, 4⟩
  | 0x56 => ⟨"LSR", .zeropageX, 2, 6⟩
  | 0x57 => ⟨"SRE", .zeropageX, 2, 6⟩
  | 0x58 => ⟨"CLI", .implied, 1, 2⟩
  | 0x59 => ⟨"EOR", .absoluteY, 3, 4⟩
  | 0x5A => ⟨"NOP", .implied, 1, 2⟩
  | 0x5B => ⟨"SRE", .absoluteY, 3, 6⟩
  | 0x5C => ⟨"NOP", .absoluteX, 3, 4⟩
  | 0x5D => ⟨"EOR", .absoluteX, 3, 4⟩
  | 0x5E => ⟨"LSR", .absoluteX, 3, 7⟩
  | 0x5F => ⟨"SRE", .absoluteX, 3, 6⟩
  | 0x60 => ⟨"RTS", .implied, 1, 6⟩
  | 0x61 => ⟨"ADC", .indirectX, 2, 6⟩
  | 0x63 => ⟨"RRA", .indirectX, 2, 8⟩
  | 0x64 => ⟨"NOP", .zeropage, 2, 3⟩
  | 0x65 => ⟨"ADC", .zeropage, 2, 3⟩
  | 0x66 => ⟨"ROR", .zeropage, 2, 5⟩
  | 0x67 => ⟨"RRA", .zeropage, 2, 5⟩
  | 0x68 => ⟨"PLA", .implied, 1, 4⟩
  | 0x69 => ⟨"ADC", .immediate, 2, 2⟩
  | 0x6A => ⟨"ROR", .accumulator, 1, 2⟩
  | 0x6C => ⟨"JMP", .indirect, 3, 5⟩
  | 0x6D => ⟨"ADC", .absolute, 3, 4⟩
  | 0x6E => ⟨"ROR", .absolute, 3, 6⟩
  | 0x6F => ⟨"RRA", .absolute, 3, 6⟩
  | 0x70 => ⟨"BVS", .relative, 2, 2⟩
  | 0x71 => ⟨"ADC", .indirectY, 2, 5⟩
  | 0x73 => ⟨"RRA", .indirectY, 2, 7⟩
  | 0x74 => ⟨"NOP", .zeropage, 2, 4⟩
  | 0x75 => ⟨"ADC", .zeropageX, 2, 4⟩
  | 0x76 => ⟨"ROR", .zeropageX, 2, 6⟩
  | 0x77 => ⟨"RRA", .zeropageX, 2, 6⟩
  | 0x78 => ⟨"SEI", .implied, 1, 2⟩
  | 0x79 => ⟨"ADC", .absoluteY, 3, 4⟩
  | 0x7A => ⟨"NOP", .implied, 1, 2⟩
  | 0x7B => ⟨"RRA", .absoluteY, 3, 6⟩
  | 0x7C => ⟨"NOP", .absoluteX, 3, 4⟩
  | 0x7D => ⟨"ADC", .absoluteX, 3, 4⟩
  | 0x7E => ⟨"ROR", .absoluteX, 3, 7⟩
  | 0x7F => ⟨"RRA", .absoluteX, 3, 6⟩
  | 0x80 => ⟨"NOP", .immediate, 2, 2⟩
  | 0x81 => ⟨"STA", .indirectX, 2, 6⟩
  | 0x82 => ⟨"NOP", .immediate, 2, 2⟩
  | 0x83 => ⟨"SAX", .indirectX, 2, 6⟩
  | 0x84 => ⟨"STY", .zeropage, 2, 3⟩
  | 0x85 => ⟨"STA", .zeropage, 2, 3⟩
  | 0x86 => ⟨"STX", .zeropage, 2, 3⟩
  | 0x87 => ⟨"SAX", .zeropage, 2, 3⟩
  | 0x88 => ⟨"DEY", .implied, 1, 2⟩
  | 0x89 => ⟨"NOP", .immediate, 2, 2⟩
  | 0x8A => ⟨"TXA", .implied, 1, 2⟩
  | 0x8C => ⟨"STY", .absolute, 3, 4⟩
  | 0x8D => ⟨"STA", .absolute, 3, 4⟩
  | 0x8E => ⟨"STX", .absolute, 3, 4⟩
  | 0x8F => ⟨"SAX", .absolute, 3, 4⟩
  | 0x90 => ⟨"BCC", .relative, 2, 2⟩
  | 0x91 => ⟨"STA", .indirectY, 2, 6⟩
  | 0x94 => ⟨"STY", .zeropageX, 2, 4⟩
  | 0x95 => ⟨"STA", .zeropageX, 2, 4⟩
  | 0x96 => ⟨"STX", .zeropageY, 2, 4⟩
  | 0x97 => ⟨"SAX", .zeropageY, 2, 4⟩
  | 0x98 => ⟨"TYA", .implied, 1, 2⟩
  | 0x99 => ⟨"STA", .absoluteY, 3, 5⟩
  | 0x9A => ⟨"TXS", .implied, 1, 2⟩
  | 0x9D => ⟨"STA", .absoluteX, 3, 5⟩
  | 0xA0 => ⟨"LDY", .immediate, 2, 2⟩
  | 0xA1 => ⟨"LDA", .indirectX, 2, 6⟩
  | 0xA2 => ⟨"LDX", .immediate, 2, 2⟩
  | 0xA3 => ⟨"LAX", .indirectX, 2, 6⟩
  | 0xA4 => ⟨"LDY", .zeropage, 2, 3⟩
  | 0xA5 => ⟨"LDA", .zeropage, 2, 3⟩
  | 0xA6 => ⟨"LDX", .zeropage, 2, 3⟩
  | 0xA7 => ⟨"LAX", .zeropage, 2, 3⟩
  | 0xA8 => ⟨"TAY", .implied, 1, 2⟩
  | 0xA9 => ⟨"LDA", .immediate, 2, 2⟩
  | 0xAA => ⟨"TAX", .implied, 1, 2⟩
  | 0xAC => ⟨"LDY", .absolute, 3, 4⟩
  | 0xAD => ⟨"LDA", .absolute, 3, 4⟩
  | 0xAE => ⟨"LDX", .absolute, 3, 4⟩
  | 0xAF => ⟨"LAX", .absolute, 3, 4⟩
  | 0xB0 => ⟨"BCS", .relative, 2, 2⟩
  | 0xB1 => ⟨"LDA", .indirectY, 2, 5⟩
  | 0xB3 => ⟨"LAX", .indirectY, 2, 5⟩
  | 0xB4 => ⟨"LDY", .zeropageX, 2, 4⟩
  | 0xB5 => ⟨"LDA", .zeropageX, 2, 4⟩
  | 0xB6 => ⟨"LDX", .zeropageY, 2, 4⟩
  | 0xB7 => ⟨"LAX", .zeropageY, 2, 4⟩
  | 0xB8 => ⟨"CLV", .implied, 1, 2⟩
  | 0xB9 => ⟨"LDA", .absoluteY, 3, 4⟩
  | 0xBA => ⟨"TSX", .implied, 1, 2⟩
  | 0xBC => ⟨"LDY", .absoluteX, 3, 4⟩
  | 0xBD => ⟨"LDA", .absoluteX, 3, 4⟩
  | 0xBE => ⟨"LDX", .absoluteY, 3, 4⟩
  | 0xBF => ⟨"LAX", .absoluteY, 3, 4⟩
  | 0xC0 => ⟨"CPY", .immediate, 2, 2⟩
  | 0xC1 => ⟨"CMP", .indirectX, 2, 6⟩
  | 0xC2 => ⟨"NOP", .immediate, 2, 2⟩
  | 0xC3 => ⟨"DCP", .indirectX, 2, 8⟩
  | 0xC4 => ⟨"CPY", .zeropage, 2, 3⟩
  | 0xC5 => ⟨"CMP", .zeropage, 2, 3⟩
  | 0xC6 => ⟨"DEC", .zeropage, 2, 5⟩
  | 0xC7 => ⟨"DCP", .zeropage, 2, 5⟩
  | 0xC8 => ⟨"INY", .implied, 1, 2⟩
  | 0xC9 => ⟨"CMP", .immediate, 2, 2⟩
  | 0xCA => ⟨"DEX", .implied, 1, 2⟩
  | 0xCC => ⟨"CPY", .absolute, 3, 4⟩
  | 0xCD => ⟨"CMP", .absolute, 3, 4⟩
  | 0xCE => ⟨"DEC", .absolute, 3, 6⟩
  | 0xCF => ⟨"DCP", .absolute, 3, 6⟩
  | 0xD0 => ⟨"BNE", .relative, 2, 2⟩
  | 0xD1 => ⟨"CMP", .indirectY, 2, 5⟩
  | 0xD3 => ⟨"DCP", .indirectY, 2, 7⟩
  | 0xD4 => ⟨"NOP", .zeropage, 2, 4⟩
  | 0xD5 => ⟨"CMP", .zeropageX, 2, 4⟩
  | 0xD6 => ⟨"DEC", .zeropageX, 2, 6⟩
  | 0xD7 => ⟨"DCP", .zeropageX, 2, 6⟩
  | 0xD8 => ⟨"CLD", .implied, 1, 2⟩
  | 0xD9 => ⟨"CMP", .absoluteY, 3, 4⟩
  | 0xDA => ⟨"NOP", .implied, 1, 2⟩
  | 0xDB => ⟨"DCP", .absoluteY, 3, 6⟩
  | 0xDC => ⟨"NOP", .absoluteX, 3, 4⟩
  | 0xDD => ⟨"CMP", .absoluteX, 3, 4⟩
  | 0xDE => ⟨"DEC", .absoluteX, 3, 7⟩
  | 0xDF => ⟨"DCP", .absoluteX, 3, 6⟩
  | 0xE0 => ⟨"CPX", .immediate, 2, 2⟩
  | 0xE1 => ⟨"SBC", .indirectX, 2, 6⟩
  | 0xE2 => ⟨"NOP", .immediate, 2, 2⟩
  | 0xE3 => ⟨"ISC", .indirectX, 2, 8⟩
  | 0xE4 => ⟨"CPX", .zeropage, 2, 3⟩
  | 0xE5 => ⟨"SBC", .zeropage, 2, 3⟩
  | 0xE6 => ⟨"INC", .zeropage, 2, 5⟩
  | 0xE7 => ⟨"ISC", .zeropage, 2, 5⟩
  | 0xE8 => ⟨"INX", .implied, 1, 2⟩
  | 0xE9 => ⟨"SBC", .immediate, 2, 2⟩
  | 0xEA => ⟨"NOP", .implied, 1, 2⟩
  | 0xEB => ⟨"SBC", .immediate, 2, 2⟩
  | 0xEC => ⟨"CPX", .absolute, 3, 4⟩
  | 0xED => ⟨"SBC", .absolute, 3, 4⟩
  | 0xEE => ⟨"INC", .absolute, 3, 6⟩
  | 0xEF => ⟨"ISC", .absolute, 3, 6⟩
  | 0xF0 => ⟨"BEQ", .relative, 2, 2⟩
  | 0xF1 => ⟨"SBC", .indirectY, 2, 5⟩
  | 0xF3 => ⟨"ISC", .indirectY, 2, 7⟩
  | 0xF4 => ⟨"NOP", .zeropage, 2, 4⟩
  | 0xF5 => ⟨"SBC", .zeropageX, 2, 4⟩
  | 0xF6 => ⟨"INC", .zeropageX, 2, 6⟩
  | 0xF7 => ⟨"ISC", .zeropageX, 2, 6⟩
  | 0xF8 => ⟨"SED", .implied, 1, 2⟩
  | 0xF9 => ⟨"SBC", .absoluteY, 3, 4⟩
  | 0xFA => ⟨"NOP", .implied, 1, 2⟩
  | 0xFB => ⟨"ISC", .absoluteY, 3, 6⟩
  | 0xFC => ⟨"NOP", .absoluteX, 3, 4⟩
  | 0xFD => ⟨"SBC", .absoluteX, 3, 4⟩
  | 0xFE => ⟨"INC", .absoluteX, 3, 7⟩
  | 0xFF => ⟨"ISC", .absoluteX, 3, 6⟩
  | _ => {}

/-- Dispatch from the mnemonic carried by the opcode table to the
handler, standing in for the Go function values stored in the table. -/
def CPU.execute (c : CPU) (b : CPUBus) (mnemonic : String) (mode : AddressingMode)
    (operand : Nat) : Except String (Nat × CPU × CPUBus) :=
  match mnemonic with
  | "ADC" => c.adc b mode operand
  | "AND" => c.and b mode operand
  | "ASL" => c.asl b mode operand
  | "BCC" => c.bcc b mode operand
  | "BCS" => c.bcs b mode operand
  | "BEQ" => c.beq b mode operand
  | "BIT" => c.bit b mode operand
  | "BMI" => c.bmi b mode operand
  | "BNE" => c.bne b mode operand
  | "BPL" => c.bpl b mode operand
  | "BRK" => c.brk b mode operand
  | "BVC" => c.bvc b mode operand
  | "BVS" => c.bvs b mode operand
  | "CLC" => c.clc b mode operand
  | "CLD" => c.cld b mode operand
  | "CLI" => c.cli b mode operand
  | "CLV" => c.clv b mode operand
  | "CMP" => c.cmp b mode operand
  | "CPX" => c.cpx b mode operand
  | "CPY" => c.cpy b mode operand
  | "DCP" => c.dcp b mode operand
  | "DEC" => c.dec b mode operand
  | "DEX" => c.dex b mode operand
  | "DEY" => c.dey b mode operand
  | "EOR" => c.eor b mode operand
  | "INC" => c.inc b mode operand
  | "INX" => c.inx b mode operand
  | "INY" => c.iny b mode operand
  | "ISC" => c.isc b mode operand
  | "JMP" => c.jmp b mode operand
  | "JSR" => c.jsr b mode operand
  | "LAX" => c.lax b mode operand
  | "LDA" => c.lda b mode operand
  | "LDX" => c.ldx b mode operand
  | "LDY" => c.ldy b mode operand
  | "LSR" => c.lsr b mode operand
  | "NOP" => c.nop b mode operand
  | "ORA" => c.ora b mode operand
  | "PHA" => c.pha b mode operand
  | "PHP" => c.php b mode operand
  | "PLA" => c.pla b mode operand
  | "PLP" => c.plp b mode operand
  | "RLA" => c.rla b mode operand
  | "ROL" => c.rol b mode operand
  | "ROR" => c.ror b mode operand
  | "RRA" => c.rra b mode operand
  | "RTI" => c.rti b mode operand
  | "RTS" => c.rts b mode operand
  | "SAX" => c.sax b mode operand
  | "SBC" => c.sbc b mode operand
  | "SEC" => c.sec b mode operand
  | "SED" => c.sed b mode operand
  | "SEI" => c.sei b mode operand
  | "SLO" => c.slo b mode operand
  | "SRE" => c.sre b mode operand
  | "STA" => c.sta b mode operand
  | "STX" => c.stx b mode operand
  | "STY" => c.sty b mode operand
  | "TAX" => c.tax b mode operand
  | "TAY" => c.tay b mode operand
  | "TSX" => c.tsx b mode operand
  | "TXA" => c.txa b mode operand
  | "TXS" => c.txs b mode operand
  | "TYA" => c.tya b mode operand
  | _ => .error "Tried to execute unimplemented instruction"

/-- Operand-address computation of `(*CPU).Step` per addressing mode;
also returns the page-cross flag `additionalCycle`. -/
def CPU.computeOperand (c : CPU) (b : CPUBus) (mode : AddressingMode) :
    Except String (Nat × Bool × CPUBus) :=
  match mode with
  | .implied => .ok (0, false, b)
  | .accumulator => .ok (0, false, b)
  | .immediate => .ok (u16 (c.pc + 1), false, b)
  | .zeropage =>
    match b.read (u16 (c.pc + 1)) with
    | .error e => .error e
    | .ok (data, b) => .ok (data, false, b)
  | .zeropageX =>
    match b.read (u16 (c.pc + 1)) with
    | .error e => .error e
    | .ok (data, b) => .ok ((data + c.x) % 256, false, b)
  | .zeropageY =>
    match b.read (u16 (c.pc + 1)) with
    | .error e => .error e
    | .ok (data, b) => .ok ((data + c.y) % 256, false, b)
  | .relative =>
    match b.read (u16 (c.pc + 1)) with
    | .error e => .error e
    | .ok (address, b) =>
      if address < 0x80 then .ok (u16 (c.pc + 2 + address), false, b)
      else .ok (sub16 (c.pc + 2 + address) 0x100, false, b)
  | .absolute =>
    match b.read16 (u16 (c.pc + 1)) with
    | .error e => .error e
    | .ok (data, b) => .ok (data, false, b)
  | .absoluteX =>
    match b.read16 (u16 (c.pc + 1)) with
    | .error e => .error e
    | .ok (data, b) =>
      let operand := u16 (data + c.x)
      .ok (operand, decide (pageCrossed (sub16 operand c.x) operand), b)
  | .absoluteY =>
    match b.read16 (u16 (c.pc + 1)) with
    | .error e => .error e
    | .ok (data, b) =>
      let operand := u16 (data + c.y)
      .ok (operand, decide (pageCrossed (sub16 operand c.y) operand), b)
  | .indirect =>
    match b.read16 (u16 (c.pc + 1)) with
    | .error e => .error e
    | .ok (pv, b) =>
      match b.read16Wrap pv with
      | .error e => .error e
      | .ok (data, b) => .ok (data, false, b)
  | .indirectX =>
    match b.read (u16 (c.pc + 1)) with
    | .error e => .error e
    | .ok (pv, b) =>
      match b.read16Wrap ((pv + c.x) % 256) with
      | .error e => .error e
      | .ok (data, b) => .ok (data, false, b)
  | .indirectY =>
    match b.read (u16 (c.pc + 1)) with
    | .error e => .error e
    | .ok (pv, b) =>
      match b.read16Wrap pv with
      | .error e => .error e
      | .ok (data, b) =>
        let operand := u16 (data + c.y)
        .ok (operand, decide (pageCrossed (sub16 operand c.y) operand), b)

/-- Embedding of `(*CPU).Step`: stall handling, NMI service, fetch,
operand computation, PC advance, execution, and cycle accounting. -/
def CPU.step (c : CPU) (b : CPUBus) : Except String (Nat × CPU × CPUBus) :=
  if 0 < c.stall then .ok (1, { c with stall := c.stall - 1 }, b)
  else
    let didNMIStep : Except String (Bool × CPU × CPUBus) :=
      if c.nmiTriggered then
        match c.nmi b with
        | .error e => .error e
        | .ok (c, b) => .ok (true, { c with nmiTriggered := false }, b)
      else .ok (false, c, b)
    match didNMIStep with
    | .error e => .error e
    | .ok (didNMI, c, b) =>
      match b.read c.pc with
      | .error e => .error ("Failed to fetch opcode: " ++ e)
      | .ok (opcode, b) =>
        let instruction := instructions opcode
        match c.computeOperand b instruction.mode with
        | .error e => .error e
        | .ok (operand, additionalCycle, b) =>
          if instruction.mnemonic = "" then
            .error "Tried to execute unimplemented instruction"
          else
            let c := { c with pc := u16 (c.pc + instruction.size) }
            match c.execute b instruction.mnemonic instruction.mode operand with
            | .error e => .error ("Failed to execute an instruction: " ++ e)
            | .ok (branchCycles, c, b) =>
              let cycles := instruction.cycles + branchCycles
              let cycles := if didNMI then cycles + 7 else cycles
              let cycles :=
                if additionalCycle ∧ instruction.mnemonic ≠ "STA" then cycles + 1
                else cycles
              .ok (cycles, c, b)

/-- Embedding of `(*CPU).Reset`. -/
def CPU.reset (c : CPU) (b : CPUBus) : Except String (CPU × CPUBus) :=
  match b.read16 0xFFFC with
  | .error e => .error ("Failed to reset CPU: " ++ e)
  | .ok (data, b) => .ok ({ c with pc := data, s := 0xFD, p := Status.decodeFrom 0x24 }, b)

/-! ## Console (console.go)

The console owns CPU, PPU, APU and controller; one `Step` runs one CPU
step, `cycles` APU steps and `3 * cycles` PPU dots, latching NMI flags
returned by the PPU into the CPU and capturing completed frames. -/

/-- Embedding of `(*APU).Step` restricted to its state effect: the
sample counter advances and wraps at ten seconds of samples (the audio
channel send has no effect on emulation state). -/
def APU.step (sample : Nat) : Nat :=
  if 44100 * 10 ≤ sample + 1 then 0 else sample + 1

/-- Iterated APU steps (the console runs one per CPU cycle). -/
def APU.steps (sample : Nat) : Nat → Nat
  | 0 => sample
  | n + 1 => APU.steps (APU.step sample) n

/-- Embedding of the `NesConsole` struct; the backing stores live in
`bus`. -/
structure NesConsole where
  cpu : CPU := {}
  bus : CPUBus := {}
  apuSample : Nat := 0
  lastFrame : Nat := 0
  currentFrame : Nat := 0
  buffer : Nat → Nat → RGBA := fun _ _ => {}

/-- One iteration of the PPU loop inside `(*NesConsole).Step`:
a PPU dot, the NMI latch into the CPU, and the frame capture. -/
def NesConsole.ppuDot (s : NesConsole) : Except String NesConsole :=
  match s.bus.ppu.step s.bus.cartridge s.bus.vram with
  | .error e => .error e
  | .ok (nmi, ppu) =>
    let s := { s with bus := { s.bus with ppu := ppu } }
    let s := if nmi then { s with cpu := { s.cpu with nmiTriggered := true } } else s
    let (ok, f) := ppu.frame
    if ok then .ok { s with currentFrame := s.currentFrame + 1, buffer := f }
    else .ok s

/-- The `cycles * 3` PPU-dot loop of `(*NesConsole).Step`. -/
def NesConsole.ppuLoop (s : NesConsole) : Nat → Except String NesConsole
  | 0 => .ok s
  | n + 1 =>
    match s.ppuDot with
    | .error e => .error e
    | .ok s => s.ppuLoop n

/-- Embedding of `(*NesConsole).Step`: one CPU step for `cycles`
cycles, `cycles` APU steps, then `3 * cycles` PPU dots. -/
def NesConsole.step (s : NesConsole) : Except String (Nat × NesConsole) :=
  match s.cpu.step s.bus with
  | .error e => .error e
  | .ok (cycles, cpu, bus) =>
    let s := { s with cpu := cpu, bus := bus, apuSample := APU.steps s.apuSample cycles }
    match s.ppuLoop (cycles * 3) with
    | .error e => .error e
    | .ok s => .ok (cycles, s)

/-- Embedding of `(*NesConsole).Frame`: the most recent completed
image and a freshness flag that fires at most once per frame. -/
def NesConsole.frame (s : NesConsole) : (Nat → Nat → RGBA) × Bool × NesConsole :=
  if s.lastFrame < s.currentFrame then
    (s.buffer, true, { s with lastFrame := s.currentFrame })
  else (s.buffer, false, s)

/-- Host-style driver: `n` console steps, accumulating the total CPU
cycle count reported by the steps. -/
def NesConsole.run (s : NesConsole) : Nat → Except String (Nat × NesConsole)
  | 0 => .ok (0, s)
  | n + 1 =>
    match s.step with
    | .error e => .error e
    | .ok (cycles, s) =>
      match s.run n with
      | .error e => .error e
      | .ok (total, s) => .ok (cycles + total, s)

/-! ## Concrete machine states used by the claim theorems -/

/-- Projection of a CPU step to (consumed cycles, new PC). -/
def stepPCCycles (c : CPU) (b : CPUBus) : Option (Nat × Nat) :=
  match c.step b with
  | .ok (cycles, c, _) => some (cycles, c.pc)
  | .error _ => none

/-- True when an `Except` result is an error. -/
def isError {α : Type} : Except String α → Bool
  | .error _ => true
  | .ok _ => false

/-- Cartridge whose program ROM holds `BNE +4` at CPU address $80FD
(ROM offset $00FD): opcode $D0 then displacement $04. -/
def bneCart : Cartridge :=
  { prgROM := fun i => if i = 0xFD then 0xD0 else if i = 0xFE then 0x04 else 0xEA,
    prgLen := 0x8000 }

/-- CPU positioned at $80FD with Z = 0 (status zero flag clear). -/
def bneCPU : CPU := { p := { r := true }, pc := 0x80FD, s := 0xFD }

/-- Bus holding `bneCart`. -/
def bneBus : CPUBus := { cartridge := bneCart }

/-- C2.  The spec's branch scenario: PC = $80FD, opcode $D0 (BNE),
displacement $04, Z = 0.  The claim says the step returns 4 cycles
(base 2 + taken 1 + page-cross 1) because the target $8103 is on a
different page than the fall-through $80FF.  The code's `bne` assigns
`c.pc = operand` before testing `pageCrossed(c.pc-1, operand)`, so it
compares `operand-1` with `operand` and only adds the extra cycle when
the target's low byte is zero: at this input it returns 3 cycles (PC
does reach $8103). -/
theorem bne_page_cross_three_cycles :
    stepPCCycles bneCPU bneBus = some (3, 0x8103) := by decide

/-- Cartridge with horizontal nametable mirroring (flags6 bit 0 = 0). -/
def cartHorizontal : Cartridge := { flags6 := 0 }

/-- C3.  The claim says the horizontal mirror subtracts 0x0400 for
$2800-$2BFF and 0x0800 for $2C00-$2FFF, always landing in 0-0x7FF.
The code's `offsets` row for horizontal is {0x0400, 0x0000, 0x0400},
so both $2800 and $2C00 map to index 0x800, outside the 2 KiB video
RAM (a bounds fault on the Go array when read). -/
theorem mirrorAddress_horizontal_out_of_range :
    PPUBus.mirrorAddress cartHorizontal 0x2800 = 0x800 ∧
    PPUBus.mirrorAddress cartHorizontal 0x2C00 = 0x800 ∧
    ¬ PPUBus.mirrorAddress cartHorizontal 0x2800 ≤ 0x7FF := by decide

/-- PPU whose VRAM address v points into the palette window. -/
def palettePPU : PPU := { v := 0x3F00 }

/-- C4.  The claim says a $2007 read with v in $3F00-$3FFF succeeds and
returns the direct palette byte.  The code's `readPPUDATA` performs
`bus.read(v)` first for every v, and the PPU bus rejects addresses at
or above $3F00, so the palette-window read returns an error (the
palette branch after the bus read is unreachable). -/
theorem readPPUDATA_palette_errors :
    isError (palettePPU.readPPUDATA {} (fun _ => 0)) = true := by decide

/-- PPU in its power-on state (v = t = 0, w = false). -/
def ppuZero : PPU := {}

/-- C5.  The claim says v and t always stay 15-bit values, the high bit
being masked off by writes.  The code's `writePPUADDR` first write
masks t with 0xC0FF and ORs in `data <<< 8`, so bit 15 of the data
byte's bit 7 lands in t; after two writes of $FF, t = $FF00 and then
v = $FFFF, both with bit 15 set. -/
theorem writePPUADDR_sets_bit15 :
    (ppuZero.writePPUADDR 0xFF).t = 0xFF00 ∧
    ¬ (ppuZero.writePPUADDR 0xFF).t < 0x8000 ∧
    ((ppuZero.writePPUADDR 0xFF).writePPUADDR 0xFF).v = 0xFFFF := by decide

/-! ## C8: controller serialization -/

/-- Controller snapshot with only button A pressed and a stale read
index, as left over from earlier reads. -/
def controllerA : Controller := { buttons := fun i => i == 0, index := 37 }

set_option maxRecDepth 8192 in
/-- C8 counterexample.  The claim says that after the strobe sequence
(write 1, then write 0) every read with index k ≥ 8 returns 0.  The
read index is a Go byte and wraps after 256 reads, so read number 256
returns the state of button A (here 1), not 0. -/
theorem controller_read_256_wraps :
    ¬ Controller.readSeq ((controllerA.write 1).write 0) 256 = 0 := by decide

/-- Consecutive reads with the strobe bit set and the index pinned at 0
always report button A. -/
theorem readSeq_strobe_on (ct : Controller) (h1 : ct.strobe &&& 1 = 1)
    (h0 : ct.index = 0) (k : Nat) :
    Controller.readSeq ct k = (if ct.buttons 0 then 1 else 0) := by
  induction k generalizing ct with
  | zero => simp [Controller.readSeq, Controller.read, h0]
  | succ k ih =>
    have hstep : (ct.read).2 = { ct with index := 0 } := by
      simp [Controller.read, h1]
    rw [Controller.readSeq, hstep]
    exact ih _ h1 rfl

/-- Consecutive reads with the strobe bit clear walk the 8-bit index:
the k-th read reports the button at `(index + k) % 256`. -/
theorem readSeq_strobe_off (k : Nat) : ∀ ct : Controller, ct.strobe &&& 1 = 0 →
    ct.index < 256 →
    Controller.readSeq ct k =
      (if (ct.index + k) % 256 < 8 ∧ ct.buttons ((ct.index + k) % 256) then 1 else 0) := by
  induction k with
  | zero =>
    intro ct h hlt
    simp [Controller.readSeq, Controller.read, Nat.mod_eq_of_lt hlt]
  | succ k ih =>
    intro ct h hlt
    have hstep : (ct.read).2 = { ct with index := u8 (ct.index + 1) } := by
      simp [Controller.read, h]
    rw [Controller.readSeq, hstep]
    have hlt' : ({ ct with index := u8 (ct.index + 1) } : Controller).index < 256 := by
      simp only [u8]
      omega
    rw [ih { ct with index := u8 (ct.index + 1) } h hlt']
    have harg : (u8 (ct.index + 1) + k) % 256 = (ct.index + (k + 1)) % 256 := by
      simp only [u8]
      omega
    simp only [harg]

/-- C8 amended.  With the strobe bit set (after a write with bit 0 = 1)
every read returns the state of button A; after a write clearing the
strobe bit, the k-th subsequent read returns the button at index
`k % 256` for `k % 256 < 8` and 0 otherwise — the read index is an
8-bit counter, so the A, B, Select, Start, Up, Down, Left, Right
sequence holds for k = 0..7, reads 8..255 return 0, and the sequence
repeats after 256 reads. -/
theorem controller_strobe_protocol (ct : Controller) (k d1 d0 : Nat)
    (h1 : d1 &&& 1 = 1) (h0 : d0 &&& 1 = 0) :
    Controller.readSeq (ct.write d1) k = (if ct.buttons 0 then 1 else 0) ∧
    Controller.readSeq ((ct.write d1).write d0) k =
      (if k % 256 < 8 ∧ ct.buttons (k % 256) then 1 else 0) := by
  have hw1 : ct.write d1 = { ct with strobe := d1, index := 0 } := by
    simp [Controller.write, h1]
  have hw0 : (ct.write d1).write d0 = { ct with strobe := d0, index := 0 } := by
    rw [hw1]
    simp [Controller.write, h0]
  constructor
  · rw [hw1, readSeq_strobe_on _ h1 rfl]
  · rw [hw0, readSeq_strobe_off k _ h0 (by norm_num)]
    simp

/-- C8 witness: the strobe protocol theorem applied to the concrete
snapshot `controllerA` with d1 = 1, d0 = 2, k = 9. -/
theorem controller_strobe_protocol_witness :
    Controller.readSeq (controllerA.write 1) 9 = (if controllerA.buttons 0 then 1 else 0) ∧
    Controller.readSeq ((controllerA.write 1).write 2) 9 =
      (if 9 % 256 < 8 ∧ controllerA.buttons (9 % 256) then 1 else 0) :=
  controller_strobe_protocol controllerA 9 1 2 (by decide) (by decide)

/-! ## C9: SBC arithmetic -/

/-- Bit 7 of a byte seen through the 0x80 mask (nonzero case). -/
theorem and80_testBit (x : Nat) : (x &&& 0x80 ≠ 0) ↔ x.testBit 7 = true := by
  have h := Nat.and_two_pow x 7
  rcases hb : x.testBit 7 <;> simp [hb] at h <;> simp [h, hb]

/-- Bit 7 of a byte seen through the 0x80 mask (zero case). -/
theorem and80_testBit_eq (x : Nat) : (x &&& 0x80 = 0) ↔ x.testBit 7 = false := by
  have h := Nat.and_two_pow x 7
  rcases hb : x.testBit 7 <;> simp [hb] at h <;> simp [h, hb]

set_option maxRecDepth 2048 in
/-- XOR with 0xFF is the complement on bytes. -/
theorem xor_ff_eq_sub (m : Nat) (hm : m < 256) : m ^^^ 0xFF = 255 - m := by
  revert m
  decide

/-- Bit 7 only depends on the low byte. -/
theorem testBit7_mod256 (r : Nat) : (r % 256).testBit 7 = r.testBit 7 := by
  have h := Nat.testBit_mod_two_pow r 8 7
  norm_num at h
  exact h

/-- The int16 bit pattern of `a - m - (1 - cv)` has the low byte
`(a + (255 - m) + cv) % 256`. -/
theorem sbc_low_byte (a m cv : Nat) (ha : a < 256) (hm : m < 256) (hcv : cv ≤ 1) :
    ((((a : Int) - (m : Int) - (1 - (cv : Int))).emod 65536).toNat % 256 =
      (a + (255 - m) + cv) % 256) := by
  rcases le_or_lt (0 : Int) ((a : Int) - (m : Int) - (1 - (cv : Int))) with h | h
  · have e0 : (((a : Int) - (m : Int) - (1 - (cv : Int))).emod 65536) =
        (a : Int) - (m : Int) - (1 - (cv : Int)) := by
      apply Int.emod_eq_of_lt h
      omega
    rw [e0]
    omega
  · have e1 : (((a : Int) - (m : Int) - (1 - (cv : Int)) + 65536 * 1).emod 65536) =
        ((a : Int) - (m : Int) - (1 - (cv : Int))).emod 65536 :=
      Int.add_mul_emod_self_left ((a : Int) - (m : Int) - (1 - (cv : Int))) 65536 1
    have e2 : (((a : Int) - (m : Int) - (1 - (cv : Int)) + 65536 * 1).emod 65536) =
        (a : Int) - (m : Int) - (1 - (cv : Int)) + 65536 * 1 := by
      apply Int.emod_eq_of_lt
      · omega
      · omega
    rw [← e1, e2]
    omega

/-- The source's overflow test on the operand equals the claim's test on
the complemented operand. -/
theorem sbc_overflow_first (a m : Nat) :
    ((a ^^^ (m ^^^ 0xFF)) &&& 0x80 = 0 ↔ (a ^^^ m) &&& 0x80 ≠ 0) := by
  rw [and80_testBit_eq, and80_testBit]
  simp only [Nat.testBit_xor]
  have h255 : (0xFF : Nat).testBit 7 = true := by decide
  rw [h255]
  rcases a.testBit 7 <;> rcases m.testBit 7 <;> simp

/-- The source's overflow test against the 16-bit pattern equals the
test against the stored low byte. -/
theorem sbc_overflow_second (a r : Nat) :
    ((a ^^^ r) &&& 0x80 ≠ 0) ↔ ((a ^^^ (r % 256)) &&& 0x80 ≠ 0) := by
  rw [and80_testBit, and80_testBit]
  simp only [Nat.testBit_xor, testBit7_mod256]

/-- C9.  For every accumulator byte A, operand byte m and carry flag C,
`sbc` stores the low byte of `A + (~m) + C` into A (never zeroing A),
sets carry iff the unsigned subtraction `A - m - (1-C)` does not
borrow, and sets overflow exactly by the ADC rule applied to the
complemented operand: V iff `(A ^ ~m) & 0x80 == 0` and
`(A ^ result) & 0x80 != 0`. -/
theorem sbc_is_add_complement (c : CPU) (b b' : CPUBus) (mode : AddressingMode)
    (operand m : Nat) (ha : c.a < 256) (hm : m < 256)
    (hread : b.read operand = .ok (m, b')) :
    ∃ c', c.sbc b mode operand = .ok (0, c', b') ∧
      c'.a = (c.a + (m ^^^ 0xFF) + (if c.p.c then 1 else 0)) % 256 ∧
      (c'.p.c = true ↔ m + (1 - (if c.p.c then 1 else 0)) ≤ c.a) ∧
      (c'.p.v = true ↔
        ((c.a ^^^ (m ^^^ 0xFF)) &&& 0x80 = 0 ∧ (c.a ^^^ c'.a) &&& 0x80 ≠ 0)) := by
  unfold CPU.sbc
  rw [hread]
  have hfirst := sbc_overflow_first c.a m
  rw [xor_ff_eq_sub m hm] at hfirst
  rw [xor_ff_eq_sub m hm]
  rcases hpc : c.p.c
  · have hlow := sbc_low_byte c.a m 0 ha hm (by norm_num)
    have hsecond := sbc_overflow_second c.a
        ((((c.a : Int) - (m : Int) - 1).emod 65536).toNat)
    norm_num at hlow
    simp only [hpc]
    refine ⟨_, rfl, ?_, ?_, ?_⟩
    · repeat' split
      all_goals simp_all [CPU.setN, CPU.setZ]
    · repeat' split
      all_goals simp_all [CPU.setN, CPU.setZ]
      all_goals omega
    · repeat' split
      all_goals simp_all [CPU.setN, CPU.setZ]
      all_goals first
      | omega
      | tauto
  · have hlow := sbc_low_byte c.a m 1 ha hm (by norm_num)
    have hsecond := sbc_overflow_second c.a
        ((((c.a : Int) - (m : Int)).emod 65536).toNat)
    norm_num at hlow
    simp only [hpc]
    refine ⟨_, rfl, ?_, ?_, ?_⟩
    · repeat' split
      all_goals simp_all [CPU.setN, CPU.setZ]
    · repeat' split
      all_goals simp_all [CPU.setN, CPU.setZ]
      all_goals omega
    · repeat' split
      all_goals simp_all [CPU.setN, CPU.setZ]
      all_goals first
      | omega
      | tauto

/-- Bus whose work RAM holds the SBC operand byte $F0 at $0010. -/
def sbcBus : CPUBus := { wram := fun i => if i = 0x10 then 0xF0 else 0 }

/-- CPU with A = $50 and the carry flag set. -/
def sbcCPU : CPU := { a := 0x50, p := { c := true, b := true, r := true } }

/-- C9 witness: the SBC theorem applied to A = $50, m = $F0, C = 1. -/
theorem sbc_is_add_complement_witness :
    ∃ c', sbcCPU.sbc sbcBus .immediate 0x10 = .ok (0, c', sbcBus) ∧
      c'.a = (sbcCPU.a + (0xF0 ^^^ 0xFF) + (if sbcCPU.p.c then 1 else 0)) % 256 ∧
      (c'.p.c = true ↔ 0xF0 + (1 - (if sbcCPU.p.c then 1 else 0)) ≤ sbcCPU.a) ∧
      (c'.p.v = true ↔
        ((sbcCPU.a ^^^ (0xF0 ^^^ 0xFF)) &&& 0x80 = 0 ∧
          (sbcCPU.a ^^^ c'.a) &&& 0x80 ≠ 0)) :=
  sbc_is_add_complement sbcCPU sbcBus sbcBus .immediate 0x10 0xF0
    (by decide) (by decide) (by rfl)

/-! ## C6: the indirect-16 page-wrap bug -/

set_option maxRecDepth 2048 in
/-- Mask values on a 16-bit address whose low byte is 0xFF, written
over the high-byte quotient. -/
theorem wrap_page_chunk : ∀ q : Nat, q < 256 →
    (q * 256 + 255) &&& 0xFF00 = q * 256 ∧ (q * 256 + 255 + 1) &&& 0xFF = 0 := by
  decide

/-- The second address computed by `read16Wrap` stays on the page of
`address` when the low byte is 0xFF. -/
theorem wrap_addr_eq (a : Nat) (ha : a < 65536) (h : a % 256 = 0xFF) :
    (a &&& 0xFF00) ||| ((a + 1) &&& 0xFF) = a - 0xFF ∧ a &&& 0xFF00 = a - 0xFF := by
  have hq : a = a / 256 * 256 + 255 := by omega
  have hqlt : a / 256 < 256 := by omega
  obtain ⟨h1, h2⟩ := wrap_page_chunk (a / 256) hqlt
  constructor
  · conv =>
      lhs
      rw [hq]
    rw [h1, h2, Nat.or_zero]
    omega
  · conv =>
      lhs
      rw [hq]
    rw [h1]
    omega

/-- Cartridge holding `JMP ($10FF)` at CPU address $8000. -/
def jmpCart : Cartridge :=
  { prgROM := fun i =>
      if i = 0 then 0x6C else if i = 1 then 0xFF else if i = 2 then 0x10 else 0xEA,
    prgLen := 0x8000 }

/-- Bus with the indirect pointer split across the page: work RAM holds
$00 at $10FF (mirrored index $08FF) and $80 at $1000 (mirrored index
$0000). -/
def jmpBus : CPUBus :=
  { cartridge := jmpCart,
    wram := fun i => if i = 0x8FF then 0x00 else if i = 0x000 then 0x80 else 0 }

/-- CPU about to execute the indirect jump. -/
def jmpCPU : CPU := { pc := 0x8000 }

/-- C6.  For every 16-bit address a with low byte $FF, `read16Wrap`
reads the low result byte at a and the high result byte at
`a &&& 0xFF00` (equal to `a - 0xFF`), not at `a + 1`; consequently JMP
indirect through $10FF with memory $10FF = $00 and $1000 = $80 loads
PC = $8000 (in 5 cycles). -/
theorem read16Wrap_page_bug (b : CPUBus) (a : Nat) (ha : a < 65536)
    (h : a % 256 = 0xFF) :
    (CPUBus.read16Wrap b a =
      match b.read a with
      | .error e => .error e
      | .ok (l, b1) =>
        match b1.read (a - 0xFF) with
        | .error e => .error e
        | .ok (h', b2) => .ok ((h' <<< 8) ||| l, b2)) ∧
    a &&& 0xFF00 = a - 0xFF ∧
    a - 0xFF ≠ u16 (a + 1) ∧
    stepPCCycles jmpCPU jmpBus = some (5, 0x8000) := by
  obtain ⟨h1, h2⟩ := wrap_addr_eq a ha h
  refine ⟨?_, h2, ?_, ?_⟩
  · unfold CPUBus.read16Wrap
    rw [h1]
  · unfold u16
    omega
  · decide

/-- C6 witness: the wrap theorem applied at a = $10FF on the concrete
jump bus. -/
theorem read16Wrap_page_bug_witness :
    (CPUBus.read16Wrap jmpBus 0x10FF =
      match jmpBus.read 0x10FF with
      | .error e => .error e
      | .ok (l, b1) =>
        match b1.read (0x10FF - 0xFF) with
        | .error e => .error e
        | .ok (h', b2) => .ok ((h' <<< 8) ||| l, b2)) ∧
    0x10FF &&& 0xFF00 = 0x10FF - 0xFF ∧
    0x10FF - 0xFF ≠ u16 (0x10FF + 1) ∧
    stepPCCycles jmpCPU jmpBus = some (5, 0x8000) :=
  read16Wrap_page_bug jmpBus 0x10FF (by decide) (by decide)

/-! ## C7: OAM DMA and stall cycles -/

/-- CPU bus reads below $2000 come from work RAM (with its 2 KiB
mirror) and leave the bus unchanged. -/
theorem read_wram (b : CPUBus) (a : Nat) (ha : a < 0x2000) :
    b.read a = .ok (b.wram (a % 0x0800), b) := by
  unfold CPUBus.read
  rw [if_pos ha]

/-- The OAM-DMA loop over a work-RAM page reads 256 ascending addresses
and fills the block accordingly, leaving the bus untouched. -/
theorem dmaLoop_wram (b : CPUBus) (offset : Nat) (hoff : offset + 255 < 0x2000) :
    ∀ n i oam, i + n = 256 → CPU.dmaLoop b offset i oam =
      .ok ((fun j => if i ≤ j ∧ j < 256 then b.wram ((offset + j) % 0x800) else oam j),
        b) := by
  intro n
  induction n with
  | zero =>
    intro i oam hi
    unfold CPU.dmaLoop
    rw [if_neg (by omega)]
    simp only [Except.ok.injEq, Prod.mk.injEq]
    refine ⟨?_, trivial⟩
    funext j
    rw [if_neg (by omega)]
  | succ k ih =>
    intro i oam hi
    unfold CPU.dmaLoop
    rw [if_pos (by omega), read_wram b (offset + i) (by omega)]
    dsimp only
    rw [ih (i + 1) (upd oam i (b.wram ((offset + i) % 0x800))) (by omega)]
    simp only [Except.ok.injEq, Prod.mk.injEq]
    refine ⟨?_, trivial⟩
    funext j
    by_cases hj : j = i
    · subst hj
      rw [if_neg (by omega), if_pos (by omega)]
      simp [upd]
    · by_cases hj2 : i + 1 ≤ j ∧ j < 256
      · rw [if_pos hj2, if_pos (by omega)]
      · rw [if_neg hj2, if_neg (by omega)]
        simp [upd, hj]

/-- C7, amended.  The original claim ranges over every byte p, but the
DMA loop propagates the first failing bus read, so pages whose source
window is not fully readable abort the $4014 write (see
`oam_dma_page20_errors`).  For a work-RAM source page (p < $20) the
write performs 256 reads in ascending order from `p<<8` through
`p<<8 + 0xFF`, stores the block into the PPU's primary OAM, and adds
514 stall cycles; while the stall counter is positive each CPU step
decrements it and returns exactly 1 cycle without executing an
instruction. -/
theorem oam_dma_and_stall (c : CPU) (b : CPUBus) (p : Nat) (hp : p < 0x20) :
    (∃ b', c.write b 0x4014 p = .ok ({ c with stall := c.stall + 514 }, b') ∧
      (∀ i, i < 256 → b'.ppu.primaryOAM i = b.wram ((p <<< 8 + i) % 0x800)) ∧
      b'.wram = b.wram ∧ b'.vram = b.vram ∧ b'.controller = b.controller ∧
      b'.cartridge = b.cartridge) ∧
    (∀ (c2 : CPU) (b2 : CPUBus), 0 < c2.stall →
      c2.step b2 = .ok (1, { c2 with stall := c2.stall - 1 }, b2)) := by
  constructor
  · have hsh : p <<< 8 = p * 256 := by
      rw [Nat.shiftLeft_eq]
    have hoff : p <<< 8 + 255 < 0x2000 := by
      rw [hsh]
      omega
    unfold CPU.write
    rw [if_pos rfl, dmaLoop_wram b (p <<< 8) hoff 256 0 (fun _ => 0) rfl]
    dsimp only
    refine ⟨_, rfl, ?_, rfl, rfl, rfl, rfl⟩
    intro i hi
    simp [CPUBus.writeOAMDMA, hi]
  · intro c2 b2 h
    unfold CPU.step
    rw [if_pos h]

/-- Bus with a recognizable pattern in work RAM page 2. -/
def dmaBus : CPUBus := { wram := fun i => (i + 7) % 256 }

/-- C7 witness: the DMA theorem applied to page p = 2 on `dmaBus`. -/
theorem oam_dma_and_stall_witness :
    (∃ b', CPU.write {} dmaBus 0x4014 2 =
        .ok ({ ({} : CPU) with stall := ({} : CPU).stall + 514 }, b') ∧
      (∀ i, i < 256 → b'.ppu.primaryOAM i = dmaBus.wram ((2 <<< 8 + i) % 0x800)) ∧
      b'.wram = dmaBus.wram ∧ b'.vram = dmaBus.vram ∧
      b'.controller = dmaBus.controller ∧ b'.cartridge = dmaBus.cartridge) ∧
    (∀ (c2 : CPU) (b2 : CPUBus), 0 < c2.stall →
      c2.step b2 = .ok (1, { c2 with stall := c2.stall - 1 }, b2)) :=
  oam_dma_and_stall {} dmaBus 2 (by decide)

/-- C7 counterexample to the frozen claim's "for every byte p": for
p = $20 the first DMA source read hits $2000, which the CPU bus rejects
(that PPU-register mirror is not readable), so the $4014 write aborts
with the bus error; no OAM byte is stored and no stall cycles are
added. -/
theorem oam_dma_page20_errors :
    CPU.write {} dmaBus 0x4014 0x20 = .error "PPU register is not readable." := by
  have h : CPU.dmaLoop dmaBus (0x20 <<< 8) 0 (fun _ => 0) =
      .error "PPU register is not readable." := by
    unfold CPU.dmaLoop
    rfl
  unfold CPU.write
  rw [h]
  rfl

/-! ## C10: PPU step with the background disabled -/

/-- Dot counter after one tick. -/
def tickCycle (p : PPU) : Nat := if p.cycle + 1 = 341 then 0 else p.cycle + 1

/-- Scanline counter after one tick. -/
def tickScanline (p : PPU) : Nat :=
  if p.cycle + 1 = 341 then (if p.scanline + 1 = 262 then 0 else p.scanline + 1)
  else p.scanline

/-- The tick only rewrites the cycle and scanline counters. -/
theorem tick_spec (p : PPU) :
    p.tick = { p with cycle := tickCycle p, scanline := tickScanline p } := by
  unfold PPU.tick tickCycle tickScanline
  repeat' split
  all_goals first
  | rfl
  | simp_all

/-- Sprite evaluation only rewrites the secondary OAM, its count and
the overflow flag. -/
theorem evaluateSprite_fields (p : PPU) :
    (p.evaluateSprite).picture = p.picture ∧ (p.evaluateSprite).v = p.v ∧
    (p.evaluateSprite).t = p.t ∧ (p.evaluateSprite).x = p.x ∧
    (p.evaluateSprite).w = p.w ∧
    (p.evaluateSprite).nameTableByte = p.nameTableByte ∧
    (p.evaluateSprite).attributeTableByte = p.attributeTableByte ∧
    (p.evaluateSprite).lowTileByte = p.lowTileByte ∧
    (p.evaluateSprite).highTileByte = p.highTileByte ∧
    (p.evaluateSprite).tileDataBuffer = p.tileDataBuffer ∧
    (p.evaluateSprite).cycle = p.cycle ∧ (p.evaluateSprite).scanline = p.scanline ∧
    (p.evaluateSprite).nmiOccurred = p.nmiOccurred ∧
    (p.evaluateSprite).nmiOutput = p.nmiOutput ∧
    (p.evaluateSprite).spriteZeroHit = p.spriteZeroHit := by
  unfold PPU.evaluateSprite
  rcases hl : p.evaluateSpriteLoop 0 p.secondaryOAM 0 with ⟨soam, count⟩
  dsimp only
  split <;>
    exact ⟨rfl, rfl, rfl, rfl, rfl, rfl, rfl, rfl, rfl, rfl, rfl, rfl, rfl, rfl, rfl⟩

/-- The background block is inert when the show-background flag is
false. -/
theorem backgroundLogic_off (p : PPU) (cart : Cartridge) (vram : Nat → Nat)
    (h : p.showBackground = false) :
    p.backgroundLogic cart vram = .ok p := by
  unfold PPU.backgroundLogic
  simp [h]

/-- C10.  Whenever the show-background flag is false (even with the
show-sprite flag true), a PPU step writes no pixel to the frame image
and performs no v/t/x scroll or fetch-pipeline updates; only the dot
tick, the vblank/NMI bookkeeping, the sprite-flag clearing on the
pre-render line, and the sprite evaluation at dot 257 still run, and
the step never fails. -/
theorem step_background_off (p : PPU) (cart : Cartridge) (vram : Nat → Nat)
    (h : p.showBackground = false) :
    ∃ nmi p', p.step cart vram = .ok (nmi, p') ∧
      p'.picture = p.picture ∧ p'.v = p.v ∧ p'.t = p.t ∧ p'.x = p.x ∧ p'.w = p.w ∧
      p'.nameTableByte = p.nameTableByte ∧
      p'.attributeTableByte = p.attributeTableByte ∧
      p'.lowTileByte = p.lowTileByte ∧ p'.highTileByte = p.highTileByte ∧
      p'.tileDataBuffer = p.tileDataBuffer ∧
      p'.cycle = tickCycle p ∧ p'.scanline = tickScanline p ∧
      nmi = (p.nmiOutput && decide (tickScanline p = 241 ∧ tickCycle p = 1)) ∧
      (tickScanline p = 241 ∧ tickCycle p = 1 → p'.nmiOccurred = true) ∧
      (tickScanline p = 261 ∧ tickCycle p = 1 →
        p'.nmiOccurred = false ∧ p'.spriteZeroHit = false ∧ p'.spriteOverflow = false) ∧
      (tickCycle p = 257 → 240 ≤ tickScanline p → p'.secondaryNum = 0) ∧
      (tickCycle p ≠ 257 → p'.secondaryNum = p.secondaryNum ∧
        p'.secondaryOAM = p.secondaryOAM) := by
  have hb : (p.tick).showBackground = false := by
    rw [tick_spec]
    exact h
  unfold PPU.step
  dsimp only
  rw [backgroundLogic_off _ _ _ hb]
  dsimp only
  rw [tick_spec]
  refine ⟨_, _, rfl, ?_⟩
  repeat' split
  all_goals simp_all [PPU.updateNMI, evaluateSprite_fields]
  all_goals by_cases h241 : tickScanline p = 241 <;>
    by_cases hc1 : tickCycle p = 1 <;> simp_all

/-- Mid-frame PPU with the background disabled but sprites enabled. -/
def bgOffPPU : PPU := { showSprite := true, cycle := 100, scanline := 50 }

/-- C10 witness: the background-off theorem applied to `bgOffPPU`. -/
theorem step_background_off_witness :
    ∃ nmi p', bgOffPPU.step {} (fun _ => 0) = .ok (nmi, p') ∧
      p'.picture = bgOffPPU.picture ∧ p'.v = bgOffPPU.v ∧ p'.t = bgOffPPU.t ∧
      p'.x = bgOffPPU.x ∧ p'.w = bgOffPPU.w ∧
      p'.nameTableByte = bgOffPPU.nameTableByte ∧
      p'.attributeTableByte = bgOffPPU.attributeTableByte ∧
      p'.lowTileByte = bgOffPPU.lowTileByte ∧
      p'.highTileByte = bgOffPPU.highTileByte ∧
      p'.tileDataBuffer = bgOffPPU.tileDataBuffer ∧
      p'.cycle = tickCycle bgOffPPU ∧ p'.scanline = tickScanline bgOffPPU ∧
      nmi = (bgOffPPU.nmiOutput &&
        decide (tickScanline bgOffPPU = 241 ∧ tickCycle bgOffPPU = 1)) ∧
      (tickScanline bgOffPPU = 241 ∧ tickCycle bgOffPPU = 1 → p'.nmiOccurred = true) ∧
      (tickScanline bgOffPPU = 261 ∧ tickCycle bgOffPPU = 1 →
        p'.nmiOccurred = false ∧ p'.spriteZeroHit = false ∧ p'.spriteOverflow = false) ∧
      (tickCycle bgOffPPU = 257 → 240 ≤ tickScanline bgOffPPU → p'.secondaryNum = 0) ∧
      (tickCycle bgOffPPU ≠ 257 → p'.secondaryNum = bgOffPPU.secondaryNum ∧
        p'.secondaryOAM = bgOffPPU.secondaryOAM) :=
  step_background_off bgOffPPU {} (fun _ => 0) (by decide)

/-! ## C1: the 3:1 console clock ratio

The CPU can reach the PPU through the bus (register reads/writes and
OAM DMA), but none of those paths touches the PPU's dot clock, so the
`3 * cycles` PPU steps of one console step advance the dot position by
exactly that amount.  `TimingEq` records that a bus operation leaves
the dot clock alone. -/

/-- Dot position of the PPU inside its 341 x 262 frame. -/
def dotPos (p : PPU) : Nat := p.scanline * 341 + p.cycle

/-- Well-formedness of the dot clock: the counters are inside one
frame (established by `Reset` and preserved by every step). -/
def PPUWf (p : PPU) : Prop := p.cycle < 341 ∧ p.scanline < 262

instance (p : PPU) : Decidable (PPUWf p) := by
  unfold PPUWf
  infer_instance

/-- Two bus states with the same PPU dot clock. -/
def TimingEq (b b' : CPUBus) : Prop :=
  b'.ppu.cycle = b.ppu.cycle ∧ b'.ppu.scanline = b.ppu.scanline

theorem timingEq_refl (b : CPUBus) : TimingEq b b := ⟨rfl, rfl⟩

theorem timingEq_trans {b1 b2 b3 : CPUBus} (h1 : TimingEq b1 b2)
    (h2 : TimingEq b2 b3) : TimingEq b1 b3 :=
  ⟨h2.1.trans h1.1, h2.2.trans h1.2⟩

/-- The $2007 read leaves the dot clock alone. -/
theorem readPPUDATA_timing {p p' : PPU} {cart : Cartridge} {vram : Nat → Nat}
    {d : Nat} (h : p.readPPUDATA cart vram = .ok (d, p')) :
    p'.cycle = p.cycle ∧ p'.scanline = p.scanline := by
  unfold PPU.readPPUDATA at h
  split at h
  · exact absurd h (by simp)
  · rename_i data hr
    rcases Nat.lt_or_ge p.v 0x3F00 with hv | hv
    · rw [if_pos hv] at h
      dsimp only at h
      by_cases hi : p.vramIncrementFlag = 0
      · rw [if_pos hi] at h
        simp only [Except.ok.injEq, Prod.mk.injEq] at h
        obtain ⟨-, hp⟩ := h
        subst hp
        exact ⟨rfl, rfl⟩
      · rw [if_neg hi] at h
        simp only [Except.ok.injEq, Prod.mk.injEq] at h
        obtain ⟨-, hp⟩ := h
        subst hp
        exact ⟨rfl, rfl⟩
    · rw [if_neg (by omega)] at h
      dsimp only at h
      by_cases hi : p.vramIncrementFlag = 0
      · rw [if_pos hi] at h
        simp only [Except.ok.injEq, Prod.mk.injEq] at h
        obtain ⟨-, hp⟩ := h
        subst hp
        exact ⟨rfl, rfl⟩
      · rw [if_neg hi] at h
        simp only [Except.ok.injEq, Prod.mk.injEq] at h
        obtain ⟨-, hp⟩ := h
        subst hp
        exact ⟨rfl, rfl⟩

/-- The $2007 write leaves the dot clock alone. -/
theorem writePPUDATA_timing {p p' : PPU} {cart : Cartridge} {vram vram' : Nat → Nat}
    {d : Nat} (h : p.writePPUDATA cart vram d = .ok (p', vram')) :
    p'.cycle = p.cycle ∧ p'.scanline = p.scanline := by
  unfold PPU.writePPUDATA at h
  dsimp only at h
  split at h
  · by_cases hi : p.vramIncrementFlag = 0
    · rw [if_pos hi] at h
      simp only [Except.ok.injEq, Prod.mk.injEq] at h
      obtain ⟨hp, -⟩ := h
      subst hp
      exact ⟨rfl, rfl⟩
    · rw [if_neg hi] at h
      simp only [Except.ok.injEq, Prod.mk.injEq] at h
      obtain ⟨hp, -⟩ := h
      subst hp
      exact ⟨rfl, rfl⟩
  · split at h
    · exact absurd h (by simp)
    · rename_i vr hw
      by_cases hi : p.vramIncrementFlag = 0
      · rw [if_pos hi] at h
        simp only [Except.ok.injEq, Prod.mk.injEq] at h
        obtain ⟨hp, -⟩ := h
        subst hp
        exact ⟨rfl, rfl⟩
      · rw [if_neg hi] at h
        simp only [Except.ok.injEq, Prod.mk.injEq] at h
        obtain ⟨hp, -⟩ := h
        subst hp
        exact ⟨rfl, rfl⟩

/-- PPU register reads reachable from the CPU leave the dot clock
alone. -/
theorem readPPURegister_timing {b b' : CPUBus} {a d : Nat}
    (h : b.readPPURegister a = .ok (d, b')) : TimingEq b b' := by
  unfold CPUBus.readPPURegister at h
  dsimp only at h
  by_cases h2 : (0x2000 ||| a % 8) = 0x2002
  · rw [if_pos h2] at h
    rcases hs : b.ppu.readPPUSTATUS with ⟨d0, p0⟩
    rw [hs] at h
    dsimp only at h
    simp only [Except.ok.injEq, Prod.mk.injEq] at h
    obtain ⟨-, hb⟩ := h
    subst hb
    have hp0 : (b.ppu.readPPUSTATUS).2 = p0 := congrArg Prod.snd hs
    subst hp0
    exact ⟨rfl, rfl⟩
  · rw [if_neg h2] at h
    by_cases h4 : (0x2000 ||| a % 8) = 0x2004
    · rw [if_pos h4] at h
      simp only [Except.ok.injEq, Prod.mk.injEq] at h
      obtain ⟨-, hb⟩ := h
      subst hb
      exact timingEq_refl b
    · rw [if_neg h4] at h
      by_cases h7 : (0x2000 ||| a % 8) = 0x2007
      · rw [if_pos h7] at h
        rcases hp : b.ppu.readPPUDATA b.cartridge b.vram with e | ⟨d2, p2⟩
        · rw [hp] at h
          exact absurd h (by simp)
        · rw [hp] at h
          dsimp only at h
          simp only [Except.ok.injEq, Prod.mk.injEq] at h
          obtain ⟨-, hb⟩ := h
          subst hb
          obtain ⟨hc, hl⟩ := readPPUDATA_timing hp
          exact ⟨hc, hl⟩
      · rw [if_neg h7] at h
        exact absurd h (by simp)

/-- CPU bus reads leave the dot clock alone. -/
theorem busRead_timing {b b' : CPUBus} {a d : Nat}
    (h : b.read a = .ok (d, b')) : TimingEq b b' := by
  unfold CPUBus.read at h
  by_cases h1 : a < 0x2000
  · rw [if_pos h1] at h
    simp only [Except.ok.injEq, Prod.mk.injEq] at h
    obtain ⟨-, hb⟩ := h
    subst hb
    exact timingEq_refl b
  · rw [if_neg h1] at h
    by_cases h2 : a < 0x4000
    · rw [if_pos h2] at h
      exact readPPURegister_timing h
    · rw [if_neg h2] at h
      by_cases h3 : a = 0x4016
      · rw [if_pos h3] at h
        dsimp only at h
        rcases hc : b.controller.read with ⟨d0, c0⟩
        rw [hc] at h
        dsimp only at h
        simp only [Except.ok.injEq, Prod.mk.injEq] at h
        obtain ⟨-, hb⟩ := h
        subst hb
        exact ⟨rfl, rfl⟩
      · rw [if_neg h3] at h
        by_cases h4 : a < 0x4018
        · rw [if_pos h4] at h
          simp only [Except.ok.injEq, Prod.mk.injEq] at h
          obtain ⟨-, hb⟩ := h
          subst hb
          exact timingEq_refl b
        · rw [if_neg h4] at h
          by_cases h5 : a < 0x4020
          · rw [if_pos h5] at h
            exact absurd h (by simp)
          · rw [if_neg h5] at h
            rcases hr : b.cartridge.readFromCPU a with e | d0
            · rw [hr] at h
              exact absurd h (by simp)
            · rw [hr] at h
              simp only [Except.ok.injEq, Prod.mk.injEq] at h
              obtain ⟨-, hb⟩ := h
              subst hb
              exact timingEq_refl b

/-- PPU register writes reachable from the CPU leave the dot clock
alone. -/
theorem writeToPPURegisters_timing {b b' : CPUBus} {a d : Nat}
    (h : b.writeToPPURegisters a d = .ok b') : TimingEq b b' := by
  unfold CPUBus.writeToPPURegisters at h
  dsimp only at h
  by_cases k0 : (0x2000 ||| a % 8) = 0x2000
  · rw [if_pos k0] at h
    simp only [Except.ok.injEq] at h
    subst h
    exact ⟨rfl, rfl⟩
  rw [if_neg k0] at h
  by_cases k1 : (0x2000 ||| a % 8) = 0x2001
  · rw [if_pos k1] at h
    simp only [Except.ok.injEq] at h
    subst h
    exact ⟨rfl, rfl⟩
  rw [if_neg k1] at h
  by_cases k3 : (0x2000 ||| a % 8) = 0x2003
  · rw [if_pos k3] at h
    simp only [Except.ok.injEq] at h
    subst h
    refine ⟨?_, ?_⟩ <;> simp only [PPU.writePPUADDR] <;> split <;> rfl
  rw [if_neg k3] at h
  by_cases k4 : (0x2000 ||| a % 8) = 0x2004
  · rw [if_pos k4] at h
    simp only [Except.ok.injEq] at h
    subst h
    exact ⟨rfl, rfl⟩
  rw [if_neg k4] at h
  by_cases k5 : (0x2000 ||| a % 8) = 0x2005
  · rw [if_pos k5] at h
    simp only [Except.ok.injEq] at h
    subst h
    refine ⟨?_, ?_⟩ <;> simp only [PPU.writePPUSCROLL] <;> split <;> rfl
  rw [if_neg k5] at h
  by_cases k6 : (0x2000 ||| a % 8) = 0x2006
  · rw [if_pos k6] at h
    simp only [Except.ok.injEq] at h
    subst h
    refine ⟨?_, ?_⟩ <;> simp only [PPU.writePPUADDR] <;> split <;> rfl
  rw [if_neg k6] at h
  by_cases k7 : (0x2000 ||| a % 8) = 0x2007
  · rw [if_pos k7] at h
    rcases hp : b.ppu.writePPUDATA b.cartridge b.vram d with e | ⟨p2, v2⟩
    · rw [hp] at h
      exact absurd h (by simp)
    · rw [hp] at h
      dsimp only at h
      simp only [Except.ok.injEq] at h
      subst h
      obtain ⟨hc, hl⟩ := writePPUDATA_timing hp
      exact ⟨hc, hl⟩
  · rw [if_neg k7] at h
    exact absurd h (by simp)

/-- CPU bus writes leave the dot clock alone. -/
theorem busWrite_timing {b b' : CPUBus} {a d : Nat}
    (h : b.write a d = .ok b') : TimingEq b b' := by
  unfold CPUBus.write at h
  by_cases h1 : a < 0x2000
  · rw [if_pos h1] at h
    simp only [Except.ok.injEq] at h
    subst h
    exact ⟨rfl, rfl⟩
  rw [if_neg h1] at h
  by_cases h2 : a < 0x4000
  · rw [if_pos h2] at h
    exact writeToPPURegisters_timing h
  rw [if_neg h2] at h
  by_cases h3 : a = 0x4014
  · rw [if_pos h3] at h
    exact absurd h (by simp)
  rw [if_neg h3] at h
  by_cases h4 : a = 0x4016
  · rw [if_pos h4] at h
    simp only [Except.ok.injEq] at h
    subst h
    exact ⟨rfl, rfl⟩
  rw [if_neg h4] at h
  by_cases h5 : a < 0x4018
  · rw [if_pos h5] at h
    simp only [Except.ok.injEq] at h
    subst h
    exact timingEq_refl b
  rw [if_neg h5] at h
  by_cases h6 : a < 0x4020
  · rw [if_pos h6] at h
    exact absurd h (by simp)
  rw [if_neg h6] at h
  rcases hw : b.cartridge.writeFromCPU a d with e | u
  · rw [hw] at h
    exact absurd h (by simp)
  · rw [hw] at h
    simp only [Except.ok.injEq] at h
    subst h
    exact timingEq_refl b

/-- The bus-level 16-bit read leaves the dot clock alone. -/
theorem read16_timing {b b' : CPUBus} {a d : Nat}
    (h : b.read16 a = .ok (d, b')) : TimingEq b b' := by
  unfold CPUBus.read16 at h
  split at h
  · exact absurd h (by simp)
  · rename_i l b2 hr1
    split at h
    · exact absurd h (by simp)
    · rename_i h2' b3 hr2
      simp only [Except.ok.injEq, Prod.mk.injEq] at h
      obtain ⟨-, hb⟩ := h
      subst hb
      exact timingEq_trans (busRead_timing hr1) (busRead_timing hr2)

/-- The wrapped 16-bit read leaves the dot clock alone. -/
theorem read16Wrap_timing {b b' : CPUBus} {a d : Nat}
    (h : b.read16Wrap a = .ok (d, b')) : TimingEq b b' := by
  unfold CPUBus.read16Wrap at h
  dsimp only at h
  split at h
  · exact absurd h (by simp)
  · rename_i l b2 hr1
    split at h
    · exact absurd h (by simp)
    · rename_i h2' b3 hr2
      simp only [Except.ok.injEq, Prod.mk.injEq] at h
      obtain ⟨-, hb⟩ := h
      subst hb
      exact timingEq_trans (busRead_timing hr1) (busRead_timing hr2)

/-- The OAM-DMA read loop leaves the dot clock alone. -/
theorem dmaLoop_timing :
    ∀ (n i : Nat) {b b' : CPUBus} {offset : Nat} {oam oam' : Nat → Nat},
      i + n = 256 → CPU.dmaLoop b offset i oam = .ok (oam', b') → TimingEq b b' := by
  intro n
  induction n with
  | zero =>
    intro i b b' offset oam oam' hi h
    unfold CPU.dmaLoop at h
    rw [if_neg (by omega)] at h
    simp only [Except.ok.injEq, Prod.mk.injEq] at h
    obtain ⟨-, hb⟩ := h
    subst hb
    exact timingEq_refl b
  | succ k ih =>
    intro i b b' offset oam oam' hi h
    unfold CPU.dmaLoop at h
    rw [if_pos (by omega)] at h
    split at h
    · exact absurd h (by simp)
    · rename_i d b2 hr
      exact timingEq_trans (busRead_timing hr) (ih (i + 1) (by omega) h)

/-- The CPU-side write (including OAM DMA) leaves the dot clock
alone. -/
theorem cpuWrite_timing {c c' : CPU} {b b' : CPUBus} {a d : Nat}
    (h : c.write b a d = .ok (c', b')) : TimingEq b b' := by
  unfold CPU.write at h
  split at h
  · split at h
    · exact absurd h (by simp)
    · rename_i oam b2 hl
      simp only [Except.ok.injEq, Prod.mk.injEq] at h
      obtain ⟨-, hb⟩ := h
      subst hb
      exact timingEq_trans (dmaLoop_timing 256 0 rfl hl) (timingEq_refl _)
  · split at h
    · exact absurd h (by simp)
    · rename_i b2 hw
      simp only [Except.ok.injEq, Prod.mk.injEq] at h
      obtain ⟨-, hb⟩ := h
      subst hb
      exact busWrite_timing hw

/-- Stack pushes leave the dot clock alone. -/
theorem push_timing {c c' : CPU} {b b' : CPUBus} {x : Nat}
    (h : c.push b x = .ok (c', b')) : TimingEq b b' := by
  unfold CPU.push at h
  split at h
  · exact absurd h (by simp)
  · rename_i c2 b2 hw
    simp only [Except.ok.injEq, Prod.mk.injEq] at h
    obtain ⟨-, hb⟩ := h
    subst hb
    exact cpuWrite_timing hw

/-- Stack pops leave the dot clock alone. -/
theorem pop_timing {c c' : CPU} {b b' : CPUBus} {d : Nat}
    (h : c.pop b = .ok (d, c', b')) : TimingEq b b' := by
  unfold CPU.pop at h
  dsimp only at h
  split at h
  · exact absurd h (by simp)
  · rename_i d2 b2 hr
    simp only [Except.ok.injEq, Prod.mk.injEq] at h
    obtain ⟨-, -, hb⟩ := h
    subst hb
    exact busRead_timing hr


/-- NMI service leaves the dot clock alone. -/
theorem nmi_timing {c c' : CPU} {b b' : CPUBus}
    (h : c.nmi b = .ok (c', b')) : TimingEq b b' := by
  unfold CPU.nmi at h
  repeat' split at h
  all_goals try exact Except.noConfusion h
  all_goals try simp only [Except.ok.injEq, Prod.mk.injEq] at h
  all_goals try obtain ⟨-, hb⟩ := h
  all_goals try subst hb
  all_goals
    repeat'
      first
      | exact timingEq_refl _
      | exact push_timing (by assumption)
      | exact read16_timing (by assumption)
      | refine timingEq_trans ?_ (push_timing (by assumption))
      | refine timingEq_trans ?_ (read16_timing (by assumption))

set_option maxHeartbeats 1600000 in
/-- The `adc` handler leaves the dot clock alone. -/
theorem adc_timing {c c' : CPU} {b b' : CPUBus} {mode : AddressingMode}
    {operand n : Nat}
    (h : c.adc b mode operand = .ok (n, c', b')) : TimingEq b b' := by
  unfold CPU.adc at h
  try dsimp only at h
  repeat' split at h
  all_goals try exact Except.noConfusion h
  all_goals try simp only [Except.ok.injEq, Prod.mk.injEq] at h
  all_goals try obtain ⟨-, -, hb⟩ := h
  all_goals try subst hb
  all_goals
    repeat'
      first
      | exact timingEq_refl _
      | exact busRead_timing (by assumption)
      | exact cpuWrite_timing (by assumption)
      | refine timingEq_trans ?_ (busRead_timing (by assumption))
      | refine timingEq_trans ?_ (cpuWrite_timing (by assumption))

set_option maxHeartbeats 1600000 in
/-- The `and` handler leaves the dot clock alone. -/
theorem and_timing {c c' : CPU} {b b' : CPUBus} {mode : AddressingMode}
    {operand n : Nat}
    (h : c.and b mode operand = .ok (n, c', b')) : TimingEq b b' := by
  unfold CPU.and at h
  try dsimp only at h
  repeat' split at h
  all_goals try exact Except.noConfusion h
  all_goals try simp only [Except.ok.injEq, Prod.mk.injEq] at h
  all_goals try obtain ⟨-, -, hb⟩ := h
  all_goals try subst hb
  all_goals
    repeat'
      first
      | exact timingEq_refl _
      | exact busRead_timing (by assumption)
      | exact cpuWrite_timing (by assumption)
      | refine timingEq_trans ?_ (busRead_timing (by assumption))
      | refine timingEq_trans ?_ (cpuWrite_timing (by assumption))

set_option maxHeartbeats 1600000 in
/-- The `asl` handler leaves the dot clock alone. -/
theorem asl_timing {c c' : CPU} {b b' : CPUBus} {mode : AddressingMode}
    {operand n : Nat}
    (h : c.asl b mode operand = .ok (n, c', b')) : TimingEq b b' := by
  unfold CPU.asl at h
  try dsimp only at h
  repeat' split at h
  all_goals try exact Except.noConfusion h
  all_goals try simp only [Except.ok.injEq, Prod.mk.injEq] at h
  all_goals try obtain ⟨-, -, hb⟩ := h
  all_goals try subst hb
  all_goals
    repeat'
      first
      | exact timingEq_refl _
      | exact busRead_timing (by assumption)
      | exact cpuWrite_timing (by assumption)
      | refine timingEq_trans ?_ (busRead_timing (by assumption))
      | refine timingEq_trans ?_ (cpuWrite_timing (by assumption))

set_option maxHeartbeats 1600000 in
/-- The `ora` handler leaves the dot clock alone. -/
theorem ora_timing {c c' : CPU} {b b' : CPUBus} {mode : AddressingMode}
    {operand n : Nat}
    (h : c.ora b mode operand = .ok (n, c', b')) : TimingEq b b' := by
  unfold CPU.ora at h
  try dsimp only at h
  repeat' split at h
  all_goals try exact Except.noConfusion h
  all_goals try simp only [Except.ok.injEq, Prod.mk.injEq] at h
  all_goals try obtain ⟨-, -, hb⟩ := h
  all_goals try subst hb
  all_goals
    repeat'
      first
      | exact timingEq_refl _
      | exact busRead_timing (by assumption)
      | exact cpuWrite_timing (by assumption)
      | refine timingEq_trans ?_ (busRead_timing (by assumption))
      | refine timingEq_trans ?_ (cpuWrite_timing (by assumption))

set_option maxHeartbeats 1600000 in
/-- The `rol` handler leaves the dot clock alone. -/
theorem rol_timing {c c' : CPU} {b b' : CPUBus} {mode : AddressingMode}
    {operand n : Nat}
    (h : c.rol b mode operand = .ok (n, c', b')) : TimingEq b b' := by
  unfold CPU.rol at h
  try dsimp only at h
  repeat' split at h
  all_goals try exact Except.noConfusion h
  all_goals try simp only [Except.ok.injEq, Prod.mk.injEq] at h
  all_goals try obtain ⟨-, -, hb⟩ := h
  all_goals try subst hb
  all_goals
    repeat'
      first
      | exact timingEq_refl _
      | exact busRead_timing (by assumption)
      | exact cpuWrite_timing (by assumption)
      | refine timingEq_trans ?_ (busRead_timing (by assumption))
      | refine timingEq_trans ?_ (cpuWrite_timing (by assumption))

set_option maxHeartbeats 1600000 in
/-- The `lsr` handler leaves the dot clock alone. -/
theorem lsr_timing {c c' : CPU} {b b' : CPUBus} {mode : AddressingMode}
    {operand n : Nat}
    (h : c.lsr b mode operand = .ok (n, c', b')) : TimingEq b b' := by
  unfold CPU.lsr at h
  try dsimp only at h
  repeat' split at h
  all_goals try exact Except.noConfusion h
  all_goals try simp only [Except.ok.injEq, Prod.mk.injEq] at h
  all_goals try obtain ⟨-, -, hb⟩ := h
  all_goals try subst hb
  all_goals
    repeat'
      first
      | exact timingEq_refl _
      | exact busRead_timing (by assumption)
      | exact cpuWrite_timing (by assumption)
      | refine timingEq_trans ?_ (busRead_timing (by assumption))
      | refine timingEq_trans ?_ (cpuWrite_timing (by assumption))

set_option maxHeartbeats 1600000 in
/-- The `eor` handler leaves the dot clock alone. -/
theorem eor_timing {c c' : CPU} {b b' : CPUBus} {mode : AddressingMode}
    {operand n : Nat}
    (h : c.eor b mode operand = .ok (n, c', b')) : TimingEq b b' := by
  unfold CPU.eor at h
  try dsimp only at h
  repeat' split at h
  all_goals try exact Except.noConfusion h
  all_goals try simp only [Except.ok.injEq, Prod.mk.injEq] at h
  all_goals try obtain ⟨-, -, hb⟩ := h
  all_goals try subst hb
  all_goals
    repeat'
      first
      | exact timingEq_refl _
      | exact busRead_timing (by assumption)
      | exact cpuWrite_timing (by assumption)
      | refine timingEq_trans ?_ (busRead_timing (by assumption))
      | refine timingEq_trans ?_ (cpuWrite_timing (by assumption))

set_option maxHeartbeats 1600000 in
/-- The `ror` handler leaves the dot clock alone. -/
theorem ror_timing {c c' : CPU} {b b' : CPUBus} {mode : AddressingMode}
    {operand n : Nat}
    (h : c.ror b mode operand = .ok (n, c', b')) : TimingEq b b' := by
  unfold CPU.ror at h
  try dsimp only at h
  repeat' split at h
  all_goals try exact Except.noConfusion h
  all_goals try simp only [Except.ok.injEq, Prod.mk.injEq] at h
  all_goals try obtain ⟨-, -, hb⟩ := h
  all_goals try subst hb
  all_goals
    repeat'
      first
      | exact timingEq_refl _
      | exact busRead_timing (by assumption)
      | exact cpuWrite_timing (by assumption)
      | refine timingEq_trans ?_ (busRead_timing (by assumption))
      | refine timingEq_trans ?_ (cpuWrite_timing (by assumption))

set_option maxHeartbeats 1600000 in
/-- The `dec` handler leaves the dot clock alone. -/
theorem dec_timing {c c' : CPU} {b b' : CPUBus} {mode : AddressingMode}
    {operand n : Nat}
    (h : c.dec b mode operand = .ok (n, c', b')) : TimingEq b b' := by
  unfold CPU.dec at h
  try dsimp only at h
  repeat' split at h
  all_goals try exact Except.noConfusion h
  all_goals try simp only [Except.ok.injEq, Prod.mk.injEq] at h
  all_goals try obtain ⟨-, -, hb⟩ := h
  all_goals try subst hb
  all_goals
    repeat'
      first
      | exact timingEq_refl _
      | exact busRead_timing (by assumption)
      | exact cpuWrite_timing (by assumption)
      | refine timingEq_trans ?_ (busRead_timing (by assumption))
      | refine timingEq_trans ?_ (cpuWrite_timing (by assumption))

set_option maxHeartbeats 1600000 in
/-- The `inc` handler leaves the dot clock alone. -/
theorem inc_timing {c c' : CPU} {b b' : CPUBus} {mode : AddressingMode}
    {operand n : Nat}
    (h : c.inc b mode operand = .ok (n, c', b')) : TimingEq b b' := by
  unfold CPU.inc at h
  try dsimp only at h
  repeat' split at h
  all_goals try exact Except.noConfusion h
  all_goals try simp only [Except.ok.injEq, Prod.mk.injEq] at h
  all_goals try obtain ⟨-, -, hb⟩ := h
  all_goals try subst hb
  all_goals
    repeat'
      first
      | exact timingEq_refl _
      | exact busRead_timing (by assumption)
      | exact cpuWrite_timing (by assumption)
      | refine timingEq_trans ?_ (busRead_timing (by assumption))
      | refine timingEq_trans ?_ (cpuWrite_timing (by assumption))

set_option maxHeartbeats 1600000 in
/-- The `cmp` handler leaves the dot clock alone. -/
theorem cmp_timing {c c' : CPU} {b b' : CPUBus} {mode : AddressingMode}
    {operand n : Nat}
    (h : c.cmp b mode operand = .ok (n, c', b')) : TimingEq b b' := by
  unfold CPU.cmp at h
  try dsimp only at h
  repeat' split at h
  all_goals try exact Except.noConfusion h
  all_goals try simp only [Except.ok.injEq, Prod.mk.injEq] at h
  all_goals try obtain ⟨-, -, hb⟩ := h
  all_goals try subst hb
  all_goals
    repeat'
      first
      | exact timingEq_refl _
      | exact busRead_timing (by assumption)
      | exact cpuWrite_timing (by assumption)
      | refine timingEq_trans ?_ (busRead_timing (by assumption))
      | refine timingEq_trans ?_ (cpuWrite_timing (by assumption))

set_option maxHeartbeats 1600000 in
/-- The `sbc` handler leaves the dot clock alone. -/
theorem sbc_timing {c c' : CPU} {b b' : CPUBus} {mode : AddressingMode}
    {operand n : Nat}
    (h : c.sbc b mode operand = .ok (n, c', b')) : TimingEq b b' := by
  unfold CPU.sbc at h
  try dsimp only at h
  repeat' split at h
  all_goals try exact Except.noConfusion h
  all_goals try simp only [Except.ok.injEq, Prod.mk.injEq] at h
  all_goals try obtain ⟨-, -, hb⟩ := h
  all_goals try subst hb
  all_goals
    repeat'
      first
      | exact timingEq_refl _
      | exact busRead_timing (by assumption)
      | exact cpuWrite_timing (by assumption)
      | refine timingEq_trans ?_ (busRead_timing (by assumption))
      | refine timingEq_trans ?_ (cpuWrite_timing (by assumption))

set_option maxHeartbeats 1600000 in
/-- The `bcc` handler leaves the dot clock alone. -/
theorem bcc_timing {c c' : CPU} {b b' : CPUBus} {mode : AddressingMode}
    {operand n : Nat}
    (h : c.bcc b mode operand = .ok (n, c', b')) : TimingEq b b' := by
  unfold CPU.bcc at h
  try dsimp only at h
  repeat' split at h
  all_goals try exact Except.noConfusion h
  all_goals try simp only [Except.ok.injEq, Prod.mk.injEq] at h
  all_goals try obtain ⟨-, -, hb⟩ := h
  all_goals try subst hb
  all_goals
    repeat'
      first
      | exact timingEq_refl _
      | exact busRead_timing (by assumption)
      | exact cpuWrite_timing (by assumption)
      | exact push_timing (by assumption)
      | exact pop_timing (by assumption)
      | exact read16_timing (by assumption)
      | exact read16Wrap_timing (by assumption)
      | exact adc_timing (by assumption)
      | exact and_timing (by assumption)
      | exact asl_timing (by assumption)
      | exact ora_timing (by assumption)
      | exact rol_timing (by assumption)
      | exact lsr_timing (by assumption)
      | exact eor_timing (by assumption)
      | exact ror_timing (by assumption)
      | exact dec_timing (by assumption)
      | exact inc_timing (by assumption)
      | exact cmp_timing (by assumption)
      | exact sbc_timing (by assumption)
      | refine timingEq_trans ?_ (busRead_timing (by assumption))
      | refine timingEq_trans ?_ (cpuWrite_timing (by assumption))
      | refine timingEq_trans ?_ (push_timing (by assumption))
      | refine timingEq_trans ?_ (pop_timing (by assumption))
      | refine timingEq_trans ?_ (read16_timing (by assumption))
      | refine timingEq_trans ?_ (read16Wrap_timing (by assumption))
      | refine timingEq_trans ?_ (adc_timing (by assumption))
      | refine timingEq_trans ?_ (and_timing (by assumption))
      | refine timingEq_trans ?_ (asl_timing (by assumption))
      | refine timingEq_trans ?_ (ora_timing (by assumption))
      | refine timingEq_trans ?_ (rol_timing (by assumption))
      | refine timingEq_trans ?_ (lsr_timing (by assumption))
      | refine timingEq_trans ?_ (eor_timing (by assumption))
      | refine timingEq_trans ?_ (ror_timing (by assumption))
      | refine timingEq_trans ?_ (dec_timing (by assumption))
      | refine timingEq_trans ?_ (inc_timing (by assumption))
      | refine timingEq_trans ?_ (cmp_timing (by assumption))
      | refine timingEq_trans ?_ (sbc_timing (by assumption))

set_option maxHeartbeats 1600000 in
/-- The `bcs` handler leaves the dot clock alone. -/
theorem bcs_timing {c c' : CPU} {b b' : CPUBus} {mode : AddressingMode}
    {operand n : Nat}
    (h : c.bcs b mode operand = .ok (n, c', b')) : TimingEq b b' := by
  unfold CPU.bcs at h
  try dsimp only at h
  repeat' split at h
  all_goals try exact Except.noConfusion h
  all_goals try simp only [Except.ok.injEq, Prod.mk.injEq] at h
  all_goals try obtain ⟨-, -, hb⟩ := h
  all_goals try subst hb
  all_goals
    repeat'
      first
      | exact timingEq_refl _
      | exact busRead_timing (by assumption)
      | exact cpuWrite_timing (by assumption)
      | exact push_timing (by assumption)
      | exact pop_timing (by assumption)
      | exact read16_timing (by assumption)
      | exact read16Wrap_timing (by assumption)
      | exact adc_timing (by assumption)
      | exact and_timing (by assumption)
      | exact asl_timing (by assumption)
      | exact ora_timing (by assumption)
      | exact rol_timing (by assumption)
      | exact lsr_timing (by assumption)
      | exact eor_timing (by assumption)
      | exact ror_timing (by assumption)
      | exact dec_timing (by assumption)
      | exact inc_timing (by assumption)
      | exact cmp_timing (by assumption)
      | exact sbc_timing (by assumption)
      | refine timingEq_trans ?_ (busRead_timing (by assumption))
      | refine timingEq_trans ?_ (cpuWrite_timing (by assumption))
      | refine timingEq_trans ?_ (push_timing (by assumption))
      | refine timingEq_trans ?_ (pop_timing (by assumption))
      | refine timingEq_trans ?_ (read16_timing (by assumption))
      | refine timingEq_trans ?_ (read16Wrap_timing (by assumption))
      | refine timingEq_trans ?_ (adc_timing (by assumption))
      | refine timingEq_trans ?_ (and_timing (by assumption))
      | refine timingEq_trans ?_ (asl_timing (by assumption))
      | refine timingEq_trans ?_ (ora_timing (by assumption))
      | refine timingEq_trans ?_ (rol_timing (by assumption))
      | refine timingEq_trans ?_ (lsr_timing (by assumption))
      | refine timingEq_trans ?_ (eor_timing (by assumption))
      | refine timingEq_trans ?_ (ror_timing (by assumption))
      | refine timingEq_trans ?_ (dec_timing (by assumption))
      | refine timingEq_trans ?_ (inc_timing (by assumption))
      | refine timingEq_trans ?_ (cmp_timing (by assumption))
      | refine timingEq_trans ?_ (sbc_timing (by assumption))

set_option maxHeartbeats 1600000 in
/-- The `beq` handler leaves the dot clock alone. -/
theorem beq_timing {c c' : CPU} {b b' : CPUBus} {mode : AddressingMode}
    {operand n : Nat}
    (h : c.beq b mode operand = .ok (n, c', b')) : TimingEq b b' := by
  unfold CPU.beq at h
  try dsimp only at h
  repeat' split at h
  all_goals try exact Except.noConfusion h
  all_goals try simp only [Except.ok.injEq, Prod.mk.injEq] at h
  all_goals try obtain ⟨-, -, hb⟩ := h
  all_goals try subst hb
  all_goals
    repeat'
      first
      | exact timingEq_refl _
      | exact busRead_timing (by assumption)
      | exact cpuWrite_timing (by assumption)
      | exact push_timing (by assumption)
      | exact pop_timing (by assumption)
      | exact read16_timing (by assumption)
      | exact read16Wrap_timing (by assumption)
      | exact adc_timing (by assumption)
      | exact and_timing (by assumption)
      | exact asl_timing (by assumption)
      | exact ora_timing (by assumption)
      | exact rol_timing (by assumption)
      | exact lsr_timing (by assumption)
      | exact eor_timing (by assumption)
      | exact ror_timing (by assumption)
      | exact dec_timing (by assumption)
      | exact inc_timing (by assumption)
      | exact cmp_timing (by assumption)
      | exact sbc_timing (by assumption)
      | refine timingEq_trans ?_ (busRead_timing (by assumption))
      | refine timingEq_trans ?_ (cpuWrite_timing (by assumption))
      | refine timingEq_trans ?_ (push_timing (by assumption))
      | refine timingEq_trans ?_ (pop_timing (by assumption))
      | refine timingEq_trans ?_ (read16_timing (by assumption))
      | refine timingEq_trans ?_ (read16Wrap_timing (by assumption))
      | refine timingEq_trans ?_ (adc_timing (by assumption))
      | refine timingEq_trans ?_ (and_timing (by assumption))
      | refine timingEq_trans ?_ (asl_timing (by assumption))
      | refine timingEq_trans ?_ (ora_timing (by assumption))
      | refine timingEq_trans ?_ (rol_timing (by assumption))
      | refine timingEq_trans ?_ (lsr_timing (by assumption))
      | refine timingEq_trans ?_ (eor_timing (by assumption))
      | refine timingEq_trans ?_ (ror_timing (by assumption))
      | refine timingEq_trans ?_ (dec_timing (by assumption))
      | refine timingEq_trans ?_ (inc_timing (by assumption))
      | refine timingEq_trans ?_ (cmp_timing (by assumption))
      | refine timingEq_trans ?_ (sbc_timing (by assumption))

set_option maxHeartbeats 1600000 in
/-- The `bit` handler leaves the dot clock alone. -/
theorem bit_timing {c c' : CPU} {b b' : CPUBus} {mode : AddressingMode}
    {operand n : Nat}
    (h : c.bit b mode operand = .ok (n, c', b')) : TimingEq b b' := by
  unfold CPU.bit at h
  try dsimp only at h
  repeat' split at h
  all_goals try exact Except.noConfusion h
  all_goals try simp only [Except.ok.injEq, Prod.mk.injEq] at h
  all_goals try obtain ⟨-, -, hb⟩ := h
  all_goals try subst hb
  all_goals
    repeat'
      first
      | exact timingEq_refl _
      | exact busRead_timing (by assumption)
      | exact cpuWrite_timing (by assumption)
      | exact push_timing (by assumption)
      | exact pop_timing (by assumption)
      | exact read16_timing (by assumption)
      | exact read16Wrap_timing (by assumption)
      | exact adc_timing (by assumption)
      | exact and_timing (by assumption)
      | exact asl_timing (by assumption)
      | exact ora_timing (by assumption)
      | exact rol_timing (by assumption)
      | exact lsr_timing (by assumption)
      | exact eor_timing (by assumption)
      | exact ror_timing (by assumption)
      | exact dec_timing (by assumption)
      | exact inc_timing (by assumption)
      | exact cmp_timing (by assumption)
      | exact sbc_timing (by assumption)
      | refine timingEq_trans ?_ (busRead_timing (by assumption))
      | refine timingEq_trans ?_ (cpuWrite_timing (by assumption))
      | refine timingEq_trans ?_ (push_timing (by assumption))
      | refine timingEq_trans ?_ (pop_timing (by assumption))
      | refine timingEq_trans ?_ (read16_timing (by assumption))
      | refine timingEq_trans ?_ (read16Wrap_timing (by assumption))
      | refine timingEq_trans ?_ (adc_timing (by assumption))
      | refine timingEq_trans ?_ (and_timing (by assumption))
      | refine timingEq_trans ?_ (asl_timing (by assumption))
      | refine timingEq_trans ?_ (ora_timing (by assumption))
      | refine timingEq_trans ?_ (rol_timing (by assumption))
      | refine timingEq_trans ?_ (lsr_timing (by assumption))
      | refine timingEq_trans ?_ (eor_timing (by assumption))
      | refine timingEq_trans ?_ (ror_timing (by assumption))
      | refine timingEq_trans ?_ (dec_timing (by assumption))
      | refine timingEq_trans ?_ (inc_timing (by assumption))
      | refine timingEq_trans ?_ (cmp_timing (by assumption))
      | refine timingEq_trans ?_ (sbc_timing (by assumption))

set_option maxHeartbeats 1600000 in
/-- The `bmi` handler leaves the dot clock alone. -/
theorem bmi_timing {c c' : CPU} {b b' : CPUBus} {mode : AddressingMode}
    {operand n : Nat}
    (h : c.bmi b mode operand = .ok (n, c', b')) : TimingEq b b' := by
  unfold CPU.bmi at h
  try dsimp only at h
  repeat' split at h
  all_goals try exact Except.noConfusion h
  all_goals try simp only [Except.ok.injEq, Prod.mk.injEq] at h
  all_goals try obtain ⟨-, -, hb⟩ := h
  all_goals try subst hb
  all_goals
    repeat'
      first
      | exact timingEq_refl _
      | exact busRead_timing (by assumption)
      | exact cpuWrite_timing (by assumption)
      | exact push_timing (by assumption)
      | exact pop_timing (by assumption)
      | exact read16_timing (by assumption)
      | exact read16Wrap_timing (by assumption)
      | exact adc_timing (by assumption)
      | exact and_timing (by assumption)
      | exact asl_timing (by assumption)
      | exact ora_timing (by assumption)
      | exact rol_timing (by assumption)
      | exact lsr_timing (by assumption)
      | exact eor_timing (by assumption)
      | exact ror_timing (by assumption)
      | exact dec_timing (by assumption)
      | exact inc_timing (by assumption)
      | exact cmp_timing (by assumption)
      | exact sbc_timing (by assumption)
      | refine timingEq_trans ?_ (busRead_timing (by assumption))
      | refine timingEq_trans ?_ (cpuWrite_timing (by assumption))
      | refine timingEq_trans ?_ (push_timing (by assumption))
      | refine timingEq_trans ?_ (pop_timing (by assumption))
      | refine timingEq_trans ?_ (read16_timing (by assumption))
      | refine timingEq_trans ?_ (read16Wrap_timing (by assumption))
      | refine timingEq_trans ?_ (adc_timing (by assumption))
      | refine timingEq_trans ?_ (and_timing (by assumption))
      | refine timingEq_trans ?_ (asl_timing (by assumption))
      | refine timingEq_trans ?_ (ora_timing (by assumption))
      | refine timingEq_trans ?_ (rol_timing (by assumption))
      | refine timingEq_trans ?_ (lsr_timing (by assumption))
      | refine timingEq_trans ?_ (eor_timing (by assumption))
      | refine timingEq_trans ?_ (ror_timing (by assumption))
      | refine timingEq_trans ?_ (dec_timing (by assumption))
      | refine timingEq_trans ?_ (inc_timing (by assumption))
      | refine timingEq_trans ?_ (cmp_timing (by assumption))
      | refine timingEq_trans ?_ (sbc_timing (by assumption))

set_option maxHeartbeats 1600000 in
/-- The `bne` handler leaves the dot clock alone. -/
theorem bne_timing {c c' : CPU} {b b' : CPUBus} {mode : AddressingMode}
    {operand n : Nat}
    (h : c.bne b mode operand = .ok (n, c', b')) : TimingEq b b' := by
  unfold CPU.bne at h
  try dsimp only at h
  repeat' split at h
  all_goals try exact Except.noConfusion h
  all_goals try simp only [Except.ok.injEq, Prod.mk.injEq] at h
  all_goals try obtain ⟨-, -, hb⟩ := h
  all_goals try subst hb
  all_goals
    repeat'
      first
      | exact timingEq_refl _
      | exact busRead_timing (by assumption)
      | exact cpuWrite_timing (by assumption)
      | exact push_timing (by assumption)
      | exact pop_timing (by assumption)
      | exact read16_timing (by assumption)
      | exact read16Wrap_timing (by assumption)
      | exact adc_timing (by assumption)
      | exact and_timing (by assumption)
      | exact asl_timing (by assumption)
      | exact ora_timing (by assumption)
      | exact rol_timing (by assumption)
      | exact lsr_timing (by assumption)
      | exact eor_timing (by assumption)
      | exact ror_timing (by assumption)
      | exact dec_timing (by assumption)
      | exact inc_timing (by assumption)
      | exact cmp_timing (by assumption)
      | exact sbc_timing (by assumption)
      | refine timingEq_trans ?_ (busRead_timing (by assumption))
      | refine timingEq_trans ?_ (cpuWrite_timing (by assumption))
      | refine timingEq_trans ?_ (push_timing (by assumption))
      | refine timingEq_trans ?_ (pop_timing (by assumption))
      | refine timingEq_trans ?_ (read16_timing (by assumption))
      | refine timingEq_trans ?_ (read16Wrap_timing (by assumption))
      | refine timingEq_trans ?_ (adc_timing (by assumption))
      | refine timingEq_trans ?_ (and_timing (by assumption))
      | refine timingEq_trans ?_ (asl_timing (by assumption))
      | refine timingEq_trans ?_ (ora_timing (by assumption))
      | refine timingEq_trans ?_ (rol_timing (by assumption))
      | refine timingEq_trans ?_ (lsr_timing (by assumption))
      | refine timingEq_trans ?_ (eor_timing (by assumption))
      | refine timingEq_trans ?_ (ror_timing (by assumption))
      | refine timingEq_trans ?_ (dec_timing (by assumption))
      | refine timingEq_trans ?_ (inc_timing (by assumption))
      | refine timingEq_trans ?_ (cmp_timing (by assumption))
      | refine timingEq_trans ?_ (sbc_timing (by assumption))

set_option maxHeartbeats 1600000 in
/-- The `bpl` handler leaves the dot clock alone. -/
theorem bpl_timing {c c' : CPU} {b b' : CPUBus} {mode : AddressingMode}
    {operand n : Nat}
    (h : c.bpl b mode operand = .ok (n, c', b')) : TimingEq b b' := by
  unfold CPU.bpl at h
  try dsimp only at h
  repeat' split at h
  all_goals try exact Except.noConfusion h
  all_goals try simp only [Except.ok.injEq, Prod.mk.injEq] at h
  all_goals try obtain ⟨-, -, hb⟩ := h
  all_goals try subst hb
  all_goals
    repeat'
      first
      | exact timingEq_refl _
      | exact busRead_timing (by assumption)
      | exact cpuWrite_timing (by assumption)
      | exact push_timing (by assumption)
      | exact pop_timing (by assumption)
      | exact read16_timing (by assumption)
      | exact read16Wrap_timing (by assumption)
      | exact adc_timing (by assumption)
      | exact and_timing (by assumption)
      | exact asl_timing (by assumption)
      | exact ora_timing (by assumption)
      | exact rol_timing (by assumption)
      | exact lsr_timing (by assumption)
      | exact eor_timing (by assumption)
      | exact ror_timing (by assumption)
      | exact dec_timing (by assumption)
      | exact inc_timing (by assumption)
      | exact cmp_timing (by assumption)
      | exact sbc_timing (by assumption)
      | refine timingEq_trans ?_ (busRead_timing (by assumption))
      | refine timingEq_trans ?_ (cpuWrite_timing (by assumption))
      | refine timingEq_trans ?_ (push_timing (by assumption))
      | refine timingEq_trans ?_ (pop_timing (by assumption))
      | refine timingEq_trans ?_ (read16_timing (by assumption))
      | refine timingEq_trans ?_ (read16Wrap_timing (by assumption))
      | refine timingEq_trans ?_ (adc_timing (by assumption))
      | refine timingEq_trans ?_ (and_timing (by assumption))
      | refine timingEq_trans ?_ (asl_timing (by assumption))
      | refine timingEq_trans ?_ (ora_timing (by assumption))
      | refine timingEq_trans ?_ (rol_timing (by assumption))
      | refine timingEq_trans ?_ (lsr_timing (by assumption))
      | refine timingEq_trans ?_ (eor_timing (by assumption))
      | refine timingEq_trans ?_ (ror_timing (by assumption))
      | refine timingEq_trans ?_ (dec_timing (by assumption))
      | refine timingEq_trans ?_ (inc_timing (by assumption))
      | refine timingEq_trans ?_ (cmp_timing (by assumption))
      | refine timingEq_trans ?_ (sbc_timing (by assumption))

set_option maxHeartbeats 1600000 in
/-- The `brk` handler leaves the dot clock alone. -/
theorem brk_timing {c c' : CPU} {b b' : CPUBus} {mode : AddressingMode}
    {operand n : Nat}
    (h : c.brk b mode operand = .ok (n, c', b')) : TimingEq b b' := by
  unfold CPU.brk at h
  try dsimp only at h
  repeat' split at h
  all_goals try exact Except.noConfusion h
  all_goals try simp only [Except.ok.injEq, Prod.mk.injEq] at h
  all_goals try obtain ⟨-, -, hb⟩ := h
  all_goals try subst hb
  all_goals
    repeat'
      first
      | exact timingEq_refl _
      | exact busRead_timing (by assumption)
      | exact cpuWrite_timing (by assumption)
      | exact push_timing (by assumption)
      | exact pop_timing (by assumption)
      | exact read16_timing (by assumption)
      | exact read16Wrap_timing (by assumption)
      | exact adc_timing (by assumption)
      | exact and_timing (by assumption)
      | exact asl_timing (by assumption)
      | exact ora_timing (by assumption)
      | exact rol_timing (by assumption)
      | exact lsr_timing (by assumption)
      | exact eor_timing (by assumption)
      | exact ror_timing (by assumption)
      | exact dec_timing (by assumption)
      | exact inc_timing (by assumption)
      | exact cmp_timing (by assumption)
      | exact sbc_timing (by assumption)
      | refine timingEq_trans ?_ (busRead_timing (by assumption))
      | refine timingEq_trans ?_ (cpuWrite_timing (by assumption))
      | refine timingEq_trans ?_ (push_timing (by assumption))
      | refine timingEq_trans ?_ (pop_timing (by assumption))
      | refine timingEq_trans ?_ (read16_timing (by assumption))
      | refine timingEq_trans ?_ (read16Wrap_timing (by assumption))
      | refine timingEq_trans ?_ (adc_timing (by assumption))
      | refine timingEq_trans ?_ (and_timing (by assumption))
      | refine timingEq_trans ?_ (asl_timing (by assumption))
      | refine timingEq_trans ?_ (ora_timing (by assumption))
      | refine timingEq_trans ?_ (rol_timing (by assumption))
      | refine timingEq_trans ?_ (lsr_timing (by assumption))
      | refine timingEq_trans ?_ (eor_timing (by assumption))
      | refine timingEq_trans ?_ (ror_timing (by assumption))
      | refine timingEq_trans ?_ (dec_timing (by assumption))
      | refine timingEq_trans ?_ (inc_timing (by assumption))
      | refine timingEq_trans ?_ (cmp_timing (by assumption))
      | refine timingEq_trans ?_ (sbc_timing (by assumption))

set_option maxHeartbeats 1600000 in
/-- The `bvc` handler leaves the dot clock alone. -/
theorem bvc_timing {c c' : CPU} {b b' : CPUBus} {mode : AddressingMode}
    {operand n : Nat}
    (h : c.bvc b mode operand = .ok (n, c', b')) : TimingEq b b' := by
  unfold CPU.bvc at h
  try dsimp only at h
  repeat' split at h
  all_goals try exact Except.noConfusion h
  all_goals try simp only [Except.ok.injEq, Prod.mk.injEq] at h
  all_goals try obtain ⟨-, -, hb⟩ := h
  all_goals try subst hb
  all_goals
    repeat'
      first
      | exact timingEq_refl _
      | exact busRead_timing (by assumption)
      | exact cpuWrite_timing (by assumption)
      | exact push_timing (by assumption)
      | exact pop_timing (by assumption)
      | exact read16_timing (by assumption)
      | exact read16Wrap_timing (by assumption)
      | exact adc_timing (by assumption)
      | exact and_timing (by assumption)
      | exact asl_timing (by assumption)
      | exact ora_timing (by assumption)
      | exact rol_timing (by assumption)
      | exact lsr_timing (by assumption)
      | exact eor_timing (by assumption)
      | exact ror_timing (by assumption)
      | exact dec_timing (by assumption)
      | exact inc_timing (by assumption)
      | exact cmp_timing (by assumption)
      | exact sbc_timing (by assumption)
      | refine timingEq_trans ?_ (busRead_timing (by assumption))
      | refine timingEq_trans ?_ (cpuWrite_timing (by assumption))
      | refine timingEq_trans ?_ (push_timing (by assumption))
      | refine timingEq_trans ?_ (pop_timing (by assumption))
      | refine timingEq_trans ?_ (read16_timing (by assumption))
      | refine timingEq_trans ?_ (read16Wrap_timing (by assumption))
      | refine timingEq_trans ?_ (adc_timing (by assumption))
      | refine timingEq_trans ?_ (and_timing (by assumption))
      | refine timingEq_trans ?_ (asl_timing (by assumption))
      | refine timingEq_trans ?_ (ora_timing (by assumption))
      | refine timingEq_trans ?_ (rol_timing (by assumption))
      | refine timingEq_trans ?_ (lsr_timing (by assumption))
      | refine timingEq_trans ?_ (eor_timing (by assumption))
      | refine timingEq_trans ?_ (ror_timing (by assumption))
      | refine timingEq_trans ?_ (dec_timing (by assumption))
      | refine timingEq_trans ?_ (inc_timing (by assumption))
      | refine timingEq_trans ?_ (cmp_timing (by assumption))
      | refine timingEq_trans ?_ (sbc_timing (by assumption))

set_option maxHeartbeats 1600000 in
/-- The `bvs` handler leaves the dot clock alone. -/
theorem bvs_timing {c c' : CPU} {b b' : CPUBus} {mode : AddressingMode}
    {operand n : Nat}
    (h : c.bvs b mode operand = .ok (n, c', b')) : TimingEq b b' := by
  unfold CPU.bvs at h
  try dsimp only at h
  repeat' split at h
  all_goals try exact Except.noConfusion h
  all_goals try simp only [Except.ok.injEq, Prod.mk.injEq] at h
  all_goals try obtain ⟨-, -, hb⟩ := h
  all_goals try subst hb
  all_goals
    repeat'
      first
      | exact timingEq_refl _
      | exact busRead_timing (by assumption)
      | exact cpuWrite_timing (by assumption)
      | exact push_timing (by assumption)
      | exact pop_timing (by assumption)
      | exact read16_timing (by assumption)
      | exact read16Wrap_timing (by assumption)
      | exact adc_timing (by assumption)
      | exact and_timing (by assumption)
      | exact asl_timing (by assumption)
      | exact ora_timing (by assumption)
      | exact rol_timing (by assumption)
      | exact lsr_timing (by assumption)
      | exact eor_timing (by assumption)
      | exact ror_timing (by assumption)
      | exact dec_timing (by assumption)
      | exact inc_timing (by assumption)
      | exact cmp_timing (by assumption)
      | exact sbc_timing (by assumption)
      | refine timingEq_trans ?_ (busRead_timing (by assumption))
      | refine timingEq_trans ?_ (cpuWrite_timing (by assumption))
      | refine timingEq_trans ?_ (push_timing (by assumption))
      | refine timingEq_trans ?_ (pop_timing (by assumption))
      | refine timingEq_trans ?_ (read16_timing (by assumption))
      | refine timingEq_trans ?_ (read16Wrap_timing (by assumption))
      | refine timingEq_trans ?_ (adc_timing (by assumption))
      | refine timingEq_trans ?_ (and_timing (by assumption))
      | refine timingEq_trans ?_ (asl_timing (by assumption))
      | refine timingEq_trans ?_ (ora_timing (by assumption))
      | refine timingEq_trans ?_ (rol_timing (by assumption))
      | refine timingEq_trans ?_ (lsr_timing (by assumption))
      | refine timingEq_trans ?_ (eor_timing (by assumption))
      | refine timingEq_trans ?_ (ror_timing (by assumption))
      | refine timingEq_trans ?_ (dec_timing (by assumption))
      | refine timingEq_trans ?_ (inc_timing (by assumption))
      | refine timingEq_trans ?_ (cmp_timing (by assumption))
      | refine timingEq_trans ?_ (sbc_timing (by assumption))

set_option maxHeartbeats 1600000 in
/-- The `clc` handler leaves the dot clock alone. -/
theorem clc_timing {c c' : CPU} {b b' : CPUBus} {mode : AddressingMode}
    {operand n : Nat}
    (h : c.clc b mode operand = .ok (n, c', b')) : TimingEq b b' := by
  unfold CPU.clc at h
  try dsimp only at h
  repeat' split at h
  all_goals try exact Except.noConfusion h
  all_goals try simp only [Except.ok.injEq, Prod.mk.injEq] at h
  all_goals try obtain ⟨-, -, hb⟩ := h
  all_goals try subst hb
  all_goals
    repeat'
      first
      | exact timingEq_refl _
      | exact busRead_timing (by assumption)
      | exact cpuWrite_timing (by assumption)
      | exact push_timing (by assumption)
      | exact pop_timing (by assumption)
      | exact read16_timing (by assumption)
      | exact read16Wrap_timing (by assumption)
      | exact adc_timing (by assumption)
      | exact and_timing (by assumption)
      | exact asl_timing (by assumption)
      | exact ora_timing (by assumption)
      | exact rol_timing (by assumption)
      | exact lsr_timing (by assumption)
      | exact eor_timing (by assumption)
      | exact ror_timing (by assumption)
      | exact dec_timing (by assumption)
      | exact inc_timing (by assumption)
      | exact cmp_timing (by assumption)
      | exact sbc_timing (by assumption)
      | refine timingEq_trans ?_ (busRead_timing (by assumption))
      | refine timingEq_trans ?_ (cpuWrite_timing (by assumption))
      | refine timingEq_trans ?_ (push_timing (by assumption))
      | refine timingEq_trans ?_ (pop_timing (by assumption))
      | refine timingEq_trans ?_ (read16_timing (by assumption))
      | refine timingEq_trans ?_ (read16Wrap_timing (by assumption))
      | refine timingEq_trans ?_ (adc_timing (by assumption))
      | refine timingEq_trans ?_ (and_timing (by assumption))
      | refine timingEq_trans ?_ (asl_timing (by assumption))
      | refine timingEq_trans ?_ (ora_timing (by assumption))
      | refine timingEq_trans ?_ (rol_timing (by assumption))
      | refine timingEq_trans ?_ (lsr_timing (by assumption))
      | refine timingEq_trans ?_ (eor_timing (by assumption))
      | refine timingEq_trans ?_ (ror_timing (by assumption))
      | refine timingEq_trans ?_ (dec_timing (by assumption))
      | refine timingEq_trans ?_ (inc_timing (by assumption))
      | refine timingEq_trans ?_ (cmp_timing (by assumption))
      | refine timingEq_trans ?_ (sbc_timing (by assumption))

set_option maxHeartbeats 1600000 in
/-- The `cld` handler leaves the dot clock alone. -/
theorem cld_timing {c c' : CPU} {b b' : CPUBus} {mode : AddressingMode}
    {operand n : Nat}
    (h : c.cld b mode operand = .ok (n, c', b')) : TimingEq b b' := by
  unfold CPU.cld at h
  try dsimp only at h
  repeat' split at h
  all_goals try exact Except.noConfusion h
  all_goals try simp only [Except.ok.injEq, Prod.mk.injEq] at h
  all_goals try obtain ⟨-, -, hb⟩ := h
  all_goals try subst hb
  all_goals
    repeat'
      first
      | exact timingEq_refl _
      | exact busRead_timing (by assumption)
      | exact cpuWrite_timing (by assumption)
      | exact push_timing (by assumption)
      | exact pop_timing (by assumption)
      | exact read16_timing (by assumption)
      | exact read16Wrap_timing (by assumption)
      | exact adc_timing (by assumption)
      | exact and_timing (by assumption)
      | exact asl_timing (by assumption)
      | exact ora_timing (by assumption)
      | exact rol_timing (by assumption)
      | exact lsr_timing (by assumption)
      | exact eor_timing (by assumption)
      | exact ror_timing (by assumption)
      | exact dec_timing (by assumption)
      | exact inc_timing (by assumption)
      | exact cmp_timing (by assumption)
      | exact sbc_timing (by assumption)
      | refine timingEq_trans ?_ (busRead_timing (by assumption))
      | refine timingEq_trans ?_ (cpuWrite_timing (by assumption))
      | refine timingEq_trans ?_ (push_timing (by assumption))
      | refine timingEq_trans ?_ (pop_timing (by assumption))
      | refine timingEq_trans ?_ (read16_timing (by assumption))
      | refine timingEq_trans ?_ (read16Wrap_timing (by assumption))
      | refine timingEq_trans ?_ (adc_timing (by assumption))
      | refine timingEq_trans ?_ (and_timing (by assumption))
      | refine timingEq_trans ?_ (asl_timing (by assumption))
      | refine timingEq_trans ?_ (ora_timing (by assumption))
      | refine timingEq_trans ?_ (rol_timing (by assumption))
      | refine timingEq_trans ?_ (lsr_timing (by assumption))
      | refine timingEq_trans ?_ (eor_timing (by assumption))
      | refine timingEq_trans ?_ (ror_timing (by assumption))
      | refine timingEq_trans ?_ (dec_timing (by assumption))
      | refine timingEq_trans ?_ (inc_timing (by assumption))
      | refine timingEq_trans ?_ (cmp_timing (by assumption))
      | refine timingEq_trans ?_ (sbc_timing (by assumption))

set_option maxHeartbeats 1600000 in
/-- The `cli` handler leaves the dot clock alone. -/
theorem cli_timing {c c' : CPU} {b b' : CPUBus} {mode : AddressingMode}
    {operand n : Nat}
    (h : c.cli b mode operand = .ok (n, c', b')) : TimingEq b b' := by
  unfold CPU.cli at h
  try dsimp only at h
  repeat' split at h
  all_goals try exact Except.noConfusion h
  all_goals try simp only [Except.ok.injEq, Prod.mk.injEq] at h
  all_goals try obtain ⟨-, -, hb⟩ := h
  all_goals try subst hb
  all_goals
    repeat'
      first
      | exact timingEq_refl _
      | exact busRead_timing (by assumption)
      | exact cpuWrite_timing (by assumption)
      | exact push_timing (by assumption)
      | exact pop_timing (by assumption)
      | exact read16_timing (by assumption)
      | exact read16Wrap_timing (by assumption)
      | exact adc_timing (by assumption)
      | exact and_timing (by assumption)
      | exact asl_timing (by assumption)
      | exact ora_timing (by assumption)
      | exact rol_timing (by assumption)
      | exact lsr_timing (by assumption)
      | exact eor_timing (by assumption)
      | exact ror_timing (by assumption)
      | exact dec_timing (by assumption)
      | exact inc_timing (by assumption)
      | exact cmp_timing (by assumption)
      | exact sbc_timing (by assumption)
      | refine timingEq_trans ?_ (busRead_timing (by assumption))
      | refine timingEq_trans ?_ (cpuWrite_timing (by assumption))
      | refine timingEq_trans ?_ (push_timing (by assumption))
      | refine timingEq_trans ?_ (pop_timing (by assumption))
      | refine timingEq_trans ?_ (read16_timing (by assumption))
      | refine timingEq_trans ?_ (read16Wrap_timing (by assumption))
      | refine timingEq_trans ?_ (adc_timing (by assumption))
      | refine timingEq_trans ?_ (and_timing (by assumption))
      | refine timingEq_trans ?_ (asl_timing (by assumption))
      | refine timingEq_trans ?_ (ora_timing (by assumption))
      | refine timingEq_trans ?_ (rol_timing (by assumption))
      | refine timingEq_trans ?_ (lsr_timing (by assumption))
      | refine timingEq_trans ?_ (eor_timing (by assumption))
      | refine timingEq_trans ?_ (ror_timing (by assumption))
      | refine timingEq_trans ?_ (dec_timing (by assumption))
      | refine timingEq_trans ?_ (inc_timing (by assumption))
      | refine timingEq_trans ?_ (cmp_timing (by assumption))
      | refine timingEq_trans ?_ (sbc_timing (by assumption))

set_option maxHeartbeats 1600000 in
/-- The `clv` handler leaves the dot clock alone. -/
theorem clv_timing {c c' : CPU} {b b' : CPUBus} {mode : AddressingMode}
    {operand n : Nat}
    (h : c.clv b mode operand = .ok (n, c', b')) : TimingEq b b' := by
  unfold CPU.clv at h
  try dsimp only at h
  repeat' split at h
  all_goals try exact Except.noConfusion h
  all_goals try simp only [Except.ok.injEq, Prod.mk.injEq] at h
  all_goals try obtain ⟨-, -, hb⟩ := h
  all_goals try subst hb
  all_goals
    repeat'
      first
      | exact timingEq_refl _
      | exact busRead_timing (by assumption)
      | exact cpuWrite_timing (by assumption)
      | exact push_timing (by assumption)
      | exact pop_timing (by assumption)
      | exact read16_timing (by assumption)
      | exact read16Wrap_timing (by assumption)
      | exact adc_timing (by assumption)
      | exact and_timing (by assumption)
      | exact asl_timing (by assumption)
      | exact ora_timing (by assumption)
      | exact rol_timing (by assumption)
      | exact lsr_timing (by assumption)
      | exact eor_timing (by assumption)
      | exact ror_timing (by assumption)
      | exact dec_timing (by assumption)
      | exact inc_timing (by assumption)
      | exact cmp_timing (by assumption)
      | exact sbc_timing (by assumption)
      | refine timingEq_trans ?_ (busRead_timing (by assumption))
      | refine timingEq_trans ?_ (cpuWrite_timing (by assumption))
      | refine timingEq_trans ?_ (push_timing (by assumption))
      | refine timingEq_trans ?_ (pop_timing (by assumption))
      | refine timingEq_trans ?_ (read16_timing (by assumption))
      | refine timingEq_trans ?_ (read16Wrap_timing (by assumption))
      | refine timingEq_trans ?_ (adc_timing (by assumption))
      | refine timingEq_trans ?_ (and_timing (by assumption))
      | refine timingEq_trans ?_ (asl_timing (by assumption))
      | refine timingEq_trans ?_ (ora_timing (by assumption))
      | refine timingEq_trans ?_ (rol_timing (by assumption))
      | refine timingEq_trans ?_ (lsr_timing (by assumption))
      | refine timingEq_trans ?_ (eor_timing (by assumption))
      | refine timingEq_trans ?_ (ror_timing (by assumption))
      | refine timingEq_trans ?_ (dec_timing (by assumption))
      | refine timingEq_trans ?_ (inc_timing (by assumption))
      | refine timingEq_trans ?_ (cmp_timing (by assumption))
      | refine timingEq_trans ?_ (sbc_timing (by assumption))

set_option maxHeartbeats 1600000 in
/-- The `cpx` handler leaves the dot clock alone. -/
theorem cpx_timing {c c' : CPU} {b b' : CPUBus} {mode : AddressingMode}
    {operand n : Nat}
    (h : c.cpx b mode operand = .ok (n, c', b')) : TimingEq b b' := by
  unfold CPU.cpx at h
  try dsimp only at h
  repeat' split at h
  all_goals try exact Except.noConfusion h
  all_goals try simp only [Except.ok.injEq, Prod.mk.injEq] at h
  all_goals try obtain ⟨-, -, hb⟩ := h
  all_goals try subst hb
  all_goals
    repeat'
      first
      | exact timingEq_refl _
      | exact busRead_timing (by assumption)
      | exact cpuWrite_timing (by assumption)
      | exact push_timing (by assumption)
      | exact pop_timing (by assumption)
      | exact read16_timing (by assumption)
      | exact read16Wrap_timing (by assumption)
      | exact adc_timing (by assumption)
      | exact and_timing (by assumption)
      | exact asl_timing (by assumption)
      | exact ora_timing (by assumption)
      | exact rol_timing (by assumption)
      | exact lsr_timing (by assumption)
      | exact eor_timing (by assumption)
      | exact ror_timing (by assumption)
      | exact dec_timing (by assumption)
      | exact inc_timing (by assumption)
      | exact cmp_timing (by assumption)
      | exact sbc_timing (by assumption)
      | refine timingEq_trans ?_ (busRead_timing (by assumption))
      | refine timingEq_trans ?_ (cpuWrite_timing (by assumption))
      | refine timingEq_trans ?_ (push_timing (by assumption))
      | refine timingEq_trans ?_ (pop_timing (by assumption))
      | refine timingEq_trans ?_ (read16_timing (by assumption))
      | refine timingEq_trans ?_ (read16Wrap_timing (by assumption))
      | refine timingEq_trans ?_ (adc_timing (by assumption))
      | refine timingEq_trans ?_ (and_timing (by assumption))
      | refine timingEq_trans ?_ (asl_timing (by assumption))
      | refine timingEq_trans ?_ (ora_timing (by assumption))
      | refine timingEq_trans ?_ (rol_timing (by assumption))
      | refine timingEq_trans ?_ (lsr_timing (by assumption))
      | refine timingEq_trans ?_ (eor_timing (by assumption))
      | refine timingEq_trans ?_ (ror_timing (by assumption))
      | refine timingEq_trans ?_ (dec_timing (by assumption))
      | refine timingEq_trans ?_ (inc_timing (by assumption))
      | refine timingEq_trans ?_ (cmp_timing (by assumption))
      | refine timingEq_trans ?_ (sbc_timing (by assumption))

set_option maxHeartbeats 1600000 in
/-- The `cpy` handler leaves the dot clock alone. -/
theorem cpy_timing {c c' : CPU} {b b' : CPUBus} {mode : AddressingMode}
    {operand n : Nat}
    (h : c.cpy b mode operand = .ok (n, c', b')) : TimingEq b b' := by
  unfold CPU.cpy at h
  try dsimp only at h
  repeat' split at h
  all_goals try exact Except.noConfusion h
  all_goals try simp only [Except.ok.injEq, Prod.mk.injEq] at h
  all_goals try obtain ⟨-, -, hb⟩ := h
  all_goals try subst hb
  all_goals
    repeat'
      first
      | exact timingEq_refl _
      | exact busRead_timing (by assumption)
      | exact cpuWrite_timing (by assumption)
      | exact push_timing (by assumption)
      | exact pop_timing (by assumption)
      | exact read16_timing (by assumption)
      | exact read16Wrap_timing (by assumption)
      | exact adc_timing (by assumption)
      | exact and_timing (by assumption)
      | exact asl_timing (by assumption)
      | exact ora_timing (by assumption)
      | exact rol_timing (by assumption)
      | exact lsr_timing (by assumption)
      | exact eor_timing (by assumption)
      | exact ror_timing (by assumption)
      | exact dec_timing (by assumption)
      | exact inc_timing (by assumption)
      | exact cmp_timing (by assumption)
      | exact sbc_timing (by assumption)
      | refine timingEq_trans ?_ (busRead_timing (by assumption))
      | refine timingEq_trans ?_ (cpuWrite_timing (by assumption))
      | refine timingEq_trans ?_ (push_timing (by assumption))
      | refine timingEq_trans ?_ (pop_timing (by assumption))
      | refine timingEq_trans ?_ (read16_timing (by assumption))
      | refine timingEq_trans ?_ (read16Wrap_timing (by assumption))
      | refine timingEq_trans ?_ (adc_timing (by assumption))
      | refine timingEq_trans ?_ (and_timing (by assumption))
      | refine timingEq_trans ?_ (asl_timing (by assumption))
      | refine timingEq_trans ?_ (ora_timing (by assumption))
      | refine timingEq_trans ?_ (rol_timing (by assumption))
      | refine timingEq_trans ?_ (lsr_timing (by assumption))
      | refine timingEq_trans ?_ (eor_timing (by assumption))
      | refine timingEq_trans ?_ (ror_timing (by assumption))
      | refine timingEq_trans ?_ (dec_timing (by assumption))
      | refine timingEq_trans ?_ (inc_timing (by assumption))
      | refine timingEq_trans ?_ (cmp_timing (by assumption))
      | refine timingEq_trans ?_ (sbc_timing (by assumption))

set_option maxHeartbeats 1600000 in
/-- The `dcp` handler leaves the dot clock alone. -/
theorem dcp_timing {c c' : CPU} {b b' : CPUBus} {mode : AddressingMode}
    {operand n : Nat}
    (h : c.dcp b mode operand = .ok (n, c', b')) : TimingEq b b' := by
  unfold CPU.dcp at h
  split at h
  · exact Except.noConfusion h
  · rename_i n1 c1 b1 h1
    split at h
    · exact Except.noConfusion h
    · rename_i n2 c2 b2 h2
      simp only [Except.ok.injEq, Prod.mk.injEq] at h
      obtain ⟨-, -, hb⟩ := h
      subst hb
      exact timingEq_trans (dec_timing h1) (cmp_timing h2)

set_option maxHeartbeats 1600000 in
/-- The `dex` handler leaves the dot clock alone. -/
theorem dex_timing {c c' : CPU} {b b' : CPUBus} {mode : AddressingMode}
    {operand n : Nat}
    (h : c.dex b mode operand = .ok (n, c', b')) : TimingEq b b' := by
  unfold CPU.dex at h
  try dsimp only at h
  repeat' split at h
  all_goals try exact Except.noConfusion h
  all_goals try simp only [Except.ok.injEq, Prod.mk.injEq] at h
  all_goals try obtain ⟨-, -, hb⟩ := h
  all_goals try subst hb
  all_goals
    repeat'
      first
      | exact timingEq_refl _
      | exact busRead_timing (by assumption)
      | exact cpuWrite_timing (by assumption)
      | exact push_timing (by assumption)
      | exact pop_timing (by assumption)
      | exact read16_timing (by assumption)
      | exact read16Wrap_timing (by assumption)
      | exact adc_timing (by assumption)
      | exact and_timing (by assumption)
      | exact asl_timing (by assumption)
      | exact ora_timing (by assumption)
      | exact rol_timing (by assumption)
      | exact lsr_timing (by assumption)
      | exact eor_timing (by assumption)
      | exact ror_timing (by assumption)
      | exact dec_timing (by assumption)
      | exact inc_timing (by assumption)
      | exact cmp_timing (by assumption)
      | exact sbc_timing (by assumption)
      | refine timingEq_trans ?_ (busRead_timing (by assumption))
      | refine timingEq_trans ?_ (cpuWrite_timing (by assumption))
      | refine timingEq_trans ?_ (push_timing (by assumption))
      | refine timingEq_trans ?_ (pop_timing (by assumption))
      | refine timingEq_trans ?_ (read16_timing (by assumption))
      | refine timingEq_trans ?_ (read16Wrap_timing (by assumption))
      | refine timingEq_trans ?_ (adc_timing (by assumption))
      | refine timingEq_trans ?_ (and_timing (by assumption))
      | refine timingEq_trans ?_ (asl_timing (by assumption))
      | refine timingEq_trans ?_ (ora_timing (by assumption))
      | refine timingEq_trans ?_ (rol_timing (by assumption))
      | refine timingEq_trans ?_ (lsr_timing (by assumption))
      | refine timingEq_trans ?_ (eor_timing (by assumption))
      | refine timingEq_trans ?_ (ror_timing (by assumption))
      | refine timingEq_trans ?_ (dec_timing (by assumption))
      | refine timingEq_trans ?_ (inc_timing (by assumption))
      | refine timingEq_trans ?_ (cmp_timing (by assumption))
      | refine timingEq_trans ?_ (sbc_timing (by assumption))

set_option maxHeartbeats 1600000 in
/-- The `dey` handler leaves the dot clock alone. -/
theorem dey_timing {c c' : CPU} {b b' : CPUBus} {mode : AddressingMode}
    {operand n : Nat}
    (h : c.dey b mode operand = .ok (n, c', b')) : TimingEq b b' := by
  unfold CPU.dey at h
  try dsimp only at h
  repeat' split at h
  all_goals try exact Except.noConfusion h
  all_goals try simp only [Except.ok.injEq, Prod.mk.injEq] at h
  all_goals try obtain ⟨-, -, hb⟩ := h
  all_goals try subst hb
  all_goals
    repeat'
      first
      | exact timingEq_refl _
      | exact busRead_timing (by assumption)
      | exact cpuWrite_timing (by assumption)
      | exact push_timing (by assumption)
      | exact pop_timing (by assumption)
      | exact read16_timing (by assumption)
      | exact read16Wrap_timing (by assumption)
      | exact adc_timing (by assumption)
      | exact and_timing (by assumption)
      | exact asl_timing (by assumption)
      | exact ora_timing (by assumption)
      | exact rol_timing (by assumption)
      | exact lsr_timing (by assumption)
      | exact eor_timing (by assumption)
      | exact ror_timing (by assumption)
      | exact dec_timing (by assumption)
      | exact inc_timing (by assumption)
      | exact cmp_timing (by assumption)
      | exact sbc_timing (by assumption)
      | refine timingEq_trans ?_ (busRead_timing (by assumption))
      | refine timingEq_trans ?_ (cpuWrite_timing (by assumption))
      | refine timingEq_trans ?_ (push_timing (by assumption))
      | refine timingEq_trans ?_ (pop_timing (by assumption))
      | refine timingEq_trans ?_ (read16_timing (by assumption))
      | refine timingEq_trans ?_ (read16Wrap_timing (by assumption))
      | refine timingEq_trans ?_ (adc_timing (by assumption))
      | refine timingEq_trans ?_ (and_timing (by assumption))
      | refine timingEq_trans ?_ (asl_timing (by assumption))
      | refine timingEq_trans ?_ (ora_timing (by assumption))
      | refine timingEq_trans ?_ (rol_timing (by assumption))
      | refine timingEq_trans ?_ (lsr_timing (by assumption))
      | refine timingEq_trans ?_ (eor_timing (by assumption))
      | refine timingEq_trans ?_ (ror_timing (by assumption))
      | refine timingEq_trans ?_ (dec_timing (by assumption))
      | refine timingEq_trans ?_ (inc_timing (by assumption))
      | refine timingEq_trans ?_ (cmp_timing (by assumption))
      | refine timingEq_trans ?_ (sbc_timing (by assumption))

set_option maxHeartbeats 1600000 in
/-- The `inx` handler leaves the dot clock alone. -/
theorem inx_timing {c c' : CPU} {b b' : CPUBus} {mode : AddressingMode}
    {operand n : Nat}
    (h : c.inx b mode operand = .ok (n, c', b')) : TimingEq b b' := by
  unfold CPU.inx at h
  try dsimp only at h
  repeat' split at h
  all_goals try exact Except.noConfusion h
  all_goals try simp only [Except.ok.injEq, Prod.mk.injEq] at h
  all_goals try obtain ⟨-, -, hb⟩ := h
  all_goals try subst hb
  all_goals
    repeat'
      first
      | exact timingEq_refl _
      | exact busRead_timing (by assumption)
      | exact cpuWrite_timing (by assumption)
      | exact push_timing (by assumption)
      | exact pop_timing (by assumption)
      | exact read16_timing (by assumption)
      | exact read16Wrap_timing (by assumption)
      | exact adc_timing (by assumption)
      | exact and_timing (by assumption)
      | exact asl_timing (by assumption)
      | exact ora_timing (by assumption)
      | exact rol_timing (by assumption)
      | exact lsr_timing (by assumption)
      | exact eor_timing (by assumption)
      | exact ror_timing (by assumption)
      | exact dec_timing (by assumption)
      | exact inc_timing (by assumption)
      | exact cmp_timing (by assumption)
      | exact sbc_timing (by assumption)
      | refine timingEq_trans ?_ (busRead_timing (by assumption))
      | refine timingEq_trans ?_ (cpuWrite_timing (by assumption))
      | refine timingEq_trans ?_ (push_timing (by assumption))
      | refine timingEq_trans ?_ (pop_timing (by assumption))
      | refine timingEq_trans ?_ (read16_timing (by assumption))
      | refine timingEq_trans ?_ (read16Wrap_timing (by assumption))
      | refine timingEq_trans ?_ (adc_timing (by assumption))
      | refine timingEq_trans ?_ (and_timing (by assumption))
      | refine timingEq_trans ?_ (asl_timing (by assumption))
      | refine timingEq_trans ?_ (ora_timing (by assumption))
      | refine timingEq_trans ?_ (rol_timing (by assumption))
      | refine timingEq_trans ?_ (lsr_timing (by assumption))
      | refine timingEq_trans ?_ (eor_timing (by assumption))
      | refine timingEq_trans ?_ (ror_timing (by assumption))
      | refine timingEq_trans ?_ (dec_timing (by assumption))
      | refine timingEq_trans ?_ (inc_timing (by assumption))
      | refine timingEq_trans ?_ (cmp_timing (by assumption))
      | refine timingEq_trans ?_ (sbc_timing (by assumption))

set_option maxHeartbeats 1600000 in
/-- The `iny` handler leaves the dot clock alone. -/
theorem iny_timing {c c' : CPU} {b b' : CPUBus} {mode : AddressingMode}
    {operand n : Nat}
    (h : c.iny b mode operand = .ok (n, c', b')) : TimingEq b b' := by
  unfold CPU.iny at h
  try dsimp only at h
  repeat' split at h
  all_goals try exact Except.noConfusion h
  all_goals try simp only [Except.ok.injEq, Prod.mk.injEq] at h
  all_goals try obtain ⟨-, -, hb⟩ := h
  all_goals try subst hb
  all_goals
    repeat'
      first
      | exact timingEq_refl _
      | exact busRead_timing (by assumption)
      | exact cpuWrite_timing (by assumption)
      | exact push_timing (by assumption)
      | exact pop_timing (by assumption)
      | exact read16_timing (by assumption)
      | exact read16Wrap_timing (by assumption)
      | exact adc_timing (by assumption)
      | exact and_timing (by assumption)
      | exact asl_timing (by assumption)
      | exact ora_timing (by assumption)
      | exact rol_timing (by assumption)
      | exact lsr_timing (by assumption)
      | exact eor_timing (by assumption)
      | exact ror_timing (by assumption)
      | exact dec_timing (by assumption)
      | exact inc_timing (by assumption)
      | exact cmp_timing (by assumption)
      | exact sbc_timing (by assumption)
      | refine timingEq_trans ?_ (busRead_timing (by assumption))
      | refine timingEq_trans ?_ (cpuWrite_timing (by assumption))
      | refine timingEq_trans ?_ (push_timing (by assumption))
      | refine timingEq_trans ?_ (pop_timing (by assumption))
      | refine timingEq_trans ?_ (read16_timing (by assumption))
      | refine timingEq_trans ?_ (read16Wrap_timing (by assumption))
      | refine timingEq_trans ?_ (adc_timing (by assumption))
      | refine timingEq_trans ?_ (and_timing (by assumption))
      | refine timingEq_trans ?_ (asl_timing (by assumption))
      | refine timingEq_trans ?_ (ora_timing (by assumption))
      | refine timingEq_trans ?_ (rol_timing (by assumption))
      | refine timingEq_trans ?_ (lsr_timing (by assumption))
      | refine timingEq_trans ?_ (eor_timing (by assumption))
      | refine timingEq_trans ?_ (ror_timing (by assumption))
      | refine timingEq_trans ?_ (dec_timing (by assumption))
      | refine timingEq_trans ?_ (inc_timing (by assumption))
      | refine timingEq_trans ?_ (cmp_timing (by assumption))
      | refine timingEq_trans ?_ (sbc_timing (by assumption))

set_option maxHeartbeats 1600000 in
/-- The `isc` handler leaves the dot clock alone. -/
theorem isc_timing {c c' : CPU} {b b' : CPUBus} {mode : AddressingMode}
    {operand n : Nat}
    (h : c.isc b mode operand = .ok (n, c', b')) : TimingEq b b' := by
  unfold CPU.isc at h
  split at h
  · exact Except.noConfusion h
  · rename_i n1 c1 b1 h1
    split at h
    · exact Except.noConfusion h
    · rename_i n2 c2 b2 h2
      simp only [Except.ok.injEq, Prod.mk.injEq] at h
      obtain ⟨-, -, hb⟩ := h
      subst hb
      exact timingEq_trans (inc_timing h1) (sbc_timing h2)

set_option maxHeartbeats 1600000 in
/-- The `jmp` handler leaves the dot clock alone. -/
theorem jmp_timing {c c' : CPU} {b b' : CPUBus} {mode : AddressingMode}
    {operand n : Nat}
    (h : c.jmp b mode operand = .ok (n, c', b')) : TimingEq b b' := by
  unfold CPU.jmp at h
  try dsimp only at h
  repeat' split at h
  all_goals try exact Except.noConfusion h
  all_goals try simp only [Except.ok.injEq, Prod.mk.injEq] at h
  all_goals try obtain ⟨-, -, hb⟩ := h
  all_goals try subst hb
  all_goals
    repeat'
      first
      | exact timingEq_refl _
      | exact busRead_timing (by assumption)
      | exact cpuWrite_timing (by assumption)
      | exact push_timing (by assumption)
      | exact pop_timing (by assumption)
      | exact read16_timing (by assumption)
      | exact read16Wrap_timing (by assumption)
      | exact adc_timing (by assumption)
      | exact and_timing (by assumption)
      | exact asl_timing (by assumption)
      | exact ora_timing (by assumption)
      | exact rol_timing (by assumption)
      | exact lsr_timing (by assumption)
      | exact eor_timing (by assumption)
      | exact ror_timing (by assumption)
      | exact dec_timing (by assumption)
      | exact inc_timing (by assumption)
      | exact cmp_timing (by assumption)
      | exact sbc_timing (by assumption)
      | refine timingEq_trans ?_ (busRead_timing (by assumption))
      | refine timingEq_trans ?_ (cpuWrite_timing (by assumption))
      | refine timingEq_trans ?_ (push_timing (by assumption))
      | refine timingEq_trans ?_ (pop_timing (by assumption))
      | refine timingEq_trans ?_ (read16_timing (by assumption))
      | refine timingEq_trans ?_ (read16Wrap_timing (by assumption))
      | refine timingEq_trans ?_ (adc_timing (by assumption))
      | refine timingEq_trans ?_ (and_timing (by assumption))
      | refine timingEq_trans ?_ (asl_timing (by assumption))
      | refine timingEq_trans ?_ (ora_timing (by assumption))
      | refine timingEq_trans ?_ (rol_timing (by assumption))
      | refine timingEq_trans ?_ (lsr_timing (by assumption))
      | refine timingEq_trans ?_ (eor_timing (by assumption))
      | refine timingEq_trans ?_ (ror_timing (by assumption))
      | refine timingEq_trans ?_ (dec_timing (by assumption))
      | refine timingEq_trans ?_ (inc_timing (by assumption))
      | refine timingEq_trans ?_ (cmp_timing (by assumption))
      | refine timingEq_trans ?_ (sbc_timing (by assumption))

set_option maxHeartbeats 1600000 in
/-- The `jsr` handler leaves the dot clock alone. -/
theorem jsr_timing {c c' : CPU} {b b' : CPUBus} {mode : AddressingMode}
    {operand n : Nat}
    (h : c.jsr b mode operand = .ok (n, c', b')) : TimingEq b b' := by
  unfold CPU.jsr at h
  try dsimp only at h
  repeat' split at h
  all_goals try exact Except.noConfusion h
  all_goals try simp only [Except.ok.injEq, Prod.mk.injEq] at h
  all_goals try obtain ⟨-, -, hb⟩ := h
  all_goals try subst hb
  all_goals
    repeat'
      first
      | exact timingEq_refl _
      | exact busRead_timing (by assumption)
      | exact cpuWrite_timing (by assumption)
      | exact push_timing (by assumption)
      | exact pop_timing (by assumption)
      | exact read16_timing (by assumption)
      | exact read16Wrap_timing (by assumption)
      | exact adc_timing (by assumption)
      | exact and_timing (by assumption)
      | exact asl_timing (by assumption)
      | exact ora_timing (by assumption)
      | exact rol_timing (by assumption)
      | exact lsr_timing (by assumption)
      | exact eor_timing (by assumption)
      | exact ror_timing (by assumption)
      | exact dec_timing (by assumption)
      | exact inc_timing (by assumption)
      | exact cmp_timing (by assumption)
      | exact sbc_timing (by assumption)
      | refine timingEq_trans ?_ (busRead_timing (by assumption))
      | refine timingEq_trans ?_ (cpuWrite_timing (by assumption))
      | refine timingEq_trans ?_ (push_timing (by assumption))
      | refine timingEq_trans ?_ (pop_timing (by assumption))
      | refine timingEq_trans ?_ (read16_timing (by assumption))
      | refine timingEq_trans ?_ (read16Wrap_timing (by assumption))
      | refine timingEq_trans ?_ (adc_timing (by assumption))
      | refine timingEq_trans ?_ (and_timing (by assumption))
      | refine timingEq_trans ?_ (asl_timing (by assumption))
      | refine timingEq_trans ?_ (ora_timing (by assumption))
      | refine timingEq_trans ?_ (rol_timing (by assumption))
      | refine timingEq_trans ?_ (lsr_timing (by assumption))
      | refine timingEq_trans ?_ (eor_timing (by assumption))
      | refine timingEq_trans ?_ (ror_timing (by assumption))
      | refine timingEq_trans ?_ (dec_timing (by assumption))
      | refine timingEq_trans ?_ (inc_timing (by assumption))
      | refine timingEq_trans ?_ (cmp_timing (by assumption))
      | refine timingEq_trans ?_ (sbc_timing (by assumption))

set_option maxHeartbeats 1600000 in
/-- The `lax` handler leaves the dot clock alone. -/
theorem lax_timing {c c' : CPU} {b b' : CPUBus} {mode : AddressingMode}
    {operand n : Nat}
    (h : c.lax b mode operand = .ok (n, c', b')) : TimingEq b b' := by
  unfold CPU.lax at h
  try dsimp only at h
  repeat' split at h
  all_goals try exact Except.noConfusion h
  all_goals try simp only [Except.ok.injEq, Prod.mk.injEq] at h
  all_goals try obtain ⟨-, -, hb⟩ := h
  all_goals try subst hb
  all_goals
    repeat'
      first
      | exact timingEq_refl _
      | exact busRead_timing (by assumption)
      | exact cpuWrite_timing (by assumption)
      | exact push_timing (by assumption)
      | exact pop_timing (by assumption)
      | exact read16_timing (by assumption)
      | exact read16Wrap_timing (by assumption)
      | exact adc_timing (by assumption)
      | exact and_timing (by assumption)
      | exact asl_timing (by assumption)
      | exact ora_timing (by assumption)
      | exact rol_timing (by assumption)
      | exact lsr_timing (by assumption)
      | exact eor_timing (by assumption)
      | exact ror_timing (by assumption)
      | exact dec_timing (by assumption)
      | exact inc_timing (by assumption)
      | exact cmp_timing (by assumption)
      | exact sbc_timing (by assumption)
      | refine timingEq_trans ?_ (busRead_timing (by assumption))
      | refine timingEq_trans ?_ (cpuWrite_timing (by assumption))
      | refine timingEq_trans ?_ (push_timing (by assumption))
      | refine timingEq_trans ?_ (pop_timing (by assumption))
      | refine timingEq_trans ?_ (read16_timing (by assumption))
      | refine timingEq_trans ?_ (read16Wrap_timing (by assumption))
      | refine timingEq_trans ?_ (adc_timing (by assumption))
      | refine timingEq_trans ?_ (and_timing (by assumption))
      | refine timingEq_trans ?_ (asl_timing (by assumption))
      | refine timingEq_trans ?_ (ora_timing (by assumption))
      | refine timingEq_trans ?_ (rol_timing (by assumption))
      | refine timingEq_trans ?_ (lsr_timing (by assumption))
      | refine timingEq_trans ?_ (eor_timing (by assumption))
      | refine timingEq_trans ?_ (ror_timing (by assumption))
      | refine timingEq_trans ?_ (dec_timing (by assumption))
      | refine timingEq_trans ?_ (inc_timing (by assumption))
      | refine timingEq_trans ?_ (cmp_timing (by assumption))
      | refine timingEq_trans ?_ (sbc_timing (by assumption))

set_option maxHeartbeats 1600000 in
/-- The `lda` handler leaves the dot clock alone. -/
theorem lda_timing {c c' : CPU} {b b' : CPUBus} {mode : AddressingMode}
    {operand n : Nat}
    (h : c.lda b mode operand = .ok (n, c', b')) : TimingEq b b' := by
  unfold CPU.lda at h
  try dsimp only at h
  repeat' split at h
  all_goals try exact Except.noConfusion h
  all_goals try simp only [Except.ok.injEq, Prod.mk.injEq] at h
  all_goals try obtain ⟨-, -, hb⟩ := h
  all_goals try subst hb
  all_goals
    repeat'
      first
      | exact timingEq_refl _
      | exact busRead_timing (by assumption)
      | exact cpuWrite_timing (by assumption)
      | exact push_timing (by assumption)
      | exact pop_timing (by assumption)
      | exact read16_timing (by assumption)
      | exact read16Wrap_timing (by assumption)
      | exact adc_timing (by assumption)
      | exact and_timing (by assumption)
      | exact asl_timing (by assumption)
      | exact ora_timing (by assumption)
      | exact rol_timing (by assumption)
      | exact lsr_timing (by assumption)
      | exact eor_timing (by assumption)
      | exact ror_timing (by assumption)
      | exact dec_timing (by assumption)
      | exact inc_timing (by assumption)
      | exact cmp_timing (by assumption)
      | exact sbc_timing (by assumption)
      | refine timingEq_trans ?_ (busRead_timing (by assumption))
      | refine timingEq_trans ?_ (cpuWrite_timing (by assumption))
      | refine timingEq_trans ?_ (push_timing (by assumption))
      | refine timingEq_trans ?_ (pop_timing (by assumption))
      | refine timingEq_trans ?_ (read16_timing (by assumption))
      | refine timingEq_trans ?_ (read16Wrap_timing (by assumption))
      | refine timingEq_trans ?_ (adc_timing (by assumption))
      | refine timingEq_trans ?_ (and_timing (by assumption))
      | refine timingEq_trans ?_ (asl_timing (by assumption))
      | refine timingEq_trans ?_ (ora_timing (by assumption))
      | refine timingEq_trans ?_ (rol_timing (by assumption))
      | refine timingEq_trans ?_ (lsr_timing (by assumption))
      | refine timingEq_trans ?_ (eor_timing (by assumption))
      | refine timingEq_trans ?_ (ror_timing (by assumption))
      | refine timingEq_trans ?_ (dec_timing (by assumption))
      | refine timingEq_trans ?_ (inc_timing (by assumption))
      | refine timingEq_trans ?_ (cmp_timing (by assumption))
      | refine timingEq_trans ?_ (sbc_timing (by assumption))

set_option maxHeartbeats 1600000 in
/-- The `ldx` handler leaves the dot clock alone. -/
theorem ldx_timing {c c' : CPU} {b b' : CPUBus} {mode : AddressingMode}
    {operand n : Nat}
    (h : c.ldx b mode operand = .ok (n, c', b')) : TimingEq b b' := by
  unfold CPU.ldx at h
  try dsimp only at h
  repeat' split at h
  all_goals try exact Except.noConfusion h
  all_goals try simp only [Except.ok.injEq, Prod.mk.injEq] at h
  all_goals try obtain ⟨-, -, hb⟩ := h
  all_goals try subst hb
  all_goals
    repeat'
      first
      | exact timingEq_refl _
      | exact busRead_timing (by assumption)
      | exact cpuWrite_timing (by assumption)
      | exact push_timing (by assumption)
      | exact pop_timing (by assumption)
      | exact read16_timing (by assumption)
      | exact read16Wrap_timing (by assumption)
      | exact adc_timing (by assumption)
      | exact and_timing (by assumption)
      | exact asl_timing (by assumption)
      | exact ora_timing (by assumption)
      | exact rol_timing (by assumption)
      | exact lsr_timing (by assumption)
      | exact eor_timing (by assumption)
      | exact ror_timing (by assumption)
      | exact dec_timing (by assumption)
      | exact inc_timing (by assumption)
      | exact cmp_timing (by assumption)
      | exact sbc_timing (by assumption)
      | refine timingEq_trans ?_ (busRead_timing (by assumption))
      | refine timingEq_trans ?_ (cpuWrite_timing (by assumption))
      | refine timingEq_trans ?_ (push_timing (by assumption))
      | refine timingEq_trans ?_ (pop_timing (by assumption))
      | refine timingEq_trans ?_ (read16_timing (by assumption))
      | refine timingEq_trans ?_ (read16Wrap_timing (by assumption))
      | refine timingEq_trans ?_ (adc_timing (by assumption))
      | refine timingEq_trans ?_ (and_timing (by assumption))
      | refine timingEq_trans ?_ (asl_timing (by assumption))
      | refine timingEq_trans ?_ (ora_timing (by assumption))
      | refine timingEq_trans ?_ (rol_timing (by assumption))
      | refine timingEq_trans ?_ (lsr_timing (by assumption))
      | refine timingEq_trans ?_ (eor_timing (by assumption))
      | refine timingEq_trans ?_ (ror_timing (by assumption))
      | refine timingEq_trans ?_ (dec_timing (by assumption))
      | refine timingEq_trans ?_ (inc_timing (by assumption))
      | refine timingEq_trans ?_ (cmp_timing (by assumption))
      | refine timingEq_trans ?_ (sbc_timing (by assumption))

set_option maxHeartbeats 1600000 in
/-- The `ldy` handler leaves the dot clock alone. -/
theorem ldy_timing {c c' : CPU} {b b' : CPUBus} {mode : AddressingMode}
    {operand n : Nat}
    (h : c.ldy b mode operand = .ok (n, c', b')) : TimingEq b b' := by
  unfold CPU.ldy at h
  try dsimp only at h
  repeat' split at h
  all_goals try exact Except.noConfusion h
  all_goals try simp only [Except.ok.injEq, Prod.mk.injEq] at h
  all_goals try obtain ⟨-, -, hb⟩ := h
  all_goals try subst hb
  all_goals
    repeat'
      first
      | exact timingEq_refl _
      | exact busRead_timing (by assumption)
      | exact cpuWrite_timing (by assumption)
      | exact push_timing (by assumption)
      | exact pop_timing (by assumption)
      | exact read16_timing (by assumption)
      | exact read16Wrap_timing (by assumption)
      | exact adc_timing (by assumption)
      | exact and_timing (by assumption)
      | exact asl_timing (by assumption)
      | exact ora_timing (by assumption)
      | exact rol_timing (by assumption)
      | exact lsr_timing (by assumption)
      | exact eor_timing (by assumption)
      | exact ror_timing (by assumption)
      | exact dec_timing (by assumption)
      | exact inc_timing (by assumption)
      | exact cmp_timing (by assumption)
      | exact sbc_timing (by assumption)
      | refine timingEq_trans ?_ (busRead_timing (by assumption))
      | refine timingEq_trans ?_ (cpuWrite_timing (by assumption))
      | refine timingEq_trans ?_ (push_timing (by assumption))
      | refine timingEq_trans ?_ (pop_timing (by assumption))
      | refine timingEq_trans ?_ (read16_timing (by assumption))
      | refine timingEq_trans ?_ (read16Wrap_timing (by assumption))
      | refine timingEq_trans ?_ (adc_timing (by assumption))
      | refine timingEq_trans ?_ (and_timing (by assumption))
      | refine timingEq_trans ?_ (asl_timing (by assumption))
      | refine timingEq_trans ?_ (ora_timing (by assumption))
      | refine timingEq_trans ?_ (rol_timing (by assumption))
      | refine timingEq_trans ?_ (lsr_timing (by assumption))
      | refine timingEq_trans ?_ (eor_timing (by assumption))
      | refine timingEq_trans ?_ (ror_timing (by assumption))
      | refine timingEq_trans ?_ (dec_timing (by assumption))
      | refine timingEq_trans ?_ (inc_timing (by assumption))
      | refine timingEq_trans ?_ (cmp_timing (by assumption))
      | refine timingEq_trans ?_ (sbc_timing (by assumption))

set_option maxHeartbeats 1600000 in
/-- The `nop` handler leaves the dot clock alone. -/
theorem nop_timing {c c' : CPU} {b b' : CPUBus} {mode : AddressingMode}
    {operand n : Nat}
    (h : c.nop b mode operand = .ok (n, c', b')) : TimingEq b b' := by
  unfold CPU.nop at h
  try dsimp only at h
  repeat' split at h
  all_goals try exact Except.noConfusion h
  all_goals try simp only [Except.ok.injEq, Prod.mk.injEq] at h
  all_goals try obtain ⟨-, -, hb⟩ := h
  all_goals try subst hb
  all_goals
    repeat'
      first
      | exact timingEq_refl _
      | exact busRead_timing (by assumption)
      | exact cpuWrite_timing (by assumption)
      | exact push_timing (by assumption)
      | exact pop_timing (by assumption)
      | exact read16_timing (by assumption)
      | exact read16Wrap_timing (by assumption)
      | exact adc_timing (by assumption)
      | exact and_timing (by assumption)
      | exact asl_timing (by assumption)
      | exact ora_timing (by assumption)
      | exact rol_timing (by assumption)
      | exact lsr_timing (by assumption)
      | exact eor_timing (by assumption)
      | exact ror_timing (by assumption)
      | exact dec_timing (by assumption)
      | exact inc_timing (by assumption)
      | exact cmp_timing (by assumption)
      | exact sbc_timing (by assumption)
      | refine timingEq_trans ?_ (busRead_timing (by assumption))
      | refine timingEq_trans ?_ (cpuWrite_timing (by assumption))
      | refine timingEq_trans ?_ (push_timing (by assumption))
      | refine timingEq_trans ?_ (pop_timing (by assumption))
      | refine timingEq_trans ?_ (read16_timing (by assumption))
      | refine timingEq_trans ?_ (read16Wrap_timing (by assumption))
      | refine timingEq_trans ?_ (adc_timing (by assumption))
      | refine timingEq_trans ?_ (and_timing (by assumption))
      | refine timingEq_trans ?_ (asl_timing (by assumption))
      | refine timingEq_trans ?_ (ora_timing (by assumption))
      | refine timingEq_trans ?_ (rol_timing (by assumption))
      | refine timingEq_trans ?_ (lsr_timing (by assumption))
      | refine timingEq_trans ?_ (eor_timing (by assumption))
      | refine timingEq_trans ?_ (ror_timing (by assumption))
      | refine timingEq_trans ?_ (dec_timing (by assumption))
      | refine timingEq_trans ?_ (inc_timing (by assumption))
      | refine timingEq_trans ?_ (cmp_timing (by assumption))
      | refine timingEq_trans ?_ (sbc_timing (by assumption))

set_option maxHeartbeats 1600000 in
/-- The `pha` handler leaves the dot clock alone. -/
theorem pha_timing {c c' : CPU} {b b' : CPUBus} {mode : AddressingMode}
    {operand n : Nat}
    (h : c.pha b mode operand = .ok (n, c', b')) : TimingEq b b' := by
  unfold CPU.pha at h
  try dsimp only at h
  repeat' split at h
  all_goals try exact Except.noConfusion h
  all_goals try simp only [Except.ok.injEq, Prod.mk.injEq] at h
  all_goals try obtain ⟨-, -, hb⟩ := h
  all_goals try subst hb
  all_goals
    repeat'
      first
      | exact timingEq_refl _
      | exact busRead_timing (by assumption)
      | exact cpuWrite_timing (by assumption)
      | exact push_timing (by assumption)
      | exact pop_timing (by assumption)
      | exact read16_timing (by assumption)
      | exact read16Wrap_timing (by assumption)
      | exact adc_timing (by assumption)
      | exact and_timing (by assumption)
      | exact asl_timing (by assumption)
      | exact ora_timing (by assumption)
      | exact rol_timing (by assumption)
      | exact lsr_timing (by assumption)
      | exact eor_timing (by assumption)
      | exact ror_timing (by assumption)
      | exact dec_timing (by assumption)
      | exact inc_timing (by assumption)
      | exact cmp_timing (by assumption)
      | exact sbc_timing (by assumption)
      | refine timingEq_trans ?_ (busRead_timing (by assumption))
      | refine timingEq_trans ?_ (cpuWrite_timing (by assumption))
      | refine timingEq_trans ?_ (push_timing (by assumption))
      | refine timingEq_trans ?_ (pop_timing (by assumption))
      | refine timingEq_trans ?_ (read16_timing (by assumption))
      | refine timingEq_trans ?_ (read16Wrap_timing (by assumption))
      | refine timingEq_trans ?_ (adc_timing (by assumption))
      | refine timingEq_trans ?_ (and_timing (by assumption))
      | refine timingEq_trans ?_ (asl_timing (by assumption))
      | refine timingEq_trans ?_ (ora_timing (by assumption))
      | refine timingEq_trans ?_ (rol_timing (by assumption))
      | refine timingEq_trans ?_ (lsr_timing (by assumption))
      | refine timingEq_trans ?_ (eor_timing (by assumption))
      | refine timingEq_trans ?_ (ror_timing (by assumption))
      | refine timingEq_trans ?_ (dec_timing (by assumption))
      | refine timingEq_trans ?_ (inc_timing (by assumption))
      | refine timingEq_trans ?_ (cmp_timing (by assumption))
      | refine timingEq_trans ?_ (sbc_timing (by assumption))

set_option maxHeartbeats 1600000 in
/-- The `php` handler leaves the dot clock alone. -/
theorem php_timing {c c' : CPU} {b b' : CPUBus} {mode : AddressingMode}
    {operand n : Nat}
    (h : c.php b mode operand = .ok (n, c', b')) : TimingEq b b' := by
  unfold CPU.php at h
  try dsimp only at h
  repeat' split at h
  all_goals try exact Except.noConfusion h
  all_goals try simp only [Except.ok.injEq, Prod.mk.injEq] at h
  all_goals try obtain ⟨-, -, hb⟩ := h
  all_goals try subst hb
  all_goals
    repeat'
      first
      | exact timingEq_refl _
      | exact busRead_timing (by assumption)
      | exact cpuWrite_timing (by assumption)
      | exact push_timing (by assumption)
      | exact pop_timing (by assumption)
      | exact read16_timing (by assumption)
      | exact read16Wrap_timing (by assumption)
      | exact adc_timing (by assumption)
      | exact and_timing (by assumption)
      | exact asl_timing (by assumption)
      | exact ora_timing (by assumption)
      | exact rol_timing (by assumption)
      | exact lsr_timing (by assumption)
      | exact eor_timing (by assumption)
      | exact ror_timing (by assumption)
      | exact dec_timing (by assumption)
      | exact inc_timing (by assumption)
      | exact cmp_timing (by assumption)
      | exact sbc_timing (by assumption)
      | refine timingEq_trans ?_ (busRead_timing (by assumption))
      | refine timingEq_trans ?_ (cpuWrite_timing (by assumption))
      | refine timingEq_trans ?_ (push_timing (by assumption))
      | refine timingEq_trans ?_ (pop_timing (by assumption))
      | refine timingEq_trans ?_ (read16_timing (by assumption))
      | refine timingEq_trans ?_ (read16Wrap_timing (by assumption))
      | refine timingEq_trans ?_ (adc_timing (by assumption))
      | refine timingEq_trans ?_ (and_timing (by assumption))
      | refine timingEq_trans ?_ (asl_timing (by assumption))
      | refine timingEq_trans ?_ (ora_timing (by assumption))
      | refine timingEq_trans ?_ (rol_timing (by assumption))
      | refine timingEq_trans ?_ (lsr_timing (by assumption))
      | refine timingEq_trans ?_ (eor_timing (by assumption))
      | refine timingEq_trans ?_ (ror_timing (by assumption))
      | refine timingEq_trans ?_ (dec_timing (by assumption))
      | refine timingEq_trans ?_ (inc_timing (by assumption))
      | refine timingEq_trans ?_ (cmp_timing (by assumption))
      | refine timingEq_trans ?_ (sbc_timing (by assumption))

set_option maxHeartbeats 1600000 in
/-- The `pla` handler leaves the dot clock alone. -/
theorem pla_timing {c c' : CPU} {b b' : CPUBus} {mode : AddressingMode}
    {operand n : Nat}
    (h : c.pla b mode operand = .ok (n, c', b')) : TimingEq b b' := by
  unfold CPU.pla at h
  try dsimp only at h
  repeat' split at h
  all_goals try exact Except.noConfusion h
  all_goals try simp only [Except.ok.injEq, Prod.mk.injEq] at h
  all_goals try obtain ⟨-, -, hb⟩ := h
  all_goals try subst hb
  all_goals
    repeat'
      first
      | exact timingEq_refl _
      | exact busRead_timing (by assumption)
      | exact cpuWrite_timing (by assumption)
      | exact push_timing (by assumption)
      | exact pop_timing (by assumption)
      | exact read16_timing (by assumption)
      | exact read16Wrap_timing (by assumption)
      | exact adc_timing (by assumption)
      | exact and_timing (by assumption)
      | exact asl_timing (by assumption)
      | exact ora_timing (by assumption)
      | exact rol_timing (by assumption)
      | exact lsr_timing (by assumption)
      | exact eor_timing (by assumption)
      | exact ror_timing (by assumption)
      | exact dec_timing (by assumption)
      | exact inc_timing (by assumption)
      | exact cmp_timing (by assumption)
      | exact sbc_timing (by assumption)
      | refine timingEq_trans ?_ (busRead_timing (by assumption))
      | refine timingEq_trans ?_ (cpuWrite_timing (by assumption))
      | refine timingEq_trans ?_ (push_timing (by assumption))
      | refine timingEq_trans ?_ (pop_timing (by assumption))
      | refine timingEq_trans ?_ (read16_timing (by assumption))
      | refine timingEq_trans ?_ (read16Wrap_timing (by assumption))
      | refine timingEq_trans ?_ (adc_timing (by assumption))
      | refine timingEq_trans ?_ (and_timing (by assumption))
      | refine timingEq_trans ?_ (asl_timing (by assumption))
      | refine timingEq_trans ?_ (ora_timing (by assumption))
      | refine timingEq_trans ?_ (rol_timing (by assumption))
      | refine timingEq_trans ?_ (lsr_timing (by assumption))
      | refine timingEq_trans ?_ (eor_timing (by assumption))
      | refine timingEq_trans ?_ (ror_timing (by assumption))
      | refine timingEq_trans ?_ (dec_timing (by assumption))
      | refine timingEq_trans ?_ (inc_timing (by assumption))
      | refine timingEq_trans ?_ (cmp_timing (by assumption))
      | refine timingEq_trans ?_ (sbc_timing (by assumption))

set_option maxHeartbeats 1600000 in
/-- The `plp` handler leaves the dot clock alone. -/
theorem plp_timing {c c' : CPU} {b b' : CPUBus} {mode : AddressingMode}
    {operand n : Nat}
    (h : c.plp b mode operand = .ok (n, c', b')) : TimingEq b b' := by
  unfold CPU.plp at h
  try dsimp only at h
  repeat' split at h
  all_goals try exact Except.noConfusion h
  all_goals try simp only [Except.ok.injEq, Prod.mk.injEq] at h
  all_goals try obtain ⟨-, -, hb⟩ := h
  all_goals try subst hb
  all_goals
    repeat'
      first
      | exact timingEq_refl _
      | exact busRead_timing (by assumption)
      | exact cpuWrite_timing (by assumption)
      | exact push_timing (by assumption)
      | exact pop_timing (by assumption)
      | exact read16_timing (by assumption)
      | exact read16Wrap_timing (by assumption)
      | exact adc_timing (by assumption)
      | exact and_timing (by assumption)
      | exact asl_timing (by assumption)
      | exact ora_timing (by assumption)
      | exact rol_timing (by assumption)
      | exact lsr_timing (by assumption)
      | exact eor_timing (by assumption)
      | exact ror_timing (by assumption)
      | exact dec_timing (by assumption)
      | exact inc_timing (by assumption)
      | exact cmp_timing (by assumption)
      | exact sbc_timing (by assumption)
      | refine timingEq_trans ?_ (busRead_timing (by assumption))
      | refine timingEq_trans ?_ (cpuWrite_timing (by assumption))
      | refine timingEq_trans ?_ (push_timing (by assumption))
      | refine timingEq_trans ?_ (pop_timing (by assumption))
      | refine timingEq_trans ?_ (read16_timing (by assumption))
      | refine timingEq_trans ?_ (read16Wrap_timing (by assumption))
      | refine timingEq_trans ?_ (adc_timing (by assumption))
      | refine timingEq_trans ?_ (and_timing (by assumption))
      | refine timingEq_trans ?_ (asl_timing (by assumption))
      | refine timingEq_trans ?_ (ora_timing (by assumption))
      | refine timingEq_trans ?_ (rol_timing (by assumption))
      | refine timingEq_trans ?_ (lsr_timing (by assumption))
      | refine timingEq_trans ?_ (eor_timing (by assumption))
      | refine timingEq_trans ?_ (ror_timing (by assumption))
      | refine timingEq_trans ?_ (dec_timing (by assumption))
      | refine timingEq_trans ?_ (inc_timing (by assumption))
      | refine timingEq_trans ?_ (cmp_timing (by assumption))
      | refine timingEq_trans ?_ (sbc_timing (by assumption))

set_option maxHeartbeats 1600000 in
/-- The `rla` handler leaves the dot clock alone. -/
theorem rla_timing {c c' : CPU} {b b' : CPUBus} {mode : AddressingMode}
    {operand n : Nat}
    (h : c.rla b mode operand = .ok (n, c', b')) : TimingEq b b' := by
  unfold CPU.rla at h
  split at h
  · exact Except.noConfusion h
  · rename_i n1 c1 b1 h1
    split at h
    · exact Except.noConfusion h
    · rename_i n2 c2 b2 h2
      simp only [Except.ok.injEq, Prod.mk.injEq] at h
      obtain ⟨-, -, hb⟩ := h
      subst hb
      exact timingEq_trans (rol_timing h1) (and_timing h2)

set_option maxHeartbeats 1600000 in
/-- The `rra` handler leaves the dot clock alone. -/
theorem rra_timing {c c' : CPU} {b b' : CPUBus} {mode : AddressingMode}
    {operand n : Nat}
    (h : c.rra b mode operand = .ok (n, c', b')) : TimingEq b b' := by
  unfold CPU.rra at h
  split at h
  · exact Except.noConfusion h
  · rename_i n1 c1 b1 h1
    split at h
    · exact Except.noConfusion h
    · rename_i n2 c2 b2 h2
      simp only [Except.ok.injEq, Prod.mk.injEq] at h
      obtain ⟨-, -, hb⟩ := h
      subst hb
      exact timingEq_trans (ror_timing h1) (adc_timing h2)

set_option maxHeartbeats 1600000 in
/-- The `rti` handler leaves the dot clock alone. -/
theorem rti_timing {c c' : CPU} {b b' : CPUBus} {mode : AddressingMode}
    {operand n : Nat}
    (h : c.rti b mode operand = .ok (n, c', b')) : TimingEq b b' := by
  unfold CPU.rti at h
  try dsimp only at h
  repeat' split at h
  all_goals try exact Except.noConfusion h
  all_goals try simp only [Except.ok.injEq, Prod.mk.injEq] at h
  all_goals try obtain ⟨-, -, hb⟩ := h
  all_goals try subst hb
  all_goals
    repeat'
      first
      | exact timingEq_refl _
      | exact busRead_timing (by assumption)
      | exact cpuWrite_timing (by assumption)
      | exact push_timing (by assumption)
      | exact pop_timing (by assumption)
      | exact read16_timing (by assumption)
      | exact read16Wrap_timing (by assumption)
      | exact adc_timing (by assumption)
      | exact and_timing (by assumption)
      | exact asl_timing (by assumption)
      | exact ora_timing (by assumption)
      | exact rol_timing (by assumption)
      | exact lsr_timing (by assumption)
      | exact eor_timing (by assumption)
      | exact ror_timing (by assumption)
      | exact dec_timing (by assumption)
      | exact inc_timing (by assumption)
      | exact cmp_timing (by assumption)
      | exact sbc_timing (by assumption)
      | refine timingEq_trans ?_ (busRead_timing (by assumption))
      | refine timingEq_trans ?_ (cpuWrite_timing (by assumption))
      | refine timingEq_trans ?_ (push_timing (by assumption))
      | refine timingEq_trans ?_ (pop_timing (by assumption))
      | refine timingEq_trans ?_ (read16_timing (by assumption))
      | refine timingEq_trans ?_ (read16Wrap_timing (by assumption))
      | refine timingEq_trans ?_ (adc_timing (by assumption))
      | refine timingEq_trans ?_ (and_timing (by assumption))
      | refine timingEq_trans ?_ (asl_timing (by assumption))
      | refine timingEq_trans ?_ (ora_timing (by assumption))
      | refine timingEq_trans ?_ (rol_timing (by assumption))
      | refine timingEq_trans ?_ (lsr_timing (by assumption))
      | refine timingEq_trans ?_ (eor_timing (by assumption))
      | refine timingEq_trans ?_ (ror_timing (by assumption))
      | refine timingEq_trans ?_ (dec_timing (by assumption))
      | refine timingEq_trans ?_ (inc_timing (by assumption))
      | refine timingEq_trans ?_ (cmp_timing (by assumption))
      | refine timingEq_trans ?_ (sbc_timing (by assumption))

set_option maxHeartbeats 1600000 in
/-- The `rts` handler leaves the dot clock alone. -/
theorem rts_timing {c c' : CPU} {b b' : CPUBus} {mode : AddressingMode}
    {operand n : Nat}
    (h : c.rts b mode operand = .ok (n, c', b')) : TimingEq b b' := by
  unfold CPU.rts at h
  try dsimp only at h
  repeat' split at h
  all_goals try exact Except.noConfusion h
  all_goals try simp only [Except.ok.injEq, Prod.mk.injEq] at h
  all_goals try obtain ⟨-, -, hb⟩ := h
  all_goals try subst hb
  all_goals
    repeat'
      first
      | exact timingEq_refl _
      | exact busRead_timing (by assumption)
      | exact cpuWrite_timing (by assumption)
      | exact push_timing (by assumption)
      | exact pop_timing (by assumption)
      | exact read16_timing (by assumption)
      | exact read16Wrap_timing (by assumption)
      | exact adc_timing (by assumption)
      | exact and_timing (by assumption)
      | exact asl_timing (by assumption)
      | exact ora_timing (by assumption)
      | exact rol_timing (by assumption)
      | exact lsr_timing (by assumption)
      | exact eor_timing (by assumption)
      | exact ror_timing (by assumption)
      | exact dec_timing (by assumption)
      | exact inc_timing (by assumption)
      | exact cmp_timing (by assumption)
      | exact sbc_timing (by assumption)
      | refine timingEq_trans ?_ (busRead_timing (by assumption))
      | refine timingEq_trans ?_ (cpuWrite_timing (by assumption))
      | refine timingEq_trans ?_ (push_timing (by assumption))
      | refine timingEq_trans ?_ (pop_timing (by assumption))
      | refine timingEq_trans ?_ (read16_timing (by assumption))
      | refine timingEq_trans ?_ (read16Wrap_timing (by assumption))
      | refine timingEq_trans ?_ (adc_timing (by assumption))
      | refine timingEq_trans ?_ (and_timing (by assumption))
      | refine timingEq_trans ?_ (asl_timing (by assumption))
      | refine timingEq_trans ?_ (ora_timing (by assumption))
      | refine timingEq_trans ?_ (rol_timing (by assumption))
      | refine timingEq_trans ?_ (lsr_timing (by assumption))
      | refine timingEq_trans ?_ (eor_timing (by assumption))
      | refine timingEq_trans ?_ (ror_timing (by assumption))
      | refine timingEq_trans ?_ (dec_timing (by assumption))
      | refine timingEq_trans ?_ (inc_timing (by assumption))
      | refine timingEq_trans ?_ (cmp_timing (by assumption))
      | refine timingEq_trans ?_ (sbc_timing (by assumption))

set_option maxHeartbeats 1600000 in
/-- The `sax` handler leaves the dot clock alone. -/
theorem sax_timing {c c' : CPU} {b b' : CPUBus} {mode : AddressingMode}
    {operand n : Nat}
    (h : c.sax b mode operand = .ok (n, c', b')) : TimingEq b b' := by
  unfold CPU.sax at h
  try dsimp only at h
  repeat' split at h
  all_goals try exact Except.noConfusion h
  all_goals try simp only [Except.ok.injEq, Prod.mk.injEq] at h
  all_goals try obtain ⟨-, -, hb⟩ := h
  all_goals try subst hb
  all_goals
    repeat'
      first
      | exact timingEq_refl _
      | exact busRead_timing (by assumption)
      | exact cpuWrite_timing (by assumption)
      | exact push_timing (by assumption)
      | exact pop_timing (by assumption)
      | exact read16_timing (by assumption)
      | exact read16Wrap_timing (by assumption)
      | exact adc_timing (by assumption)
      | exact and_timing (by assumption)
      | exact asl_timing (by assumption)
      | exact ora_timing (by assumption)
      | exact rol_timing (by assumption)
      | exact lsr_timing (by assumption)
      | exact eor_timing (by assumption)
      | exact ror_timing (by assumption)
      | exact dec_timing (by assumption)
      | exact inc_timing (by assumption)
      | exact cmp_timing (by assumption)
      | exact sbc_timing (by assumption)
      | refine timingEq_trans ?_ (busRead_timing (by assumption))
      | refine timingEq_trans ?_ (cpuWrite_timing (by assumption))
      | refine timingEq_trans ?_ (push_timing (by assumption))
      | refine timingEq_trans ?_ (pop_timing (by assumption))
      | refine timingEq_trans ?_ (read16_timing (by assumption))
      | refine timingEq_trans ?_ (read16Wrap_timing (by assumption))
      | refine timingEq_trans ?_ (adc_timing (by assumption))
      | refine timingEq_trans ?_ (and_timing (by assumption))
      | refine timingEq_trans ?_ (asl_timing (by assumption))
      | refine timingEq_trans ?_ (ora_timing (by assumption))
      | refine timingEq_trans ?_ (rol_timing (by assumption))
      | refine timingEq_trans ?_ (lsr_timing (by assumption))
      | refine timingEq_trans ?_ (eor_timing (by assumption))
      | refine timingEq_trans ?_ (ror_timing (by assumption))
      | refine timingEq_trans ?_ (dec_timing (by assumption))
      | refine timingEq_trans ?_ (inc_timing (by assumption))
      | refine timingEq_trans ?_ (cmp_timing (by assumption))
      | refine timingEq_trans ?_ (sbc_timing (by assumption))

set_option maxHeartbeats 1600000 in
/-- The `sec` handler leaves the dot clock alone. -/
theorem sec_timing {c c' : CPU} {b b' : CPUBus} {mode : AddressingMode}
    {operand n : Nat}
    (h : c.sec b mode operand = .ok (n, c', b')) : TimingEq b b' := by
  unfold CPU.sec at h
  try dsimp only at h
  repeat' split at h
  all_goals try exact Except.noConfusion h
  all_goals try simp only [Except.ok.injEq, Prod.mk.injEq] at h
  all_goals try obtain ⟨-, -, hb⟩ := h
  all_goals try subst hb
  all_goals
    repeat'
      first
      | exact timingEq_refl _
      | exact busRead_timing (by assumption)
      | exact cpuWrite_timing (by assumption)
      | exact push_timing (by assumption)
      | exact pop_timing (by assumption)
      | exact read16_timing (by assumption)
      | exact read16Wrap_timing (by assumption)
      | exact adc_timing (by assumption)
      | exact and_timing (by assumption)
      | exact asl_timing (by assumption)
      | exact ora_timing (by assumption)
      | exact rol_timing (by assumption)
      | exact lsr_timing (by assumption)
      | exact eor_timing (by assumption)
      | exact ror_timing (by assumption)
      | exact dec_timing (by assumption)
      | exact inc_timing (by assumption)
      | exact cmp_timing (by assumption)
      | exact sbc_timing (by assumption)
      | refine timingEq_trans ?_ (busRead_timing (by assumption))
      | refine timingEq_trans ?_ (cpuWrite_timing (by assumption))
      | refine timingEq_trans ?_ (push_timing (by assumption))
      | refine timingEq_trans ?_ (pop_timing (by assumption))
      | refine timingEq_trans ?_ (read16_timing (by assumption))
      | refine timingEq_trans ?_ (read16Wrap_timing (by assumption))
      | refine timingEq_trans ?_ (adc_timing (by assumption))
      | refine timingEq_trans ?_ (and_timing (by assumption))
      | refine timingEq_trans ?_ (asl_timing (by assumption))
      | refine timingEq_trans ?_ (ora_timing (by assumption))
      | refine timingEq_trans ?_ (rol_timing (by assumption))
      | refine timingEq_trans ?_ (lsr_timing (by assumption))
      | refine timingEq_trans ?_ (eor_timing (by assumption))
      | refine timingEq_trans ?_ (ror_timing (by assumption))
      | refine timingEq_trans ?_ (dec_timing (by assumption))
      | refine timingEq_trans ?_ (inc_timing (by assumption))
      | refine timingEq_trans ?_ (cmp_timing (by assumption))
      | refine timingEq_trans ?_ (sbc_timing (by assumption))

set_option maxHeartbeats 1600000 in
/-- The `sed` handler leaves the dot clock alone. -/
theorem sed_timing {c c' : CPU} {b b' : CPUBus} {mode : AddressingMode}
    {operand n : Nat}
    (h : c.sed b mode operand = .ok (n, c', b')) : TimingEq b b' := by
  unfold CPU.sed at h
  try dsimp only at h
  repeat' split at h
  all_goals try exact Except.noConfusion h
  all_goals try simp only [Except.ok.injEq, Prod.mk.injEq] at h
  all_goals try obtain ⟨-, -, hb⟩ := h
  all_goals try subst hb
  all_goals
    repeat'
      first
      | exact timingEq_refl _
      | exact busRead_timing (by assumption)
      | exact cpuWrite_timing (by assumption)
      | exact push_timing (by assumption)
      | exact pop_timing (by assumption)
      | exact read16_timing (by assumption)
      | exact read16Wrap_timing (by assumption)
      | exact adc_timing (by assumption)
      | exact and_timing (by assumption)
      | exact asl_timing (by assumption)
      | exact ora_timing (by assumption)
      | exact rol_timing (by assumption)
      | exact lsr_timing (by assumption)
      | exact eor_timing (by assumption)
      | exact ror_timing (by assumption)
      | exact dec_timing (by assumption)
      | exact inc_timing (by assumption)
      | exact cmp_timing (by assumption)
      | exact sbc_timing (by assumption)
      | refine timingEq_trans ?_ (busRead_timing (by assumption))
      | refine timingEq_trans ?_ (cpuWrite_timing (by assumption))
      | refine timingEq_trans ?_ (push_timing (by assumption))
      | refine timingEq_trans ?_ (pop_timing (by assumption))
      | refine timingEq_trans ?_ (read16_timing (by assumption))
      | refine timingEq_trans ?_ (read16Wrap_timing (by assumption))
      | refine timingEq_trans ?_ (adc_timing (by assumption))
      | refine timingEq_trans ?_ (and_timing (by assumption))
      | refine timingEq_trans ?_ (asl_timing (by assumption))
      | refine timingEq_trans ?_ (ora_timing (by assumption))
      | refine timingEq_trans ?_ (rol_timing (by assumption))
      | refine timingEq_trans ?_ (lsr_timing (by assumption))
      | refine timingEq_trans ?_ (eor_timing (by assumption))
      | refine timingEq_trans ?_ (ror_timing (by assumption))
      | refine timingEq_trans ?_ (dec_timing (by assumption))
      | refine timingEq_trans ?_ (inc_timing (by assumption))
      | refine timingEq_trans ?_ (cmp_timing (by assumption))
      | refine timingEq_trans ?_ (sbc_timing (by assumption))

set_option maxHeartbeats 1600000 in
/-- The `sei` handler leaves the dot clock alone. -/
theorem sei_timing {c c' : CPU} {b b' : CPUBus} {mode : AddressingMode}
    {operand n : Nat}
    (h : c.sei b mode operand = .ok (n, c', b')) : TimingEq b b' := by
  unfold CPU.sei at h
  try dsimp only at h
  repeat' split at h
  all_goals try exact Except.noConfusion h
  all_goals try simp only [Except.ok.injEq, Prod.mk.injEq] at h
  all_goals try obtain ⟨-, -, hb⟩ := h
  all_goals try subst hb
  all_goals
    repeat'
      first
      | exact timingEq_refl _
      | exact busRead_timing (by assumption)
      | exact cpuWrite_timing (by assumption)
      | exact push_timing (by assumption)
      | exact pop_timing (by assumption)
      | exact read16_timing (by assumption)
      | exact read16Wrap_timing (by assumption)
      | exact adc_timing (by assumption)
      | exact and_timing (by assumption)
      | exact asl_timing (by assumption)
      | exact ora_timing (by assumption)
      | exact rol_timing (by assumption)
      | exact lsr_timing (by assumption)
      | exact eor_timing (by assumption)
      | exact ror_timing (by assumption)
      | exact dec_timing (by assumption)
      | exact inc_timing (by assumption)
      | exact cmp_timing (by assumption)
      | exact sbc_timing (by assumption)
      | refine timingEq_trans ?_ (busRead_timing (by assumption))
      | refine timingEq_trans ?_ (cpuWrite_timing (by assumption))
      | refine timingEq_trans ?_ (push_timing (by assumption))
      | refine timingEq_trans ?_ (pop_timing (by assumption))
      | refine timingEq_trans ?_ (read16_timing (by assumption))
      | refine timingEq_trans ?_ (read16Wrap_timing (by assumption))
      | refine timingEq_trans ?_ (adc_timing (by assumption))
      | refine timingEq_trans ?_ (and_timing (by assumption))
      | refine timingEq_trans ?_ (asl_timing (by assumption))
      | refine timingEq_trans ?_ (ora_timing (by assumption))
      | refine timingEq_trans ?_ (rol_timing (by assumption))
      | refine timingEq_trans ?_ (lsr_timing (by assumption))
      | refine timingEq_trans ?_ (eor_timing (by assumption))
      | refine timingEq_trans ?_ (ror_timing (by assumption))
      | refine timingEq_trans ?_ (dec_timing (by assumption))
      | refine timingEq_trans ?_ (inc_timing (by assumption))
      | refine timingEq_trans ?_ (cmp_timing (by assumption))
      | refine timingEq_trans ?_ (sbc_timing (by assumption))

set_option maxHeartbeats 1600000 in
/-- The `slo` handler leaves the dot clock alone. -/
theorem slo_timing {c c' : CPU} {b b' : CPUBus} {mode : AddressingMode}
    {operand n : Nat}
    (h : c.slo b mode operand = .ok (n, c', b')) : TimingEq b b' := by
  unfold CPU.slo at h
  split at h
  · exact Except.noConfusion h
  · rename_i n1 c1 b1 h1
    split at h
    · exact Except.noConfusion h
    · rename_i n2 c2 b2 h2
      simp only [Except.ok.injEq, Prod.mk.injEq] at h
      obtain ⟨-, -, hb⟩ := h
      subst hb
      exact timingEq_trans (asl_timing h1) (ora_timing h2)

set_option maxHeartbeats 1600000 in
/-- The `sre` handler leaves the dot clock alone. -/
theorem sre_timing {c c' : CPU} {b b' : CPUBus} {mode : AddressingMode}
    {operand n : Nat}
    (h : c.sre b mode operand = .ok (n, c', b')) : TimingEq b b' := by
  unfold CPU.sre at h
  split at h
  · exact Except.noConfusion h
  · rename_i n1 c1 b1 h1
    split at h
    · exact Except.noConfusion h
    · rename_i n2 c2 b2 h2
      simp only [Except.ok.injEq, Prod.mk.injEq] at h
      obtain ⟨-, -, hb⟩ := h
      subst hb
      exact timingEq_trans (lsr_timing h1) (eor_timing h2)

set_option maxHeartbeats 1600000 in
/-- The `sta` handler leaves the dot clock alone. -/
theorem sta_timing {c c' : CPU} {b b' : CPUBus} {mode : AddressingMode}
    {operand n : Nat}
    (h : c.sta b mode operand = .ok (n, c', b')) : TimingEq b b' := by
  unfold CPU.sta at h
  try dsimp only at h
  repeat' split at h
  all_goals try exact Except.noConfusion h
  all_goals try simp only [Except.ok.injEq, Prod.mk.injEq] at h
  all_goals try obtain ⟨-, -, hb⟩ := h
  all_goals try subst hb
  all_goals
    repeat'
      first
      | exact timingEq_refl _
      | exact busRead_timing (by assumption)
      | exact cpuWrite_timing (by assumption)
      | exact push_timing (by assumption)
      | exact pop_timing (by assumption)
      | exact read16_timing (by assumption)
      | exact read16Wrap_timing (by assumption)
      | exact adc_timing (by assumption)
      | exact and_timing (by assumption)
      | exact asl_timing (by assumption)
      | exact ora_timing (by assumption)
      | exact rol_timing (by assumption)
      | exact lsr_timing (by assumption)
      | exact eor_timing (by assumption)
      | exact ror_timing (by assumption)
      | exact dec_timing (by assumption)
      | exact inc_timing (by assumption)
      | exact cmp_timing (by assumption)
      | exact sbc_timing (by assumption)
      | refine timingEq_trans ?_ (busRead_timing (by assumption))
      | refine timingEq_trans ?_ (cpuWrite_timing (by assumption))
      | refine timingEq_trans ?_ (push_timing (by assumption))
      | refine timingEq_trans ?_ (pop_timing (by assumption))
      | refine timingEq_trans ?_ (read16_timing (by assumption))
      | refine timingEq_trans ?_ (read16Wrap_timing (by assumption))
      | refine timingEq_trans ?_ (adc_timing (by assumption))
      | refine timingEq_trans ?_ (and_timing (by assumption))
      | refine timingEq_trans ?_ (asl_timing (by assumption))
      | refine timingEq_trans ?_ (ora_timing (by assumption))
      | refine timingEq_trans ?_ (rol_timing (by assumption))
      | refine timingEq_trans ?_ (lsr_timing (by assumption))
      | refine timingEq_trans ?_ (eor_timing (by assumption))
      | refine timingEq_trans ?_ (ror_timing (by assumption))
      | refine timingEq_trans ?_ (dec_timing (by assumption))
      | refine timingEq_trans ?_ (inc_timing (by assumption))
      | refine timingEq_trans ?_ (cmp_timing (by assumption))
      | refine timingEq_trans ?_ (sbc_timing (by assumption))

set_option maxHeartbeats 1600000 in
/-- The `stx` handler leaves the dot clock alone. -/
theorem stx_timing {c c' : CPU} {b b' : CPUBus} {mode : AddressingMode}
    {operand n : Nat}
    (h : c.stx b mode operand = .ok (n, c', b')) : TimingEq b b' := by
  unfold CPU.stx at h
  try dsimp only at h
  repeat' split at h
  all_goals try exact Except.noConfusion h
  all_goals try simp only [Except.ok.injEq, Prod.mk.injEq] at h
  all_goals try obtain ⟨-, -, hb⟩ := h
  all_goals try subst hb
  all_goals
    repeat'
      first
      | exact timingEq_refl _
      | exact busRead_timing (by assumption)
      | exact cpuWrite_timing (by assumption)
      | exact push_timing (by assumption)
      | exact pop_timing (by assumption)
      | exact read16_timing (by assumption)
      | exact read16Wrap_timing (by assumption)
      | exact adc_timing (by assumption)
      | exact and_timing (by assumption)
      | exact asl_timing (by assumption)
      | exact ora_timing (by assumption)
      | exact rol_timing (by assumption)
      | exact lsr_timing (by assumption)
      | exact eor_timing (by assumption)
      | exact ror_timing (by assumption)
      | exact dec_timing (by assumption)
      | exact inc_timing (by assumption)
      | exact cmp_timing (by assumption)
      | exact sbc_timing (by assumption)
      | refine timingEq_trans ?_ (busRead_timing (by assumption))
      | refine timingEq_trans ?_ (cpuWrite_timing (by assumption))
      | refine timingEq_trans ?_ (push_timing (by assumption))
      | refine timingEq_trans ?_ (pop_timing (by assumption))
      | refine timingEq_trans ?_ (read16_timing (by assumption))
      | refine timingEq_trans ?_ (read16Wrap_timing (by assumption))
      | refine timingEq_trans ?_ (adc_timing (by assumption))
      | refine timingEq_trans ?_ (and_timing (by assumption))
      | refine timingEq_trans ?_ (asl_timing (by assumption))
      | refine timingEq_trans ?_ (ora_timing (by assumption))
      | refine timingEq_trans ?_ (rol_timing (by assumption))
      | refine timingEq_trans ?_ (lsr_timing (by assumption))
      | refine timingEq_trans ?_ (eor_timing (by assumption))
      | refine timingEq_trans ?_ (ror_timing (by assumption))
      | refine timingEq_trans ?_ (dec_timing (by assumption))
      | refine timingEq_trans ?_ (inc_timing (by assumption))
      | refine timingEq_trans ?_ (cmp_timing (by assumption))
      | refine timingEq_trans ?_ (sbc_timing (by assumption))

set_option maxHeartbeats 1600000 in
/-- The `sty` handler leaves the dot clock alone. -/
theorem sty_timing {c c' : CPU} {b b' : CPUBus} {mode : AddressingMode}
    {operand n : Nat}
    (h : c.sty b mode operand = .ok (n, c', b')) : TimingEq b b' := by
  unfold CPU.sty at h
  try dsimp only at h
  repeat' split at h
  all_goals try exact Except.noConfusion h
  all_goals try simp only [Except.ok.injEq, Prod.mk.injEq] at h
  all_goals try obtain ⟨-, -, hb⟩ := h
  all_goals try subst hb
  all_goals
    repeat'
      first
      | exact timingEq_refl _
      | exact busRead_timing (by assumption)
      | exact cpuWrite_timing (by assumption)
      | exact push_timing (by assumption)
      | exact pop_timing (by assumption)
      | exact read16_timing (by assumption)
      | exact read16Wrap_timing (by assumption)
      | exact adc_timing (by assumption)
      | exact and_timing (by assumption)
      | exact asl_timing (by assumption)
      | exact ora_timing (by assumption)
      | exact rol_timing (by assumption)
      | exact lsr_timing (by assumption)
      | exact eor_timing (by assumption)
      | exact ror_timing (by assumption)
      | exact dec_timing (by assumption)
      | exact inc_timing (by assumption)
      | exact cmp_timing (by assumption)
      | exact sbc_timing (by assumption)
      | refine timingEq_trans ?_ (busRead_timing (by assumption))
      | refine timingEq_trans ?_ (cpuWrite_timing (by assumption))
      | refine timingEq_trans ?_ (push_timing (by assumption))
      | refine timingEq_trans ?_ (pop_timing (by assumption))
      | refine timingEq_trans ?_ (read16_timing (by assumption))
      | refine timingEq_trans ?_ (read16Wrap_timing (by assumption))
      | refine timingEq_trans ?_ (adc_timing (by assumption))
      | refine timingEq_trans ?_ (and_timing (by assumption))
      | refine timingEq_trans ?_ (asl_timing (by assumption))
      | refine timingEq_trans ?_ (ora_timing (by assumption))
      | refine timingEq_trans ?_ (rol_timing (by assumption))
      | refine timingEq_trans ?_ (lsr_timing (by assumption))
      | refine timingEq_trans ?_ (eor_timing (by assumption))
      | refine timingEq_trans ?_ (ror_timing (by assumption))
      | refine timingEq_trans ?_ (dec_timing (by assumption))
      | refine timingEq_trans ?_ (inc_timing (by assumption))
      | refine timingEq_trans ?_ (cmp_timing (by assumption))
      | refine timingEq_trans ?_ (sbc_timing (by assumption))

set_option maxHeartbeats 1600000 in
/-- The `tax` handler leaves the dot clock alone. -/
theorem tax_timing {c c' : CPU} {b b' : CPUBus} {mode : AddressingMode}
    {operand n : Nat}
    (h : c.tax b mode operand = .ok (n, c', b')) : TimingEq b b' := by
  unfold CPU.tax at h
  try dsimp only at h
  repeat' split at h
  all_goals try exact Except.noConfusion h
  all_goals try simp only [Except.ok.injEq, Prod.mk.injEq] at h
  all_goals try obtain ⟨-, -, hb⟩ := h
  all_goals try subst hb
  all_goals
    repeat'
      first
      | exact timingEq_refl _
      | exact busRead_timing (by assumption)
      | exact cpuWrite_timing (by assumption)
      | exact push_timing (by assumption)
      | exact pop_timing (by assumption)
      | exact read16_timing (by assumption)
      | exact read16Wrap_timing (by assumption)
      | exact adc_timing (by assumption)
      | exact and_timing (by assumption)
      | exact asl_timing (by assumption)
      | exact ora_timing (by assumption)
      | exact rol_timing (by assumption)
      | exact lsr_timing (by assumption)
      | exact eor_timing (by assumption)
      | exact ror_timing (by assumption)
      | exact dec_timing (by assumption)
      | exact inc_timing (by assumption)
      | exact cmp_timing (by assumption)
      | exact sbc_timing (by assumption)
      | refine timingEq_trans ?_ (busRead_timing (by assumption))
      | refine timingEq_trans ?_ (cpuWrite_timing (by assumption))
      | refine timingEq_trans ?_ (push_timing (by assumption))
      | refine timingEq_trans ?_ (pop_timing (by assumption))
      | refine timingEq_trans ?_ (read16_timing (by assumption))
      | refine timingEq_trans ?_ (read16Wrap_timing (by assumption))
      | refine timingEq_trans ?_ (adc_timing (by assumption))
      | refine timingEq_trans ?_ (and_timing (by assumption))
      | refine timingEq_trans ?_ (asl_timing (by assumption))
      | refine timingEq_trans ?_ (ora_timing (by assumption))
      | refine timingEq_trans ?_ (rol_timing (by assumption))
      | refine timingEq_trans ?_ (lsr_timing (by assumption))
      | refine timingEq_trans ?_ (eor_timing (by assumption))
      | refine timingEq_trans ?_ (ror_timing (by assumption))
      | refine timingEq_trans ?_ (dec_timing (by assumption))
      | refine timingEq_trans ?_ (inc_timing (by assumption))
      | refine timingEq_trans ?_ (cmp_timing (by assumption))
      | refine timingEq_trans ?_ (sbc_timing (by assumption))

set_option maxHeartbeats 1600000 in
/-- The `tay` handler leaves the dot clock alone. -/
theorem tay_timing {c c' : CPU} {b b' : CPUBus} {mode : AddressingMode}
    {operand n : Nat}
    (h : c.tay b mode operand = .ok (n, c', b')) : TimingEq b b' := by
  unfold CPU.tay at h
  try dsimp only at h
  repeat' split at h
  all_goals try exact Except.noConfusion h
  all_goals try simp only [Except.ok.injEq, Prod.mk.injEq] at h
  all_goals try obtain ⟨-, -, hb⟩ := h
  all_goals try subst hb
  all_goals
    repeat'
      first
      | exact timingEq_refl _
      | exact busRead_timing (by assumption)
      | exact cpuWrite_timing (by assumption)
      | exact push_timing (by assumption)
      | exact pop_timing (by assumption)
      | exact read16_timing (by assumption)
      | exact read16Wrap_timing (by assumption)
      | exact adc_timing (by assumption)
      | exact and_timing (by assumption)
      | exact asl_timing (by assumption)
      | exact ora_timing (by assumption)
      | exact rol_timing (by assumption)
      | exact lsr_timing (by assumption)
      | exact eor_timing (by assumption)
      | exact ror_timing (by assumption)
      | exact dec_timing (by assumption)
      | exact inc_timing (by assumption)
      | exact cmp_timing (by assumption)
      | exact sbc_timing (by assumption)
      | refine timingEq_trans ?_ (busRead_timing (by assumption))
      | refine timingEq_trans ?_ (cpuWrite_timing (by assumption))
      | refine timingEq_trans ?_ (push_timing (by assumption))
      | refine timingEq_trans ?_ (pop_timing (by assumption))
      | refine timingEq_trans ?_ (read16_timing (by assumption))
      | refine timingEq_trans ?_ (read16Wrap_timing (by assumption))
      | refine timingEq_trans ?_ (adc_timing (by assumption))
      | refine timingEq_trans ?_ (and_timing (by assumption))
      | refine timingEq_trans ?_ (asl_timing (by assumption))
      | refine timingEq_trans ?_ (ora_timing (by assumption))
      | refine timingEq_trans ?_ (rol_timing (by assumption))
      | refine timingEq_trans ?_ (lsr_timing (by assumption))
      | refine timingEq_trans ?_ (eor_timing (by assumption))
      | refine timingEq_trans ?_ (ror_timing (by assumption))
      | refine timingEq_trans ?_ (dec_timing (by assumption))
      | refine timingEq_trans ?_ (inc_timing (by assumption))
      | refine timingEq_trans ?_ (cmp_timing (by assumption))
      | refine timingEq_trans ?_ (sbc_timing (by assumption))

set_option maxHeartbeats 1600000 in
/-- The `tsx` handler leaves the dot clock alone. -/
theorem tsx_timing {c c' : CPU} {b b' : CPUBus} {mode : AddressingMode}
    {operand n : Nat}
    (h : c.tsx b mode operand = .ok (n, c', b')) : TimingEq b b' := by
  unfold CPU.tsx at h
  try dsimp only at h
  repeat' split at h
  all_goals try exact Except.noConfusion h
  all_goals try simp only [Except.ok.injEq, Prod.mk.injEq] at h
  all_goals try obtain ⟨-, -, hb⟩ := h
  all_goals try subst hb
  all_goals
    repeat'
      first
      | exact timingEq_refl _
      | exact busRead_timing (by assumption)
      | exact cpuWrite_timing (by assumption)
      | exact push_timing (by assumption)
      | exact pop_timing (by assumption)
      | exact read16_timing (by assumption)
      | exact read16Wrap_timing (by assumption)
      | exact adc_timing (by assumption)
      | exact and_timing (by assumption)
      | exact asl_timing (by assumption)
      | exact ora_timing (by assumption)
      | exact rol_timing (by assumption)
      | exact lsr_timing (by assumption)
      | exact eor_timing (by assumption)
      | exact ror_timing (by assumption)
      | exact dec_timing (by assumption)
      | exact inc_timing (by assumption)
      | exact cmp_timing (by assumption)
      | exact sbc_timing (by assumption)
      | refine timingEq_trans ?_ (busRead_timing (by assumption))
      | refine timingEq_trans ?_ (cpuWrite_timing (by assumption))
      | refine timingEq_trans ?_ (push_timing (by assumption))
      | refine timingEq_trans ?_ (pop_timing (by assumption))
      | refine timingEq_trans ?_ (read16_timing (by assumption))
      | refine timingEq_trans ?_ (read16Wrap_timing (by assumption))
      | refine timingEq_trans ?_ (adc_timing (by assumption))
      | refine timingEq_trans ?_ (and_timing (by assumption))
      | refine timingEq_trans ?_ (asl_timing (by assumption))
      | refine timingEq_trans ?_ (ora_timing (by assumption))
      | refine timingEq_trans ?_ (rol_timing (by assumption))
      | refine timingEq_trans ?_ (lsr_timing (by assumption))
      | refine timingEq_trans ?_ (eor_timing (by assumption))
      | refine timingEq_trans ?_ (ror_timing (by assumption))
      | refine timingEq_trans ?_ (dec_timing (by assumption))
      | refine timingEq_trans ?_ (inc_timing (by assumption))
      | refine timingEq_trans ?_ (cmp_timing (by assumption))
      | refine timingEq_trans ?_ (sbc_timing (by assumption))

set_option maxHeartbeats 1600000 in
/-- The `txa` handler leaves the dot clock alone. -/
theorem txa_timing {c c' : CPU} {b b' : CPUBus} {mode : AddressingMode}
    {operand n : Nat}
    (h : c.txa b mode operand = .ok (n, c', b')) : TimingEq b b' := by
  unfold CPU.txa at h
  try dsimp only at h
  repeat' split at h
  all_goals try exact Except.noConfusion h
  all_goals try simp only [Except.ok.injEq, Prod.mk.injEq] at h
  all_goals try obtain ⟨-, -, hb⟩ := h
  all_goals try subst hb
  all_goals
    repeat'
      first
      | exact timingEq_refl _
      | exact busRead_timing (by assumption)
      | exact cpuWrite_timing (by assumption)
      | exact push_timing (by assumption)
      | exact pop_timing (by assumption)
      | exact read16_timing (by assumption)
      | exact read16Wrap_timing (by assumption)
      | exact adc_timing (by assumption)
      | exact and_timing (by assumption)
      | exact asl_timing (by assumption)
      | exact ora_timing (by assumption)
      | exact rol_timing (by assumption)
      | exact lsr_timing (by assumption)
      | exact eor_timing (by assumption)
      | exact ror_timing (by assumption)
      | exact dec_timing (by assumption)
      | exact inc_timing (by assumption)
      | exact cmp_timing (by assumption)
      | exact sbc_timing (by assumption)
      | refine timingEq_trans ?_ (busRead_timing (by assumption))
      | refine timingEq_trans ?_ (cpuWrite_timing (by assumption))
      | refine timingEq_trans ?_ (push_timing (by assumption))
      | refine timingEq_trans ?_ (pop_timing (by assumption))
      | refine timingEq_trans ?_ (read16_timing (by assumption))
      | refine timingEq_trans ?_ (read16Wrap_timing (by assumption))
      | refine timingEq_trans ?_ (adc_timing (by assumption))
      | refine timingEq_trans ?_ (and_timing (by assumption))
      | refine timingEq_trans ?_ (asl_timing (by assumption))
      | refine timingEq_trans ?_ (ora_timing (by assumption))
      | refine timingEq_trans ?_ (rol_timing (by assumption))
      | refine timingEq_trans ?_ (lsr_timing (by assumption))
      | refine timingEq_trans ?_ (eor_timing (by assumption))
      | refine timingEq_trans ?_ (ror_timing (by assumption))
      | refine timingEq_trans ?_ (dec_timing (by assumption))
      | refine timingEq_trans ?_ (inc_timing (by assumption))
      | refine timingEq_trans ?_ (cmp_timing (by assumption))
      | refine timingEq_trans ?_ (sbc_timing (by assumption))

set_option maxHeartbeats 1600000 in
/-- The `txs` handler leaves the dot clock alone. -/
theorem txs_timing {c c' : CPU} {b b' : CPUBus} {mode : AddressingMode}
    {operand n : Nat}
    (h : c.txs b mode operand = .ok (n, c', b')) : TimingEq b b' := by
  unfold CPU.txs at h
  try dsimp only at h
  repeat' split at h
  all_goals try exact Except.noConfusion h
  all_goals try simp only [Except.ok.injEq, Prod.mk.injEq] at h
  all_goals try obtain ⟨-, -, hb⟩ := h
  all_goals try subst hb
  all_goals
    repeat'
      first
      | exact timingEq_refl _
      | exact busRead_timing (by assumption)
      | exact cpuWrite_timing (by assumption)
      | exact push_timing (by assumption)
      | exact pop_timing (by assumption)
      | exact read16_timing (by assumption)
      | exact read16Wrap_timing (by assumption)
      | exact adc_timing (by assumption)
      | exact and_timing (by assumption)
      | exact asl_timing (by assumption)
      | exact ora_timing (by assumption)
      | exact rol_timing (by assumption)
      | exact lsr_timing (by assumption)
      | exact eor_timing (by assumption)
      | exact ror_timing (by assumption)
      | exact dec_timing (by assumption)
      | exact inc_timing (by assumption)
      | exact cmp_timing (by assumption)
      | exact sbc_timing (by assumption)
      | refine timingEq_trans ?_ (busRead_timing (by assumption))
      | refine timingEq_trans ?_ (cpuWrite_timing (by assumption))
      | refine timingEq_trans ?_ (push_timing (by assumption))
      | refine timingEq_trans ?_ (pop_timing (by assumption))
      | refine timingEq_trans ?_ (read16_timing (by assumption))
      | refine timingEq_trans ?_ (read16Wrap_timing (by assumption))
      | refine timingEq_trans ?_ (adc_timing (by assumption))
      | refine timingEq_trans ?_ (and_timing (by assumption))
      | refine timingEq_trans ?_ (asl_timing (by assumption))
      | refine timingEq_trans ?_ (ora_timing (by assumption))
      | refine timingEq_trans ?_ (rol_timing (by assumption))
      | refine timingEq_trans ?_ (lsr_timing (by assumption))
      | refine timingEq_trans ?_ (eor_timing (by assumption))
      | refine timingEq_trans ?_ (ror_timing (by assumption))
      | refine timingEq_trans ?_ (dec_timing (by assumption))
      | refine timingEq_trans ?_ (inc_timing (by assumption))
      | refine timingEq_trans ?_ (cmp_timing (by assumption))
      | refine timingEq_trans ?_ (sbc_timing (by assumption))

set_option maxHeartbeats 1600000 in
/-- The `tya` handler leaves the dot clock alone. -/
theorem tya_timing {c c' : CPU} {b b' : CPUBus} {mode : AddressingMode}
    {operand n : Nat}
    (h : c.tya b mode operand = .ok (n, c', b')) : TimingEq b b' := by
  unfold CPU.tya at h
  try dsimp only at h
  repeat' split at h
  all_goals try exact Except.noConfusion h
  all_goals try simp only [Except.ok.injEq, Prod.mk.injEq] at h
  all_goals try obtain ⟨-, -, hb⟩ := h
  all_goals try subst hb
  all_goals
    repeat'
      first
      | exact timingEq_refl _
      | exact busRead_timing (by assumption)
      | exact cpuWrite_timing (by assumption)
      | exact push_timing (by assumption)
      | exact pop_timing (by assumption)
      | exact read16_timing (by assumption)
      | exact read16Wrap_timing (by assumption)
      | exact adc_timing (by assumption)
      | exact and_timing (by assumption)
      | exact asl_timing (by assumption)
      | exact ora_timing (by assumption)
      | exact rol_timing (by assumption)
      | exact lsr_timing (by assumption)
      | exact eor_timing (by assumption)
      | exact ror_timing (by assumption)
      | exact dec_timing (by assumption)
      | exact inc_timing (by assumption)
      | exact cmp_timing (by assumption)
      | exact sbc_timing (by assumption)
      | refine timingEq_trans ?_ (busRead_timing (by assumption))
      | refine timingEq_trans ?_ (cpuWrite_timing (by assumption))
      | refine timingEq_trans ?_ (push_timing (by assumption))
      | refine timingEq_trans ?_ (pop_timing (by assumption))
      | refine timingEq_trans ?_ (read16_timing (by assumption))
      | refine timingEq_trans ?_ (read16Wrap_timing (by assumption))
      | refine timingEq_trans ?_ (adc_timing (by assumption))
      | refine timingEq_trans ?_ (and_timing (by assumption))
      | refine timingEq_trans ?_ (asl_timing (by assumption))
      | refine timingEq_trans ?_ (ora_timing (by assumption))
      | refine timingEq_trans ?_ (rol_timing (by assumption))
      | refine timingEq_trans ?_ (lsr_timing (by assumption))
      | refine timingEq_trans ?_ (eor_timing (by assumption))
      | refine timingEq_trans ?_ (ror_timing (by assumption))
      | refine timingEq_trans ?_ (dec_timing (by assumption))
      | refine timingEq_trans ?_ (inc_timing (by assumption))
      | refine timingEq_trans ?_ (cmp_timing (by assumption))
      | refine timingEq_trans ?_ (sbc_timing (by assumption))

set_option maxHeartbeats 1600000 in
/-- Every instruction handler leaves the dot clock alone. -/
theorem execute_timing {c c' : CPU} {b b' : CPUBus} {name : String}
    {mode : AddressingMode} {operand n : Nat}
    (h : c.execute b name mode operand = .ok (n, c', b')) : TimingEq b b' := by
  unfold CPU.execute at h
  split at h
  case h_1 => exact adc_timing h
  case h_2 => exact and_timing h
  case h_3 => exact asl_timing h
  case h_4 => exact bcc_timing h
  case h_5 => exact bcs_timing h
  case h_6 => exact beq_timing h
  case h_7 => exact bit_timing h
  case h_8 => exact bmi_timing h
  case h_9 => exact bne_timing h
  case h_10 => exact bpl_timing h
  case h_11 => exact brk_timing h
  case h_12 => exact bvc_timing h
  case h_13 => exact bvs_timing h
  case h_14 => exact clc_timing h
  case h_15 => exact cld_timing h
  case h_16 => exact cli_timing h
  case h_17 => exact clv_timing h
  case h_18 => exact cmp_timing h
  case h_19 => exact cpx_timing h
  case h_20 => exact cpy_timing h
  case h_21 => exact dcp_timing h
  case h_22 => exact dec_timing h
  case h_23 => exact dex_timing h
  case h_24 => exact dey_timing h
  case h_25 => exact eor_timing h
  case h_26 => exact inc_timing h
  case h_27 => exact inx_timing h
  case h_28 => exact iny_timing h
  case h_29 => exact isc_timing h
  case h_30 => exact jmp_timing h
  case h_31 => exact jsr_timing h
  case h_32 => exact lax_timing h
  case h_33 => exact lda_timing h
  case h_34 => exact ldx_timing h
  case h_35 => exact ldy_timing h
  case h_36 => exact lsr_timing h
  case h_37 => exact nop_timing h
  case h_38 => exact ora_timing h
  case h_39 => exact pha_timing h
  case h_40 => exact php_timing h
  case h_41 => exact pla_timing h
  case h_42 => exact plp_timing h
  case h_43 => exact rla_timing h
  case h_44 => exact rol_timing h
  case h_45 => exact ror_timing h
  case h_46 => exact rra_timing h
  case h_47 => exact rti_timing h
  case h_48 => exact rts_timing h
  case h_49 => exact sax_timing h
  case h_50 => exact sbc_timing h
  case h_51 => exact sec_timing h
  case h_52 => exact sed_timing h
  case h_53 => exact sei_timing h
  case h_54 => exact slo_timing h
  case h_55 => exact sre_timing h
  case h_56 => exact sta_timing h
  case h_57 => exact stx_timing h
  case h_58 => exact sty_timing h
  case h_59 => exact tax_timing h
  case h_60 => exact tay_timing h
  case h_61 => exact tsx_timing h
  case h_62 => exact txa_timing h
  case h_63 => exact txs_timing h
  case h_64 => exact tya_timing h
  case h_65 => exact Except.noConfusion h

set_option maxHeartbeats 1600000 in
/-- Operand computation leaves the dot clock alone. -/
theorem computeOperand_timing {c : CPU} {b b' : CPUBus} {mode : AddressingMode}
    {operand : Nat} {flag : Bool}
    (h : c.computeOperand b mode = .ok (operand, flag, b')) : TimingEq b b' := by
  unfold CPU.computeOperand at h
  repeat' split at h
  all_goals try exact Except.noConfusion h
  all_goals try simp only [Except.ok.injEq, Prod.mk.injEq] at h
  all_goals try obtain ⟨-, -, hb⟩ := h
  all_goals try subst hb
  all_goals
    repeat'
      first
      | exact timingEq_refl _
      | exact busRead_timing (by assumption)
      | exact read16_timing (by assumption)
      | exact read16Wrap_timing (by assumption)
      | refine timingEq_trans ?_ (busRead_timing (by assumption))
      | refine timingEq_trans ?_ (read16_timing (by assumption))
      | refine timingEq_trans ?_ (read16Wrap_timing (by assumption))

set_option maxHeartbeats 1600000 in
/-- One whole CPU step leaves the PPU's dot clock alone: the CPU only
reaches the PPU through register and DMA traffic. -/
theorem step_timing {c c' : CPU} {b b' : CPUBus} {n : Nat}
    (h : c.step b = .ok (n, c', b')) : TimingEq b b' := by
  unfold CPU.step at h
  by_cases hs : 0 < c.stall
  · rw [if_pos hs] at h
    simp only [Except.ok.injEq, Prod.mk.injEq] at h
    obtain ⟨-, -, hb⟩ := h
    subst hb
    exact timingEq_refl b
  · rw [if_neg hs] at h
    dsimp only at h
    by_cases hn : c.nmiTriggered
    · rw [if_pos hn] at h
      rcases hm : c.nmi b with e | ⟨c1, b1⟩
      · rw [hm] at h
        exact Except.noConfusion h
      · rw [hm] at h
        dsimp only at h
        refine timingEq_trans (nmi_timing hm) ?_
        repeat' split at h
        all_goals try exact Except.noConfusion h
        all_goals try simp only [Except.ok.injEq, Prod.mk.injEq] at h
        all_goals try obtain ⟨-, -, hb⟩ := h
        all_goals try subst hb
        all_goals
          repeat'
            first
            | exact timingEq_refl _
            | exact busRead_timing (by assumption)
            | exact computeOperand_timing (by assumption)
            | exact execute_timing (by assumption)
            | refine timingEq_trans ?_ (busRead_timing (by assumption))
            | refine timingEq_trans ?_ (computeOperand_timing (by assumption))
            | refine timingEq_trans ?_ (execute_timing (by assumption))
    · rw [if_neg hn] at h
      dsimp only at h
      repeat' split at h
      all_goals try exact Except.noConfusion h
      all_goals try simp only [Except.ok.injEq, Prod.mk.injEq] at h
      all_goals try obtain ⟨-, -, hb⟩ := h
      all_goals try subst hb
      all_goals
        repeat'
          first
          | exact timingEq_refl _
          | exact busRead_timing (by assumption)
          | exact computeOperand_timing (by assumption)
          | exact execute_timing (by assumption)
          | refine timingEq_trans ?_ (busRead_timing (by assumption))
          | refine timingEq_trans ?_ (computeOperand_timing (by assumption))
          | refine timingEq_trans ?_ (execute_timing (by assumption))


/-! ### The PPU dot clock under one step -/

theorem copyX_cycle (p : PPU) : (PPU.copyX p).cycle = p.cycle := rfl

theorem copyX_scanline (p : PPU) : (PPU.copyX p).scanline = p.scanline := rfl

theorem copyY_cycle (p : PPU) : (PPU.copyY p).cycle = p.cycle := rfl

theorem copyY_scanline (p : PPU) : (PPU.copyY p).scanline = p.scanline := rfl

theorem incrementCoarseX_cycle (p : PPU) : (PPU.incrementCoarseX p).cycle = p.cycle := by
  unfold PPU.incrementCoarseX
  split <;> rfl

theorem incrementCoarseX_scanline (p : PPU) :
    (PPU.incrementCoarseX p).scanline = p.scanline := by
  unfold PPU.incrementCoarseX
  split <;> rfl

theorem incrementY_cycle (p : PPU) : (PPU.incrementY p).cycle = p.cycle := by
  unfold PPU.incrementY
  dsimp only
  repeat' split
  all_goals rfl

theorem incrementY_scanline (p : PPU) : (PPU.incrementY p).scanline = p.scanline := by
  unfold PPU.incrementY
  dsimp only
  repeat' split
  all_goals rfl

theorem updateNMI_cycle (p : PPU) (f : Bool) : (p.updateNMI f).cycle = p.cycle := rfl

theorem updateNMI_scanline (p : PPU) (f : Bool) : (p.updateNMI f).scanline = p.scanline := rfl

/-- Projection of `evaluateSprite_fields`. -/
theorem evaluateSprite_cycle (p : PPU) : (p.evaluateSprite).cycle = p.cycle := by
  obtain ⟨-, -, -, -, -, -, -, -, -, -, hc, -, -, -, -⟩ := evaluateSprite_fields p
  exact hc

/-- Projection of `evaluateSprite_fields`. -/
theorem evaluateSprite_scanline (p : PPU) : (p.evaluateSprite).scanline = p.scanline := by
  obtain ⟨-, -, -, -, -, -, -, -, -, -, -, hs, -, -, -⟩ := evaluateSprite_fields p
  exact hs

/-- The fetch pipeline never touches the dot counters. -/
theorem bgFetch_dot {p p' : PPU} {cart : Cartridge} {vram : Nat → Nat}
    (h : p.bgFetch cart vram = .ok p') :
    p'.cycle = p.cycle ∧ p'.scanline = p.scanline := by
  unfold PPU.bgFetch PPU.fetchNameTableByte PPU.fetchAttributeTableByte
    PPU.fetchLowTileByte PPU.fetchHighTileByte PPU.shiftTileData at h
  try dsimp only at h
  repeat' split at h
  all_goals try exact Except.noConfusion h
  all_goals simp only [Except.ok.injEq] at h
  all_goals subst h
  all_goals exact ⟨rfl, rfl⟩

/-- Pixel rendering never touches the dot counters. -/
theorem renderPixel_dot {p p' : PPU} {cart : Cartridge} {vram : Nat → Nat}
    (h : p.renderPixel cart vram = .ok p') :
    p'.cycle = p.cycle ∧ p'.scanline = p.scanline := by
  unfold PPU.renderPixel at h
  try dsimp only at h
  repeat' split at h
  all_goals try exact Except.noConfusion h
  all_goals simp only [Except.ok.injEq] at h
  all_goals subst h
  all_goals exact ⟨rfl, rfl⟩

set_option maxHeartbeats 1600000 in
/-- The whole background block never touches the dot counters. -/
theorem backgroundLogic_dot {p p' : PPU} {cart : Cartridge} {vram : Nat → Nat}
    (h : p.backgroundLogic cart vram = .ok p') :
    p'.cycle = p.cycle ∧ p'.scanline = p.scanline := by
  unfold PPU.backgroundLogic at h
  by_cases hsb : p.showBackground
  case neg =>
    rw [if_neg hsb] at h
    simp only [Except.ok.injEq] at h
    subst h
    exact ⟨rfl, rfl⟩
  case pos =>
    rw [if_pos hsb] at h
    split at h
    · exact Except.noConfusion h
    · rename_i q hq
      have hq2 : q.cycle = p.cycle ∧ q.scanline = p.scanline := by
        split at hq
        · exact renderPixel_dot hq
        · simp only [Except.ok.injEq] at hq
          subst hq
          exact ⟨rfl, rfl⟩
      dsimp only at h
      repeat' split at h
      all_goals try exact Except.noConfusion h
      all_goals try (simp only [Except.ok.injEq] at h; subst h)
      all_goals
        first
        | (obtain ⟨g1, g2⟩ := bgFetch_dot (by assumption)
           exact ⟨g1.trans (by simp only [incrementCoarseX_cycle, incrementY_cycle,
               copyX_cycle, copyY_cycle, hq2.1]),
             g2.trans (by simp only [incrementCoarseX_scanline, incrementY_scanline,
               copyX_scanline, copyY_scanline, hq2.2])⟩)
        | (refine ⟨?_, ?_⟩ <;>
            simp only [incrementCoarseX_cycle, incrementCoarseX_scanline, incrementY_cycle,
              incrementY_scanline, copyX_cycle, copyX_scanline, copyY_cycle, copyY_scanline,
              hq2.1, hq2.2])

set_option maxHeartbeats 1600000 in
/-- One PPU step moves the dot counters exactly as the tick does. -/
theorem step_dot {p p' : PPU} {nmi : Bool} {cart : Cartridge} {vram : Nat → Nat}
    (h : p.step cart vram = .ok (nmi, p')) :
    p'.cycle = tickCycle p ∧ p'.scanline = tickScanline p := by
  unfold PPU.step at h
  dsimp only at h
  split at h
  · exact Except.noConfusion h
  · rename_i q hq
    obtain ⟨hc, hs⟩ := backgroundLogic_dot hq
    rw [tick_spec] at hc hs
    dsimp only at hc hs
    repeat' split at h
    all_goals simp only [Except.ok.injEq, Prod.mk.injEq] at h
    all_goals obtain ⟨-, hb⟩ := h
    all_goals subst hb
    all_goals
      refine ⟨?_, ?_⟩ <;>
        simp only [PPU.updateNMI, evaluateSprite_cycle, evaluateSprite_scanline, hc, hs]

/-- One PPU step advances the dot position by one, modulo the
341 x 262 frame. -/
theorem step_dotPos {p p' : PPU} {nmi : Bool} {cart : Cartridge} {vram : Nat → Nat}
    (hw : PPUWf p) (h : p.step cart vram = .ok (nmi, p')) :
    dotPos p' = (dotPos p + 1) % 89342 ∧ PPUWf p' := by
  obtain ⟨hc, hs⟩ := step_dot h
  obtain ⟨h1, h2⟩ := hw
  unfold PPUWf dotPos
  rw [hc, hs]
  unfold tickCycle tickScanline
  repeat' split
  all_goals omega

/-- Specification-side fold: `n` consecutive PPU steps with the NMI
flags OR-folded, the pure counterpart of the console's PPU loop. -/
def PPU.advance (p : PPU) (cart : Cartridge) (vram : Nat → Nat) :
    Nat → Except String (Bool × PPU)
  | 0 => .ok (false, p)
  | n + 1 =>
    match p.step cart vram with
    | .error e => .error e
    | .ok (nmi1, p1) =>
      match PPU.advance p1 cart vram n with
      | .error e => .error e
      | .ok (rest, p2) => .ok (nmi1 || rest, p2)

/-- `n` PPU steps advance the dot position by exactly `n`. -/
theorem advance_dotPos : ∀ (n : Nat) (p : PPU) (cart : Cartridge) (vram : Nat → Nat)
    (nmi : Bool) (p' : PPU), PPUWf p → PPU.advance p cart vram n = .ok (nmi, p') →
    dotPos p' = (dotPos p + n) % 89342 ∧ PPUWf p' := by
  intro n
  induction n with
  | zero =>
    intro p cart vram nmi p' hw h
    unfold PPU.advance at h
    simp only [Except.ok.injEq, Prod.mk.injEq] at h
    obtain ⟨-, hp⟩ := h
    subst hp
    refine ⟨?_, hw⟩
    obtain ⟨h1, h2⟩ := hw
    unfold dotPos
    omega
  | succ k ih =>
    intro p cart vram nmi p' hw h
    unfold PPU.advance at h
    split at h
    · exact Except.noConfusion h
    · rename_i nmi1 p1 hstep
      split at h
      · exact Except.noConfusion h
      · rename_i rest p2 hrest
        simp only [Except.ok.injEq, Prod.mk.injEq] at h
        obtain ⟨-, hp⟩ := h
        subst hp
        obtain ⟨hd1, hw1⟩ := step_dotPos hw hstep
        obtain ⟨hd2, hw2⟩ := ih p1 cart vram rest p2 hw1 hrest
        refine ⟨?_, hw2⟩
        rw [hd2, hd1]
        omega

/-! ### The console loop against the pure fold -/

/-- One console PPU dot: a step of the bus's PPU, the NMI latch into
the CPU, and otherwise identical stores. -/
theorem ppuDot_spec {s s' : NesConsole} (h : s.ppuDot = .ok s') :
    ∃ nmi ppu', s.bus.ppu.step s.bus.cartridge s.bus.vram = .ok (nmi, ppu') ∧
      s'.bus = { s.bus with ppu := ppu' } ∧
      s'.cpu = { s.cpu with nmiTriggered := s.cpu.nmiTriggered || nmi } := by
  unfold NesConsole.ppuDot at h
  split at h
  · exact Except.noConfusion h
  · rename_i nmi ppu1 hstep
    refine ⟨nmi, ppu1, hstep, ?_⟩
    dsimp only [PPU.frame] at h
    repeat' split at h
    all_goals simp only [Except.ok.injEq] at h
    all_goals subst h
    all_goals simp_all

/-- The console's `3 * cycles` PPU loop equals the pure fold, with the
OR of the returned NMI flags latched into the CPU. -/
theorem ppuLoop_advance : ∀ (n : Nat) (s s' : NesConsole),
    s.ppuLoop n = .ok s' →
    ∃ nmi, PPU.advance s.bus.ppu s.bus.cartridge s.bus.vram n = .ok (nmi, s'.bus.ppu) ∧
      s'.cpu = { s.cpu with nmiTriggered := s.cpu.nmiTriggered || nmi } := by
  intro n
  induction n with
  | zero =>
    intro s s' h
    unfold NesConsole.ppuLoop at h
    simp only [Except.ok.injEq] at h
    subst h
    refine ⟨false, rfl, ?_⟩
    simp
  | succ k ih =>
    intro s s' h
    unfold NesConsole.ppuLoop at h
    split at h
    · exact Except.noConfusion h
    · rename_i s1 hd
      obtain ⟨nmi1, ppu1, hstep, hbus, hcpu⟩ := ppuDot_spec hd
      obtain ⟨nmi2, hadv, hcpu2⟩ := ih s1 s' h
      rw [hbus] at hadv
      dsimp only at hadv
      refine ⟨nmi1 || nmi2, ?_, ?_⟩
      · unfold PPU.advance
        rw [hstep]
        dsimp only
        rw [hadv]
      · rw [hcpu2, hcpu]
        simp [Bool.or_assoc]

/-- One console step: the CPU step, then exactly `3 * cycles` PPU dots
whose NMI output is latched into the CPU. -/
theorem consoleStep_spec {s : NesConsole} {cycles : Nat} {s' : NesConsole}
    (h : s.step = .ok (cycles, s')) :
    ∃ cpu1 bus1 nmi,
      s.cpu.step s.bus = .ok (cycles, cpu1, bus1) ∧
      PPU.advance bus1.ppu bus1.cartridge bus1.vram (cycles * 3) = .ok (nmi, s'.bus.ppu) ∧
      s'.cpu = { cpu1 with nmiTriggered := cpu1.nmiTriggered || nmi } := by
  unfold NesConsole.step at h
  split at h
  · exact Except.noConfusion h
  · rename_i cyc cpu1 bus1 hcpu
    dsimp only at h
    split at h
    · exact Except.noConfusion h
    · rename_i s2 hloop
      simp only [Except.ok.injEq, Prod.mk.injEq] at h
      obtain ⟨hcy, hs2⟩ := h
      subst hcy
      subst hs2
      obtain ⟨nmi, hadv, hcpu2⟩ := ppuLoop_advance (cyc * 3) _ _ hloop
      exact ⟨cpu1, bus1, nmi, hcpu, hadv, hcpu2⟩

/-- Total dot advance over a whole console run. -/
theorem run_dotPos : ∀ (n : Nat) (s : NesConsole) (C : Nat) (s' : NesConsole),
    PPUWf s.bus.ppu → NesConsole.run s n = .ok (C, s') →
    dotPos s'.bus.ppu = (dotPos s.bus.ppu + 3 * C) % 89342 ∧ PPUWf s'.bus.ppu := by
  intro n
  induction n with
  | zero =>
    intro s C s' hw h
    unfold NesConsole.run at h
    simp only [Except.ok.injEq, Prod.mk.injEq] at h
    obtain ⟨hC, hs⟩ := h
    subst hC
    subst hs
    refine ⟨?_, hw⟩
    obtain ⟨h1, h2⟩ := hw
    unfold dotPos
    omega
  | succ k ih =>
    intro s C s' hw h
    unfold NesConsole.run at h
    split at h
    · exact Except.noConfusion h
    · rename_i cyc s1 hstep
      split at h
      · exact Except.noConfusion h
      · rename_i rest s2 hrun
        simp only [Except.ok.injEq, Prod.mk.injEq] at h
        obtain ⟨hC, hs⟩ := h
        subst hC
        subst hs
        obtain ⟨cpu1, bus1, nmi, hcpu, hadv, -⟩ := consoleStep_spec hstep
        obtain ⟨ht1, ht2⟩ := step_timing hcpu
        have hw1 : PPUWf bus1.ppu := by
          obtain ⟨h1, h2⟩ := hw
          exact ⟨ht1 ▸ h1, ht2 ▸ h2⟩
        obtain ⟨hd1, hw2⟩ := advance_dotPos (cyc * 3) bus1.ppu bus1.cartridge bus1.vram
          nmi s1.bus.ppu hw1 hadv
        have hdb : dotPos bus1.ppu = dotPos s.bus.ppu := by
          unfold dotPos
          rw [ht1, ht2]
        obtain ⟨hd2, hw3⟩ := ih s1 rest s2 hw2 hrun
        refine ⟨?_, hw3⟩
        rw [hd2, hd1, hdb]
        omega

/-- C1.  The console's cycle ratio PPU:CPU is exactly 3:1.  First
conjunct: each `NesConsole.step` performs one CPU step (which leaves
the PPU dot counters untouched) and then exactly `3 * cycles`
consecutive PPU steps, whose OR-folded NMI flags are latched into the
CPU before its next step.  Second conjunct: over any run reporting a
total of `C` CPU cycles, the PPU dot position advances by exactly
`3 * C`, modulo the 341 x 262 frame. -/
theorem console_ppu_three_to_one :
    (∀ (s : NesConsole) (cycles : Nat) (s' : NesConsole),
      NesConsole.step s = .ok (cycles, s') →
      ∃ cpu1 bus1 nmi,
        s.cpu.step s.bus = .ok (cycles, cpu1, bus1) ∧
        bus1.ppu.cycle = s.bus.ppu.cycle ∧ bus1.ppu.scanline = s.bus.ppu.scanline ∧
        PPU.advance bus1.ppu bus1.cartridge bus1.vram (cycles * 3) =
          .ok (nmi, s'.bus.ppu) ∧
        s'.cpu = { cpu1 with nmiTriggered := cpu1.nmiTriggered || nmi }) ∧
    (∀ (n : Nat) (s : NesConsole) (C : Nat) (s' : NesConsole),
      PPUWf s.bus.ppu → NesConsole.run s n = .ok (C, s') →
      dotPos s'.bus.ppu = (dotPos s.bus.ppu + 3 * C) % 89342 ∧ PPUWf s'.bus.ppu) := by
  constructor
  · intro s cycles s' h
    obtain ⟨cpu1, bus1, nmi, hcpu, hadv, hcpu2⟩ := consoleStep_spec h
    obtain ⟨ht1, ht2⟩ := step_timing hcpu
    exact ⟨cpu1, bus1, nmi, hcpu, ht1, ht2, hadv, hcpu2⟩
  · exact run_dotPos

/-- Console whose CPU is in a one-cycle DMA stall: its step consumes
one cycle and runs three PPU dots. -/
def wConsole : NesConsole := { cpu := { stall := 1 } }

/-- The console state after one step of `wConsole`. -/
def wStepOut : NesConsole :=
  match NesConsole.step wConsole with
  | .ok (_, s) => s
  | .error _ => {}

/-- The console state after a one-step run of `wConsole`. -/
def wOut : NesConsole :=
  match NesConsole.run wConsole 1 with
  | .ok (_, s) => s
  | .error _ => {}

/-- C1 witness: the ratio theorem applied to `wConsole`. -/
theorem console_ppu_three_to_one_witness :
    (∃ cpu1 bus1 nmi,
        wConsole.cpu.step wConsole.bus = .ok (1, cpu1, bus1) ∧
        bus1.ppu.cycle = wConsole.bus.ppu.cycle ∧
        bus1.ppu.scanline = wConsole.bus.ppu.scanline ∧
        PPU.advance bus1.ppu bus1.cartridge bus1.vram (1 * 3) =
          .ok (nmi, wStepOut.bus.ppu) ∧
        wStepOut.cpu = { cpu1 with nmiTriggered := cpu1.nmiTriggered || nmi }) ∧
    dotPos wOut.bus.ppu = (dotPos wConsole.bus.ppu + 3 * 1) % 89342 ∧
    PPUWf wOut.bus.ppu :=
  ⟨console_ppu_three_to_one.1 wConsole 1 wStepOut rfl,
   (console_ppu_three_to_one.2 1 wConsole 1 wOut (by decide) rfl).1,
   (console_ppu_three_to_one.2 1 wConsole 1 wOut (by decide) rfl).2⟩

end Jnes
